import Mathlib

/-! # Diameter AVP accessors and node identifier generators

A shallow embedding of `base_avp.go`, `ts29338/S6c_avp.go`, `ts29338/SGdGdd.go`,
`ts29338/SGdGdd_avp.go` (`SCAddress`), `provider/node.go` and `provider/connection.go`.

* Go `uint32` values are natural numbers, reduced modulo `2^32` where the Go code can overflow.
* Go `[]byte`, `string` and `Identity` values are lists of byte values.
* A Go function with named results `(v, e error)` returns a `Got`, which also counts the
  `Decode` calls it performed.
* The AVP container (`RawAVP`, `Encode`, `Decode`, `Validate`) is declared outside the files
  embedded here; it is modelled from the specification and every such definition says so.
-/

namespace Diameter

/-! ## Errors -/

/-- Reason carried by an `InvalidAVP` error value. -/
inductive InvalidReason
  /-- the empty literal `InvalidAVP{}` of base_avp.go -/
  | unspecified
  /-- a flag, or the vendor-presence invariant, disagrees (Validate) -/
  | FlagMismatch
  /-- the code or the vendor ID disagrees (Validate) -/
  | IdentityMismatch
  /-- the constant `DiameterInvalidAvpBits` of ts29338 -/
  | DiameterInvalidAvpBits
  /-- the constant `DiameterInvalidAvpValue` of ts29338 -/
  | DiameterInvalidAvpValue
  deriving DecidableEq, Repr

/-- Error values returned by the accessors. -/
inductive DiaError
  | InvalidAVP (reason : InvalidReason)
  | NoMandatoryAVP
  | DecodeError
  /-- an error value produced by a package outside this repository -/
  | Foreign (tag : Nat)
  deriving DecidableEq, Repr

deriving instance DecidableEq for Except

/-- The named results `(v, e error)` of a Go getter, with the number of `Decode` calls made. -/
structure Got (α : Type) where
  v : α
  e : Option DiaError
  decodes : Nat
  deriving DecidableEq, Repr

/-! ## Byte helpers -/

/-- Big-endian 4-byte representation of a 32-bit value. -/
def be32 (n : Nat) : List Nat :=
  [n / 2 ^ 24 % 256, n / 2 ^ 16 % 256, n / 2 ^ 8 % 256, n % 256]

/-- Big-endian 3-byte representation of a 24-bit value. -/
def be24 (n : Nat) : List Nat :=
  [n / 2 ^ 16 % 256, n / 2 ^ 8 % 256, n % 256]

/-- Value of four big-endian bytes. -/
def fromBE32 (b0 b1 b2 b3 : Nat) : Nat :=
  b0 * 2 ^ 24 + b1 * 2 ^ 16 + b2 * 2 ^ 8 + b3

/-- Value of three big-endian bytes. -/
def fromBE24 (b0 b1 b2 : Nat) : Nat :=
  b0 * 2 ^ 16 + b1 * 2 ^ 8 + b2

/-- Bytes of an ASCII string literal. -/
def ascii (s : String) : List Nat :=
  s.toList.map Char.toNat

/-! ## RawAVP and its codec -/

/-- Modelled from the spec: the `RawAVP` container (its declaration is not in the embedded
files): `{code: u32, vendorID: u32, flagVendor, flagMandatory, flagProtected, payload}`.
Field names are those the accessors use in their literals. -/
structure RawAVP where
  Code : Nat
  VenID : Nat
  FlgV : Bool
  FlgM : Bool
  FlgP : Bool
  data : List Nat := []
  deriving DecidableEq, Repr

/-- Go `Identity`: a string, held as its bytes. -/
abbrev Identity := List Nat

/-- Go `Enumerated`: a signed 32-bit integer. -/
abbrev Enumerated := Int

namespace RawAVP

/-- Modelled from the spec: the flags byte of the AVP header,
bit7 = Vendor, bit6 = Mandatory, bit5 = Protected, remaining bits 0. -/
def flagsByte (a : RawAVP) : Nat :=
  (if a.FlgV then 128 else 0) + (if a.FlgM then 64 else 0) + (if a.FlgP then 32 else 0)

/-- Modelled from the spec: size of the AVP header, 8 bytes plus the 4-byte Vendor-ID
that is present iff the Vendor flag is set. -/
def headerLen (a : RawAVP) : Nat :=
  if a.FlgV then 12 else 8

/-- Modelled from the spec: number of zero bytes (0 to 3) that pad a payload of length
`L` to a 4-byte boundary, `(4 - L % 4) % 4`. -/
def padLen (L : Nat) : Nat :=
  (4 - L % 4) % 4

/-- Modelled from the spec: the wire form of one AVP (the serializer is not in the embedded
files): 4-byte Code, 1 byte flags, 3-byte Length (header + payload, before padding),
optional 4-byte Vendor-ID present iff the Vendor flag is set, the payload, then 0-3 zero
padding bytes to reach a 4-byte boundary. -/
def marshal (a : RawAVP) : List Nat :=
  be32 a.Code ++ (a.flagsByte :: be24 (a.headerLen + a.data.length))
    ++ (if a.FlgV then be32 a.VenID else [])
    ++ a.data ++ List.replicate (padLen a.data.length) 0

/-- Modelled from the spec: `Validate(vendorID, code, flagVendor, flagMandatory,
flagProtected)` compares the header fields with the expected tuple; it returns
`InvalidAVP{FlagMismatch}` when any flag or the vendor-presence invariant (a set vendor
flag needs a non-zero vendor ID) disagrees, `InvalidAVP{IdentityMismatch}` when the code
or the vendor ID disagrees, and no error otherwise. -/
def Validate (a : RawAVP) (i c : Nat) (v m p : Bool) : Option DiaError :=
  if a.FlgV ≠ v ∨ a.FlgM ≠ m ∨ a.FlgP ≠ p ∨ (a.FlgV = true ∧ a.VenID = 0) then
    some (.InvalidAVP .FlagMismatch)
  else if a.Code ≠ c ∨ a.VenID ≠ i then
    some (.InvalidAVP .IdentityMismatch)
  else none

/-- Modelled from the spec: `Encode` of an `Unsigned32`, 4-byte big-endian; the code,
vendor ID and flags are never changed by `Encode`. -/
def EncodeUnsigned32 (a : RawAVP) (v : Nat) : RawAVP :=
  { a with data := be32 v }

/-- Modelled from the spec: `Decode` into an `Unsigned32`; fails with `DecodeError` when the
payload is not exactly 4 bytes. -/
def DecodeUnsigned32 (a : RawAVP) : Except DiaError Nat :=
  match a.data with
  | [b0, b1, b2, b3] => .ok (fromBE32 b0 b1 b2 b3)
  | _ => .error .DecodeError

/-- Modelled from the spec: `Encode` of an `Enumerated`, 4-byte big-endian (two's
complement of the signed 32-bit value). -/
def EncodeEnumerated (a : RawAVP) (v : Enumerated) : RawAVP :=
  { a with data := be32 (v % 2 ^ 32).toNat }

/-- Modelled from the spec: `Decode` into an `Enumerated`; fails with `DecodeError` when the
payload is not exactly 4 bytes. -/
def DecodeEnumerated (a : RawAVP) : Except DiaError Enumerated :=
  match a.data with
  | [b0, b1, b2, b3] =>
    let n := fromBE32 b0 b1 b2 b3
    .ok (if n < 2 ^ 31 then (n : Int) else (n : Int) - 2 ^ 32)
  | _ => .error .DecodeError

/-- Modelled from the spec: `Encode` of an `OctetString`, the raw bytes. -/
def EncodeOctetString (a : RawAVP) (v : List Nat) : RawAVP :=
  { a with data := v }

/-- Modelled from the spec: `Decode` into an `OctetString`, the raw bytes. -/
def DecodeOctetString (a : RawAVP) : Except DiaError (List Nat) :=
  .ok a.data

end RawAVP

/-- Well-formed UTF-8 (RFC 3629): no overlong forms, no surrogates, nothing above U+10FFFF. -/
def validUTF8 : List Nat → Bool
  | [] => true
  | [b0] => b0 < 0x80
  | [b0, b1] =>
    if b0 < 0x80 then validUTF8 [b1]
    else 0xC2 ≤ b0 && b0 ≤ 0xDF && 0x80 ≤ b1 && b1 ≤ 0xBF
  | [b0, b1, b2] =>
    if b0 < 0x80 then validUTF8 [b1, b2]
    else if 0xC2 ≤ b0 && b0 ≤ 0xDF then 0x80 ≤ b1 && b1 ≤ 0xBF && validUTF8 [b2]
    else 0xE0 ≤ b0 && b0 ≤ 0xEF
      && (if b0 = 0xE0 then 0xA0 else 0x80) ≤ b1 && b1 ≤ (if b0 = 0xED then 0x9F else 0xBF)
      && 0x80 ≤ b2 && b2 ≤ 0xBF
  | b0 :: b1 :: b2 :: b3 :: rest =>
    if b0 < 0x80 then validUTF8 (b1 :: b2 :: b3 :: rest)
    else if 0xC2 ≤ b0 && b0 ≤ 0xDF then
      0x80 ≤ b1 && b1 ≤ 0xBF && validUTF8 (b2 :: b3 :: rest)
    else if 0xE0 ≤ b0 && b0 ≤ 0xEF then
      (if b0 = 0xE0 then 0xA0 else 0x80) ≤ b1 && b1 ≤ (if b0 = 0xED then 0x9F else 0xBF)
      && 0x80 ≤ b2 && b2 ≤ 0xBF && validUTF8 (b3 :: rest)
    else 0xF0 ≤ b0 && b0 ≤ 0xF4
      && (if b0 = 0xF0 then 0x90 else 0x80) ≤ b1 && b1 ≤ (if b0 = 0xF4 then 0x8F else 0xBF)
      && 0x80 ≤ b2 && b2 ≤ 0xBF && 0x80 ≤ b3 && b3 ≤ 0xBF && validUTF8 rest

/-- Printable host-name characters: ASCII letters, digits, hyphen and dot. -/
def isHostNameByte (b : Nat) : Bool :=
  (0x61 ≤ b && b ≤ 0x7A) || (0x41 ≤ b && b ≤ 0x5A) || (0x30 ≤ b && b ≤ 0x39)
    || b = 0x2D || b = 0x2E

/-- The byte lengths of a Go `net.IP`: 4 (IPv4) or 16 (IPv6). -/
def validIP (ip : List Nat) : Bool :=
  ip.length = 4 || ip.length = 16

namespace RawAVP

/-- Modelled from the spec: `Encode` of a `UTF8String`, its UTF-8 bytes (a Go string is
its bytes). -/
def EncodeUTF8String (a : RawAVP) (v : List Nat) : RawAVP :=
  { a with data := v }

/-- Modelled from the spec: `Decode` into a `UTF8String`; fails with `DecodeError` on
non-UTF-8 bytes. -/
def DecodeUTF8String (a : RawAVP) : Except DiaError (List Nat) :=
  if validUTF8 a.data then .ok a.data else .error .DecodeError

/-- Modelled from the spec: `Encode` of an `Identity`, its ASCII bytes. -/
def EncodeIdentity (a : RawAVP) (v : Identity) : RawAVP :=
  { a with data := v }

/-- Modelled from the spec: `Decode` into an `Identity`: the ASCII bytes, validated as
printable host-name characters. -/
def DecodeIdentity (a : RawAVP) : Except DiaError Identity :=
  if a.data.all isHostNameByte then .ok a.data else .error .DecodeError

/-- Modelled from the spec: `Encode` of an `Address`: a 2-byte address-family tag
(1 = IPv4, 2 = IPv6) followed by the 4 or 16 raw address bytes; an address of any other
length leaves the payload empty. -/
def EncodeAddress (a : RawAVP) (v : List Nat) : RawAVP :=
  if v.length = 4 then { a with data := 0 :: 1 :: v }
  else if v.length = 16 then { a with data := 0 :: 2 :: v }
  else a

/-- Modelled from the spec: `Decode` into an `Address`; fails with `DecodeError` on an
invalid address-family tag or a length that does not match the family. -/
def DecodeAddress (a : RawAVP) : Except DiaError (List Nat) :=
  match a.data with
  | 0 :: 1 :: v => if v.length = 4 then .ok v else .error .DecodeError
  | 0 :: 2 :: v => if v.length = 16 then .ok v else .error .DecodeError
  | _ => .error .DecodeError

/-- Modelled from the spec: `Encode` of a `Grouped` value: the concatenation of the
fully-encoded child AVPs, each individually padded to 4 bytes. -/
def EncodeGrouped (a : RawAVP) (v : List RawAVP) : RawAVP :=
  { a with data := (v.map marshal).flatten }

/-- Modelled from the spec: re-parse a byte range AVP-by-AVP until exhausted. Each step
reads one 8-byte header (so `fuel` steps suffice for `8 * fuel + 7` bytes); a truncated
header, a declared length shorter than the header, or a declared length larger than the
bytes remaining is a `DecodeError`. Nothing outside the given bytes is read. -/
def parseAVPs : Nat → List Nat → Except DiaError (List RawAVP)
  | _, [] => .ok []
  | fuel + 1, c0 :: c1 :: c2 :: c3 :: fl :: l0 :: l1 :: l2 :: rest =>
    let len := fromBE24 l0 l1 l2
    let flgV : Bool := fl / 128 % 2 = 1
    let hdr := if flgV then 12 else 8
    if len < hdr ∨ 8 + rest.length < len then .error .DecodeError
    else
      let body := rest.drop (hdr - 8)
      match parseAVPs fuel (body.drop (len - hdr + padLen (len - hdr))) with
      | .error e => .error e
      | .ok more =>
        .ok ({ Code := fromBE32 c0 c1 c2 c3
               VenID := if flgV then
                   match rest with
                   | v0 :: v1 :: v2 :: v3 :: _ => fromBE32 v0 v1 v2 v3
                   | _ => 0
                 else 0
               FlgV := flgV
               FlgM := fl / 64 % 2 = 1
               FlgP := fl / 32 % 2 = 1
               data := body.take (len - hdr) } :: more)
  | _, _ => .error .DecodeError

/-- Modelled from the spec: `Decode` into a `Grouped` value (an ordered list of children). -/
def DecodeGrouped (a : RawAVP) : Except DiaError (List RawAVP) :=
  parseAVPs (a.data.length / 8) a.data

end RawAVP

/-! ## base_avp.go -/

def setHostIPAddress (v : List Nat) : RawAVP :=
  let a : RawAVP := { Code := 257, VenID := 0, FlgV := false, FlgM := true, FlgP := false }
  a.EncodeAddress v

def getHostIPAddress (a : RawAVP) : Got (List Nat) :=
  match a.Validate 0 257 false true false with
  | some e => { v := [], e := some e, decodes := 0 }
  | none =>
    match a.DecodeAddress with
    | .ok v => { v := v, e := none, decodes := 1 }
    | .error e => { v := [], e := some e, decodes := 1 }

def setAuthAppID (v : Nat) : RawAVP :=
  let a : RawAVP := { Code := 258, VenID := 0, FlgV := false, FlgM := true, FlgP := false }
  a.EncodeUnsigned32 v

def getAuthAppID (a : RawAVP) : Got Nat :=
  match a.Validate 0 258 false true false with
  | some e => { v := 0, e := some e, decodes := 0 }
  | none =>
    match a.DecodeUnsigned32 with
    | .ok v => { v := v, e := none, decodes := 1 }
    | .error e => { v := 0, e := some e, decodes := 1 }

def setOriginHost (v : Identity) : RawAVP :=
  let a : RawAVP := { Code := 264, VenID := 0, FlgV := false, FlgM := true, FlgP := false }
  a.EncodeIdentity v

def getOriginHost (a : RawAVP) : Got Identity :=
  match a.Validate 0 264 false true false with
  | some e => { v := [], e := some e, decodes := 0 }
  | none =>
    match a.DecodeIdentity with
    | .ok v => { v := v, e := none, decodes := 1 }
    | .error e => { v := [], e := some e, decodes := 1 }

def setVendorID (v : Nat) : RawAVP :=
  let a : RawAVP := { Code := 266, VenID := 0, FlgV := false, FlgM := true, FlgP := false }
  a.EncodeUnsigned32 v

def getVendorID (a : RawAVP) : Got Nat :=
  match a.Validate 0 266 false true false with
  | some e => { v := 0, e := some e, decodes := 0 }
  | none =>
    match a.DecodeUnsigned32 with
    | .ok v => { v := v, e := none, decodes := 1 }
    | .error e => { v := 0, e := some e, decodes := 1 }

def setVendorSpecAppID (vi ai : Nat) : RawAVP :=
  let a : RawAVP := { Code := 260, VenID := 0, FlgV := false, FlgM := true, FlgP := false }
  a.EncodeGrouped [setVendorID vi, setAuthAppID ai]

/-- Body of the `for _, a := range o` loop of `getVendorSpecAppID`; the state is the named
results `(vi, ai)` and `e`. -/
def getVendorSpecAppID_loop (s : Got (Nat × Nat)) (a : RawAVP) : Got (Nat × Nat) :=
  if a.VenID ≠ 0 then s
  else if a.Code = 266 then
    let g := getVendorID a
    { v := (g.v, s.v.2), e := g.e, decodes := s.decodes + g.decodes }
  else if a.Code = 258 then
    let g := getAuthAppID a
    { v := (s.v.1, g.v), e := g.e, decodes := s.decodes + g.decodes }
  else s

def getVendorSpecAppID (a : RawAVP) : Got (Nat × Nat) :=
  let s0 : Got (Nat × Nat) × List RawAVP :=
    match a.Validate 0 260 false true false with
    | some e => ({ v := (0, 0), e := some e, decodes := 0 }, [])
    | none =>
      match a.DecodeGrouped with
      | .ok o => ({ v := (0, 0), e := none, decodes := 1 }, o)
      | .error e => ({ v := (0, 0), e := some e, decodes := 1 }, [])
  let s := s0.2.foldl getVendorSpecAppID_loop s0.1
  if s.v.1 = 0 ∨ s.v.2 = 0 then { s with e := some .NoMandatoryAVP } else s

def setFirmwareRevision (v : Nat) : RawAVP :=
  let a : RawAVP := { Code := 267, VenID := 0, FlgV := false, FlgM := false, FlgP := false }
  a.EncodeUnsigned32 v

def getFirmwareRevision (a : RawAVP) : Got Nat :=
  match a.Validate 0 267 false false false with
  | some e => { v := 0, e := some e, decodes := 0 }
  | none =>
    match a.DecodeUnsigned32 with
    | .ok v => { v := v, e := none, decodes := 1 }
    | .error e => { v := 0, e := some e, decodes := 1 }

def setResultCode (v : Nat) : RawAVP :=
  let a : RawAVP := { Code := 268, VenID := 0, FlgV := false, FlgM := true, FlgP := false }
  a.EncodeUnsigned32 v

def getResultCode (a : RawAVP) : Got Nat :=
  match a.Validate 0 268 false true false with
  | some e => { v := 0, e := some e, decodes := 0 }
  | none =>
    match a.DecodeUnsigned32 with
    | .ok v => { v := v, e := none, decodes := 1 }
    | .error e => { v := 0, e := some e, decodes := 1 }

def setProductName (v : List Nat) : RawAVP :=
  let a : RawAVP := { Code := 269, VenID := 0, FlgV := false, FlgM := false, FlgP := false }
  a.EncodeUTF8String v

def getProductName (a : RawAVP) : Got (List Nat) :=
  match a.Validate 0 269 false false false with
  | some e => { v := [], e := some e, decodes := 0 }
  | none =>
    match a.DecodeUTF8String with
    | .ok v => { v := v, e := none, decodes := 1 }
    | .error e => { v := [], e := some e, decodes := 1 }

/-- Rebooting is Enumerated value 0 -/
def Rebooting : Enumerated := 0
/-- Busy is Enumerated value 1 -/
def Busy : Enumerated := 1
/-- DoNotWantToTalkToYou is Enumerated value 2 -/
def DoNotWantToTalkToYou : Enumerated := 2

def setDisconnectCause (v : Enumerated) : RawAVP :=
  let a : RawAVP := { Code := 273, VenID := 0, FlgV := false, FlgM := true, FlgP := false }
  a.EncodeEnumerated v

def getDisconnectCause (a : RawAVP) : Got Enumerated :=
  let g : Got Enumerated :=
    match a.Validate 0 273 false true false with
    | some e => { v := 0, e := some e, decodes := 0 }
    | none =>
      match a.DecodeEnumerated with
      | .ok v => { v := v, e := none, decodes := 1 }
      | .error e => { v := 0, e := some e, decodes := 1 }
  if g.v < 0 ∨ g.v > 2 then { g with e := some (.InvalidAVP .unspecified) } else g

def setOriginStateID (v : Nat) : RawAVP :=
  let a : RawAVP := { Code := 278, VenID := 0, FlgV := false, FlgM := true, FlgP := false }
  a.EncodeUnsigned32 v

def getOriginStateID (a : RawAVP) : Got Nat :=
  match a.Validate 0 278 false true false with
  | some e => { v := 0, e := some e, decodes := 0 }
  | none =>
    match a.DecodeUnsigned32 with
    | .ok v => { v := v, e := none, decodes := 1 }
    | .error e => { v := 0, e := some e, decodes := 1 }

def setFailedAVP (v : List RawAVP) : RawAVP :=
  let a : RawAVP := { Code := 279, VenID := 0, FlgV := false, FlgM := true, FlgP := false }
  a.EncodeGrouped v

def getFailedAVP (a : RawAVP) : Got (List RawAVP) :=
  match a.Validate 0 279 false true false with
  | some e => { v := [], e := some e, decodes := 0 }
  | none =>
    match a.DecodeGrouped with
    | .ok v => { v := v, e := none, decodes := 1 }
    | .error e => { v := [], e := some e, decodes := 1 }

def setSupportedVendorID (v : Nat) : RawAVP :=
  let a : RawAVP := { Code := 265, VenID := 0, FlgV := false, FlgM := true, FlgP := false }
  a.EncodeUnsigned32 v

def getSupportedVendorID (a : RawAVP) : Got Nat :=
  match a.Validate 0 265 false true false with
  | some e => { v := 0, e := some e, decodes := 0 }
  | none =>
    match a.DecodeUnsigned32 with
    | .ok v => { v := v, e := none, decodes := 1 }
    | .error e => { v := 0, e := some e, decodes := 1 }

def setErrorMessage (v : List Nat) : RawAVP :=
  let a : RawAVP := { Code := 281, VenID := 0, FlgV := false, FlgM := false, FlgP := false }
  a.EncodeUTF8String v

def getErrorMessage (a : RawAVP) : Got (List Nat) :=
  match a.Validate 0 281 false false false with
  | some e => { v := [], e := some e, decodes := 0 }
  | none =>
    match a.DecodeUTF8String with
    | .ok v => { v := v, e := none, decodes := 1 }
    | .error e => { v := [], e := some e, decodes := 1 }

def setOriginRealm (v : Identity) : RawAVP :=
  let a : RawAVP := { Code := 296, VenID := 0, FlgV := false, FlgM := true, FlgP := false }
  a.EncodeIdentity v

def getOriginRealm (a : RawAVP) : Got Identity :=
  match a.Validate 0 296 false true false with
  | some e => { v := [], e := some e, decodes := 0 }
  | none =>
    match a.DecodeIdentity with
    | .ok v => { v := v, e := none, decodes := 1 }
    | .error e => { v := [], e := some e, decodes := 1 }

/-! ## ts29338/S6c_avp.go -/

namespace ts29338

/-- What the accessors use of the packages `teldata` and `sms`, which are outside this
repository: the zero values of their types and the functions called on them. A Go
function returning `(v, error)` returns the pair. -/
structure Deps (IMSI E164 Address : Type) where
  /-- zero value of `teldata.IMSI` -/
  zeroIMSI : IMSI
  /-- zero value of `teldata.E164` -/
  zeroE164 : E164
  /-- zero value of `sms.Address` -/
  zeroAddress : Address
  /-- method `teldata.IMSI.String` -/
  IMSIString : IMSI → List Nat
  /-- function `teldata.ParseIMSI` -/
  ParseIMSI : List Nat → IMSI × Option DiaError
  /-- method `teldata.E164.Bytes` -/
  E164Bytes : E164 → List Nat
  /-- function `teldata.B2E164` -/
  B2E164 : List Nat → E164 × Option DiaError
  /-- method `sms.Address.Encode`, which returns a length byte and the bytes -/
  AddressEncode : Address → Nat × List Nat
  /-- method `sms.Address.Decode(l, b)`, which updates its receiver -/
  AddressDecode : Address → Nat → List Nat → Address

/-- Modelled from the spec: `Decode` into a target whose type is none of the codec's value
types (here `*teldata.E164`): no branch of the type dispatch applies, the target is left
unchanged and an error is returned. -/
def DecodeForeign (_a : RawAVP) : Option DiaError :=
  some .DecodeError

def setUserName {IMSI E164 Address : Type} (D : Deps IMSI E164 Address) (v : IMSI) : RawAVP :=
  let a : RawAVP := { Code := 1, VenID := 0, FlgV := false, FlgM := true, FlgP := false }
  a.EncodeUTF8String (D.IMSIString v)

def getUserName {IMSI E164 Address : Type} (D : Deps IMSI E164 Address) (a : RawAVP) :
    Got IMSI :=
  if a.FlgV || !a.FlgM || a.FlgP then
    { v := D.zeroIMSI, e := some (.InvalidAVP .DiameterInvalidAvpBits), decodes := 0 }
  else
    match a.DecodeUTF8String with
    | .error e => { v := D.zeroIMSI, e := some e, decodes := 1 }
    | .ok s => { v := (D.ParseIMSI s).1, e := (D.ParseIMSI s).2, decodes := 1 }

def setMSISDN {IMSI E164 Address : Type} (D : Deps IMSI E164 Address) (v : E164) : RawAVP :=
  let a : RawAVP := { Code := 701, VenID := 10415, FlgV := true, FlgM := true, FlgP := false }
  a.EncodeOctetString (D.E164Bytes v)

def getMSISDN {IMSI E164 Address : Type} (D : Deps IMSI E164 Address) (a : RawAVP) :
    Got E164 :=
  if !a.FlgV || !a.FlgM || a.FlgP then
    { v := D.zeroE164, e := some (.InvalidAVP .DiameterInvalidAvpBits), decodes := 0 }
  else
    match a.DecodeOctetString with
    | .error e => { v := D.zeroE164, e := some e, decodes := 1 }
    | .ok s => { v := (D.B2E164 s).1, e := (D.B2E164 s).2, decodes := 1 }

/-- MTType indicate SM-RP-MTI (a Go `int`). -/
abbrev MTType := Int
/-- UnknownMT is no SM-RP-MTI -/
def UnknownMT : MTType := 0
/-- DeliverMT is SM_DELIVER -/
def DeliverMT : MTType := 1
/-- StatusReportMT is SM_STATUS_REPORT -/
def StatusReportMT : MTType := 2

def setSMRPMTI (v : MTType) : RawAVP :=
  let a : RawAVP := { Code := 3308, VenID := 10415, FlgV := true, FlgM := true, FlgP := false }
  if v = DeliverMT then a.EncodeEnumerated 0
  else if v = StatusReportMT then a.EncodeEnumerated 1
  else a

def getSMRPMTI (a : RawAVP) : Got MTType :=
  if !a.FlgV || !a.FlgM || a.FlgP then
    { v := UnknownMT, e := some (.InvalidAVP .DiameterInvalidAvpBits), decodes := 0 }
  else
    match a.DecodeEnumerated with
    | .error e => { v := UnknownMT, e := some e, decodes := 1 }
    | .ok s =>
      if s = 0 then { v := DeliverMT, e := none, decodes := 1 }
      else if s = 1 then { v := StatusReportMT, e := none, decodes := 1 }
      else { v := UnknownMT, e := some (.InvalidAVP .DiameterInvalidAvpValue), decodes := 1 }

def setSMRPSMEA {IMSI E164 Address : Type} (D : Deps IMSI E164 Address) (v : Address) :
    RawAVP :=
  let a : RawAVP := { Code := 3309, VenID := 10415, FlgV := true, FlgM := true, FlgP := false }
  a.EncodeOctetString (D.AddressEncode v).2

/-- The Go expression `byte(len(s)-3)*2`: both the conversion and the product wrap at 256. -/
def smeaLength (s : List Nat) : Nat :=
  ((((s.length : Int) - 3) % 256).toNat * 2) % 256

def getSMRPSMEA {IMSI E164 Address : Type} (D : Deps IMSI E164 Address) (a : RawAVP) :
    Got Address :=
  if !a.FlgV || !a.FlgM || a.FlgP then
    { v := D.zeroAddress, e := some (.InvalidAVP .DiameterInvalidAvpBits), decodes := 0 }
  else
    match a.DecodeOctetString with
    | .error e => { v := D.zeroAddress, e := some e, decodes := 1 }
    | .ok s => { v := D.AddressDecode D.zeroAddress (smeaLength s) s, e := none, decodes := 1 }

def setSRRFlags (g p s : Bool) : RawAVP :=
  let a : RawAVP := { Code := 3310, VenID := 10415, FlgV := true, FlgM := true, FlgP := false }
  let i := 0
  let i := if g then i ||| 0x00000001 else i
  let i := if p then i ||| 0x00000002 else i
  let i := if s then i ||| 0x00000004 else i
  a.EncodeUnsigned32 i

def getSRRFlags (a : RawAVP) : Got (Bool × Bool × Bool) :=
  if !a.FlgV || !a.FlgM || a.FlgP then
    { v := (false, false, false), e := some (.InvalidAVP .DiameterInvalidAvpBits), decodes := 0 }
  else
    match a.DecodeUnsigned32 with
    | .error e => { v := (false, false, false), e := some e, decodes := 1 }
    | .ok v =>
      { v := (v &&& 0x00000001 == 0x00000001, v &&& 0x00000002 == 0x00000002,
              v &&& 0x00000004 == 0x00000004),
        e := none, decodes := 1 }

/-- RequiredInfo indicate SM-Delivery-Not-Intended AVP data (a Go `int`). -/
abbrev RequiredInfo := Int
/-- LocationRequested is no SM-Delivery-Not-Intended -/
def LocationRequested : RequiredInfo := 0
/-- OnlyImsiRequested is ONLY_IMSI_REQUESTED -/
def OnlyImsiRequested : RequiredInfo := 1
/-- OnlyMccMncRequested is ONLY_MCC_MNC_REQUESTED -/
def OnlyMccMncRequested : RequiredInfo := 2

def setSMDeliveryNotIntended (v : RequiredInfo) : RawAVP :=
  let a : RawAVP := { Code := 3311, VenID := 10415, FlgV := true, FlgM := true, FlgP := false }
  if v = OnlyImsiRequested then a.EncodeEnumerated 0
  else if v = OnlyMccMncRequested then a.EncodeEnumerated 1
  else a

def getSMDeliveryNotIntended (a : RawAVP) : Got RequiredInfo :=
  if !a.FlgV || !a.FlgM || a.FlgP then
    { v := LocationRequested, e := some (.InvalidAVP .DiameterInvalidAvpBits), decodes := 0 }
  else
    match a.DecodeEnumerated with
    | .error e => { v := LocationRequested, e := some e, decodes := 1 }
    | .ok s =>
      if s = 0 then { v := OnlyImsiRequested, e := none, decodes := 1 }
      else if s = 1 then { v := OnlyMccMncRequested, e := none, decodes := 1 }
      else { v := LocationRequested, e := some (.InvalidAVP .DiameterInvalidAvpValue), decodes := 1 }

/-- NodeType is tyoe of serving node address (a Go `int`). -/
abbrev NodeType := Int
/-- NodeSGSN present SGSN -/
def NodeSGSN : NodeType := 0
/-- NodeMME present MME -/
def NodeMME : NodeType := 1
/-- NodeMSC present MSC -/
def NodeMSC : NodeType := 2

/-- The children `setSN` builds: the number child, then the name and realm children when
the identity is not empty. For a node type outside the three cases the slice keeps its
single zero-valued element. -/
def setSN_children {IMSI E164 Address : Type} (D : Deps IMSI E164 Address)
    (t : NodeType) (d : E164) (n r : Identity) : List RawAVP :=
  if t = NodeSGSN then
    [({ Code := 1489, VenID := 10415, FlgV := true, FlgM := true, FlgP := false } :
        RawAVP).EncodeOctetString (D.E164Bytes d)]
    ++ (if n.length ≠ 0 then
          [({ Code := 2409, VenID := 10415, FlgV := true, FlgM := false, FlgP := false } :
            RawAVP).EncodeIdentity n]
        else [])
    ++ (if r.length ≠ 0 then
          [({ Code := 2410, VenID := 10415, FlgV := true, FlgM := false, FlgP := false } :
            RawAVP).EncodeIdentity r]
        else [])
  else if t = NodeMME then
    [({ Code := 1645, VenID := 10415, FlgV := true, FlgM := true, FlgP := false } :
        RawAVP).EncodeOctetString (D.E164Bytes d)]
    ++ (if n.length ≠ 0 then
          [({ Code := 2402, VenID := 10415, FlgV := true, FlgM := true, FlgP := false } :
            RawAVP).EncodeIdentity n]
        else [])
    ++ (if r.length ≠ 0 then
          [({ Code := 2408, VenID := 10415, FlgV := true, FlgM := true, FlgP := false } :
            RawAVP).EncodeIdentity r]
        else [])
  else if t = NodeMSC then
    [({ Code := 2403, VenID := 10415, FlgV := true, FlgM := true, FlgP := false } :
        RawAVP).EncodeOctetString (D.E164Bytes d)]
    ++ (if n.length ≠ 0 then
          [({ Code := 2402, VenID := 10415, FlgV := true, FlgM := true, FlgP := false } :
            RawAVP).EncodeIdentity n]
        else [])
    ++ (if r.length ≠ 0 then
          [({ Code := 2408, VenID := 10415, FlgV := true, FlgM := true, FlgP := false } :
            RawAVP).EncodeIdentity r]
        else [])
  else
    [{ Code := 0, VenID := 0, FlgV := false, FlgM := false, FlgP := false }]

def setSN {IMSI E164 Address : Type} (D : Deps IMSI E164 Address) (a : RawAVP)
    (t : NodeType) (d : E164) (n r : Identity) : RawAVP :=
  a.EncodeGrouped (setSN_children D t d n r)

def setServingNode {IMSI E164 Address : Type} (D : Deps IMSI E164 Address)
    (t : NodeType) (d : E164) (n r : Identity) : RawAVP :=
  let a : RawAVP := { Code := 2401, VenID := 10415, FlgV := true, FlgM := true, FlgP := false }
  setSN D a t d n r

def setAdditionalServingNode {IMSI E164 Address : Type} (D : Deps IMSI E164 Address)
    (t : NodeType) (d : E164) (n r : Identity) : RawAVP :=
  let a : RawAVP := { Code := 2406, VenID := 10415, FlgV := true, FlgM := true, FlgP := false }
  setSN D a t d n r

/-- The named results `(t, d, n, r, e)` of `getSN`, with the number of `Decode` calls. -/
structure SN (E164 : Type) where
  t : NodeType
  d : E164
  n : Identity
  r : Identity
  e : Option DiaError
  decodes : Nat

/-- The body shared by the cases 1489, 1645 and 2403 of the first loop of `getSN`, which
differ only in the node type `t` they assign. -/
def getSN_number {IMSI E164 Address : Type} (D : Deps IMSI E164 Address) (t : NodeType)
    (s : SN E164) (a : RawAVP) : SN E164 :=
  if !a.FlgV || !a.FlgM || a.FlgP then
    { s with e := some (.InvalidAVP .DiameterInvalidAvpBits) }
  else
    match a.DecodeOctetString with
    | .error e => { s with e := some e, decodes := s.decodes + 1 }
    | .ok b =>
      { s with d := (D.B2E164 b).1, e := (D.B2E164 b).2, t := t, decodes := s.decodes + 1 }

/-- Body of the first `for _, a := range o` loop of `getSN`. -/
def getSN_loop1 {IMSI E164 Address : Type} (D : Deps IMSI E164 Address)
    (s : SN E164) (a : RawAVP) : SN E164 :=
  if a.Code = 1489 then getSN_number D NodeSGSN s a
  else if a.Code = 1645 then getSN_number D NodeMME s a
  else if a.Code = 2403 then getSN_number D NodeMSC s a
  else s

/-- The body of a name case (2409, 2402) of the second loop of `getSN`. -/
def getSN_name {E164 : Type} (s : SN E164) (a : RawAVP) : SN E164 :=
  if !a.FlgV || !a.FlgM || a.FlgP then
    { s with e := some (.InvalidAVP .DiameterInvalidAvpBits) }
  else
    match a.DecodeIdentity with
    | .error e => { s with e := some e, decodes := s.decodes + 1 }
    | .ok n => { s with n := n, e := none, decodes := s.decodes + 1 }

/-- The body of a realm case (2410, 2408) of the second loop of `getSN`. -/
def getSN_realm {E164 : Type} (s : SN E164) (a : RawAVP) : SN E164 :=
  if !a.FlgV || !a.FlgM || a.FlgP then
    { s with e := some (.InvalidAVP .DiameterInvalidAvpBits) }
  else
    match a.DecodeIdentity with
    | .error e => { s with e := some e, decodes := s.decodes + 1 }
    | .ok r => { s with r := r, e := none, decodes := s.decodes + 1 }

/-- Body of the loop of `case NodeSGSN` in the final switch of `getSN`. -/
def getSN_loopSGSN {E164 : Type} (s : SN E164) (a : RawAVP) : SN E164 :=
  if a.Code = 2409 then getSN_name s a
  else if a.Code = 2410 then getSN_realm s a
  else s

/-- Body of the loop of `case NodeMME, NodeMSC` in the final switch of `getSN`. -/
def getSN_loopMME {E164 : Type} (s : SN E164) (a : RawAVP) : SN E164 :=
  if a.Code = 2402 then getSN_name s a
  else if a.Code = 2408 then getSN_realm s a
  else s

def getSN {IMSI E164 Address : Type} (D : Deps IMSI E164 Address) (a : RawAVP) : SN E164 :=
  let z : SN E164 := { t := NodeSGSN, d := D.zeroE164, n := [], r := [], e := none, decodes := 0 }
  let s0 : SN E164 × List RawAVP :=
    if !a.FlgV || !a.FlgM || a.FlgP then
      ({ z with e := some (.InvalidAVP .DiameterInvalidAvpBits) }, [])
    else
      match a.DecodeGrouped with
      | .ok o => ({ z with decodes := 1 }, o)
      | .error e => ({ z with e := some e, decodes := 1 }, [])
  let s1 := s0.2.foldl (getSN_loop1 D) s0.1
  if s1.t = NodeSGSN then s0.2.foldl getSN_loopSGSN s1
  else if s1.t = NodeMME ∨ s1.t = NodeMSC then s0.2.foldl getSN_loopMME s1
  else s1

def getServingNode {IMSI E164 Address : Type} (D : Deps IMSI E164 Address) (a : RawAVP) :
    SN E164 :=
  getSN D a

def getAdditionalServingNode {IMSI E164 Address : Type} (D : Deps IMSI E164 Address)
    (a : RawAVP) : SN E164 :=
  getSN D a

def setLMSI (v : Nat) : RawAVP :=
  let a : RawAVP := { Code := 2400, VenID := 10415, FlgV := true, FlgM := true, FlgP := false }
  a.EncodeOctetString (be32 v)

def getLMSI (a : RawAVP) : Got Nat :=
  if !a.FlgV || !a.FlgM || a.FlgP then
    { v := 0, e := some (.InvalidAVP .DiameterInvalidAvpBits), decodes := 0 }
  else
    match a.DecodeOctetString with
    | .error e => { v := 0, e := some e, decodes := 1 }
    | .ok s =>
      match s with
      | [b0, b1, b2, b3] => { v := fromBE32 b0 b1 b2 b3, e := none, decodes := 1 }
      | _ => { v := 0, e := none, decodes := 1 }

def setUserIdentifier {IMSI E164 Address : Type} (D : Deps IMSI E164 Address) (v : E164) :
    RawAVP :=
  let a : RawAVP := { Code := 3102, VenID := 10415, FlgV := true, FlgM := true, FlgP := false }
  let t : List RawAVP :=
    [({ Code := 701, VenID := 10415, FlgV := true, FlgM := true, FlgP := false } :
      RawAVP).EncodeOctetString (D.E164Bytes v)]
  a.EncodeGrouped t

/-- Body of the `for _, a := range o` loop of `getUserIdentifier`: the result of
`a.Decode(&v)` is discarded. -/
def getUserIdentifier_loop {E164 : Type} (s : Got E164) (a : RawAVP) : Got E164 :=
  if a.Code ≠ 701 then s
  else if !a.FlgV || !a.FlgM || a.FlgP then
    { s with e := some (.InvalidAVP .DiameterInvalidAvpBits) }
  else
    match DecodeForeign a with
    | _ => { s with decodes := s.decodes + 1 }

def getUserIdentifier {IMSI E164 Address : Type} (D : Deps IMSI E164 Address) (a : RawAVP) :
    Got E164 :=
  if !a.FlgV || !a.FlgM || a.FlgP then
    { v := D.zeroE164, e := some (.InvalidAVP .DiameterInvalidAvpBits), decodes := 0 }
  else
    match a.DecodeGrouped with
    | .error e => { v := D.zeroE164, e := some e, decodes := 1 }
    | .ok o => o.foldl getUserIdentifier_loop { v := D.zeroE164, e := none, decodes := 1 }

def setMWDStatus (sca mnrf mcef mnrg : Bool) : RawAVP :=
  let a : RawAVP := { Code := 3312, VenID := 10415, FlgV := true, FlgM := true, FlgP := false }
  let i := 0
  let i := if sca then i ||| 0x00000001 else i
  let i := if mnrf then i ||| 0x00000002 else i
  let i := if mcef then i ||| 0x00000004 else i
  let i := if mnrg then i ||| 0x00000008 else i
  a.EncodeUnsigned32 i

def getMWDStatus (a : RawAVP) : Got (Bool × Bool × Bool × Bool) :=
  if !a.FlgV || !a.FlgM || a.FlgP then
    { v := (false, false, false, false), e := some (.InvalidAVP .DiameterInvalidAvpBits), decodes := 0 }
  else
    match a.DecodeUnsigned32 with
    | .error e => { v := (false, false, false, false), e := some e, decodes := 1 }
    | .ok s =>
      { v := (s &&& 0x00000001 == 0x00000001, s &&& 0x00000002 == 0x00000002,
              s &&& 0x00000004 == 0x00000004, s &&& 0x00000008 == 0x00000008),
        e := none, decodes := 1 }

/-- AbsentDiag indicate Absent-User-Diagnostic-SM (a Go `int`). -/
abbrev AbsentDiag := Int
def NoAbsentDiag : AbsentDiag := 0
def NoPagingRespMSC : AbsentDiag := 1
def IMSIDetached : AbsentDiag := 2
def RoamingRestrict : AbsentDiag := 3
def DeregisteredNonGPRS : AbsentDiag := 4
def PurgedNonGPRS : AbsentDiag := 5
def NoPagingRespSGSN : AbsentDiag := 6
def GPRSDetached : AbsentDiag := 7
def DeregisteredGPRS : AbsentDiag := 8
def PurgedGPRS : AbsentDiag := 9
def UnidentifiedSubsMSC : AbsentDiag := 10
def UnidentifiedSubsSGSN : AbsentDiag := 11
def DeregisteredIMS : AbsentDiag := 12
def NoRespIPSMGW : AbsentDiag := 13
def TempUnavailable : AbsentDiag := 14

def setMMEAbsentUserDiagnosticSM (v : AbsentDiag) : RawAVP :=
  let a : RawAVP := { Code := 3313, VenID := 10415, FlgV := true, FlgM := true, FlgP := false }
  if v = NoPagingRespMSC then a.EncodeUnsigned32 0
  else if v = IMSIDetached then a.EncodeUnsigned32 1
  else if v = RoamingRestrict then a.EncodeUnsigned32 2
  else if v = DeregisteredNonGPRS then a.EncodeUnsigned32 3
  else if v = PurgedNonGPRS then a.EncodeUnsigned32 4
  else if v = UnidentifiedSubsMSC then a.EncodeUnsigned32 9
  else if v = TempUnavailable then a.EncodeUnsigned32 13
  else a

def getMMEAbsentUserDiagnosticSM (a : RawAVP) : Got AbsentDiag :=
  if !a.FlgV || !a.FlgM || a.FlgP then
    { v := NoAbsentDiag, e := some (.InvalidAVP .DiameterInvalidAvpBits), decodes := 0 }
  else
    match a.DecodeUnsigned32 with
    | .error e => { v := NoAbsentDiag, e := some e, decodes := 1 }
    | .ok s =>
      if s = 0 then { v := NoPagingRespMSC, e := none, decodes := 1 }
      else if s = 1 then { v := IMSIDetached, e := none, decodes := 1 }
      else if s = 2 then { v := RoamingRestrict, e := none, decodes := 1 }
      else if s = 3 then { v := DeregisteredNonGPRS, e := none, decodes := 1 }
      else if s = 4 then { v := PurgedNonGPRS, e := none, decodes := 1 }
      else if s = 9 then { v := UnidentifiedSubsMSC, e := none, decodes := 1 }
      else if s = 13 then { v := TempUnavailable, e := none, decodes := 1 }
      else { v := NoAbsentDiag, e := some (.InvalidAVP .DiameterInvalidAvpValue), decodes := 1 }

def setMSCAbsentUserDiagnosticSM (v : AbsentDiag) : RawAVP :=
  let a : RawAVP := { Code := 3314, VenID := 10415, FlgV := true, FlgM := true, FlgP := false }
  if v = NoPagingRespMSC then a.EncodeUnsigned32 0
  else if v = IMSIDetached then a.EncodeUnsigned32 1
  else if v = RoamingRestrict then a.EncodeUnsigned32 2
  else if v = DeregisteredNonGPRS then a.EncodeUnsigned32 3
  else if v = PurgedNonGPRS then a.EncodeUnsigned32 4
  else if v = UnidentifiedSubsMSC then a.EncodeUnsigned32 9
  else if v = TempUnavailable then a.EncodeUnsigned32 13
  else a

def getMSCAbsentUserDiagnosticSM (a : RawAVP) : Got AbsentDiag :=
  if !a.FlgV || !a.FlgM || a.FlgP then
    { v := NoAbsentDiag, e := some (.InvalidAVP .DiameterInvalidAvpBits), decodes := 0 }
  else
    match a.DecodeUnsigned32 with
    | .error e => { v := NoAbsentDiag, e := some e, decodes := 1 }
    | .ok s =>
      if s = 0 then { v := NoPagingRespMSC, e := none, decodes := 1 }
      else if s = 1 then { v := IMSIDetached, e := none, decodes := 1 }
      else if s = 2 then { v := RoamingRestrict, e := none, decodes := 1 }
      else if s = 3 then { v := DeregisteredNonGPRS, e := none, decodes := 1 }
      else if s = 4 then { v := PurgedNonGPRS, e := none, decodes := 1 }
      else if s = 9 then { v := UnidentifiedSubsMSC, e := none, decodes := 1 }
      else if s = 13 then { v := TempUnavailable, e := none, decodes := 1 }
      else { v := NoAbsentDiag, e := some (.InvalidAVP .DiameterInvalidAvpValue), decodes := 1 }

def setSGSNAbsentUserDiagnosticSM (v : AbsentDiag) : RawAVP :=
  let a : RawAVP := { Code := 3315, VenID := 10415, FlgV := true, FlgM := true, FlgP := false }
  if v = IMSIDetached then a.EncodeUnsigned32 1
  else if v = RoamingRestrict then a.EncodeUnsigned32 2
  else if v = NoPagingRespSGSN then a.EncodeUnsigned32 5
  else if v = GPRSDetached then a.EncodeUnsigned32 6
  else if v = DeregisteredGPRS then a.EncodeUnsigned32 7
  else if v = PurgedGPRS then a.EncodeUnsigned32 8
  else if v = UnidentifiedSubsSGSN then a.EncodeUnsigned32 10
  else if v = TempUnavailable then a.EncodeUnsigned32 13
  else a

def getSGSNAbsentUserDiagnosticSM (a : RawAVP) : Got AbsentDiag :=
  if !a.FlgV || !a.FlgM || a.FlgP then
    { v := NoAbsentDiag, e := some (.InvalidAVP .DiameterInvalidAvpBits), decodes := 0 }
  else
    match a.DecodeUnsigned32 with
    | .error e => { v := NoAbsentDiag, e := some e, decodes := 1 }
    | .ok s =>
      if s = 1 then { v := IMSIDetached, e := none, decodes := 1 }
      else if s = 2 then { v := RoamingRestrict, e := none, decodes := 1 }
      else if s = 5 then { v := NoPagingRespSGSN, e := none, decodes := 1 }
      else if s = 6 then { v := GPRSDetached, e := none, decodes := 1 }
      else if s = 7 then { v := DeregisteredGPRS, e := none, decodes := 1 }
      else if s = 8 then { v := PurgedGPRS, e := none, decodes := 1 }
      else if s = 10 then { v := UnidentifiedSubsSGSN, e := none, decodes := 1 }
      else if s = 13 then { v := TempUnavailable, e := none, decodes := 1 }
      else { v := NoAbsentDiag, e := some (.InvalidAVP .DiameterInvalidAvpValue), decodes := 1 }

def setAbsentUserDiagnosticSM (v : AbsentDiag) : RawAVP :=
  let a : RawAVP := { Code := 3322, VenID := 10415, FlgV := true, FlgM := true, FlgP := false }
  if v = NoPagingRespMSC then a.EncodeUnsigned32 0
  else if v = IMSIDetached then a.EncodeUnsigned32 1
  else if v = RoamingRestrict then a.EncodeUnsigned32 2
  else if v = DeregisteredNonGPRS then a.EncodeUnsigned32 3
  else if v = PurgedNonGPRS then a.EncodeUnsigned32 4
  else if v = NoPagingRespSGSN then a.EncodeUnsigned32 5
  else if v = GPRSDetached then a.EncodeUnsigned32 6
  else if v = DeregisteredGPRS then a.EncodeUnsigned32 7
  else if v = PurgedGPRS then a.EncodeUnsigned32 8
  else if v = UnidentifiedSubsMSC then a.EncodeUnsigned32 9
  else if v = UnidentifiedSubsSGSN then a.EncodeUnsigned32 10
  else if v = DeregisteredIMS then a.EncodeUnsigned32 11
  else if v = NoRespIPSMGW then a.EncodeUnsigned32 12
  else if v = TempUnavailable then a.EncodeUnsigned32 13
  else a

def getAbsentUserDiagnosticSM (a : RawAVP) : Got AbsentDiag :=
  if !a.FlgV || !a.FlgM || a.FlgP then
    { v := NoAbsentDiag, e := some (.InvalidAVP .DiameterInvalidAvpBits), decodes := 0 }
  else
    match a.DecodeUnsigned32 with
    | .error e => { v := NoAbsentDiag, e := some e, decodes := 1 }
    | .ok s =>
      if s = 0 then { v := NoPagingRespMSC, e := none, decodes := 1 }
      else if s = 1 then { v := IMSIDetached, e := none, decodes := 1 }
      else if s = 2 then { v := RoamingRestrict, e := none, decodes := 1 }
      else if s = 3 then { v := DeregisteredNonGPRS, e := none, decodes := 1 }
      else if s = 4 then { v := PurgedNonGPRS, e := none, decodes := 1 }
      else if s = 5 then { v := NoPagingRespSGSN, e := none, decodes := 1 }
      else if s = 6 then { v := GPRSDetached, e := none, decodes := 1 }
      else if s = 7 then { v := DeregisteredGPRS, e := none, decodes := 1 }
      else if s = 8 then { v := PurgedGPRS, e := none, decodes := 1 }
      else if s = 9 then { v := UnidentifiedSubsMSC, e := none, decodes := 1 }
      else if s = 10 then { v := UnidentifiedSubsSGSN, e := none, decodes := 1 }
      else if s = 11 then { v := DeregisteredIMS, e := none, decodes := 1 }
      else if s = 12 then { v := NoRespIPSMGW, e := none, decodes := 1 }
      else if s = 13 then { v := TempUnavailable, e := none, decodes := 1 }
      else { v := NoAbsentDiag, e := some (.InvalidAVP .DiameterInvalidAvpValue), decodes := 1 }

end ts29338

/-! ## provider/node.go -/

namespace provider

/-- A Go `chan uint32` made with capacity 1, as a `LocalNode` field: `nil` before
`InitIDs`, otherwise its one-slot buffer. A receive needs `full`, a send needs `empty`;
every other combination blocks. -/
inductive Chan
  | nil
  | empty
  | full (v : Nat)
  deriving DecidableEq, Repr

/-- LocalNode is local node of Diameter -/
structure LocalNode where
  Realm : Identity
  Host : Identity
  Addr : List (List Nat)
  hbHId : Chan
  etEId : Chan
  deriving DecidableEq, Repr

/-- InitIDs initiate each IDs. The inputs are what the body reads from its environment, in
the order it reads them: the first `rand.Uint32()`, `time.Now().Unix()` (an `int64`) and
the second `rand.Uint32()`. -/
def LocalNode.InitIDs (l : LocalNode) (r1 : Nat) (now : Int) (r2 : Nat) : LocalNode :=
  let tmp := ((now % 2 ^ 64).toNat ^^^ 0xFFF) % 2 ^ 32
  let tmp := ((tmp <<< 20) % 2 ^ 32) ||| (r2 ^^^ 0x000FFFFF)
  { l with hbHId := .full r1, etEId := .full tmp }

/-- NextHbH make HbH ID. `none` stands for a call that blocks for ever on the receive. -/
def LocalNode.NextHbH (l : LocalNode) : Option (Nat × LocalNode) :=
  match l.hbHId with
  | .full ret => some (ret, { l with hbHId := .full ((ret + 1) % 2 ^ 32) })
  | _ => none

/-- NextEtE make EtE ID. `none` stands for a call that blocks for ever on the receive. -/
def LocalNode.NextEtE (l : LocalNode) : Option (Nat × LocalNode) :=
  match l.etEId with
  | .full ret => some (ret, { l with etEId := .full ((ret + 1) % 2 ^ 32) })
  | _ => none

/-- The results of `n` consecutive `NextHbH` calls, in call order, and the node after them. -/
def LocalNode.callsHbH : Nat → LocalNode → Option (List Nat × LocalNode)
  | 0, l => some ([], l)
  | n + 1, l =>
    match l.NextHbH with
    | none => none
    | some (ret, l1) =>
      match callsHbH n l1 with
      | none => none
      | some (rets, l2) => some (ret :: rets, l2)

/-- The results of `n` consecutive `NextEtE` calls, in call order, and the node after them. -/
def LocalNode.callsEtE : Nat → LocalNode → Option (List Nat × LocalNode)
  | 0, l => some ([], l)
  | n + 1, l =>
    match l.NextEtE with
    | none => none
    | some (ret, l1) =>
      match callsEtE n l1 with
      | none => none
      | some (rets, l2) => some (ret :: rets, l2)

/-- The end-to-end seed as the specification words it:
`(unixTimeLow20bits << 20) | randomLow20bits`, truncated to 32 bits. -/
def specEndToEndSeed (now : Int) (r : Nat) : Nat :=
  ((((now % 2 ^ 64).toNat % 2 ^ 20) <<< 20) ||| (r % 2 ^ 20)) % 2 ^ 32

/-! ### Concurrent callers of `NextHbH` -/

/-- One goroutine calling `NextHbH`: between two calls, or inside a call after the receive
`ret := <-l.hbHId` and before the send `l.hbHId <- ret + 1`. -/
inductive Caller
  | idle
  | received (ret : Nat)
  deriving DecidableEq, Repr

/-- The hop-by-hop channel shared by the callers, the callers, and the history of
completed calls `(caller, value returned)` in order of completion. -/
structure Sys where
  hbHId : Chan
  callers : List Caller
  log : List (Nat × Nat)
  deriving DecidableEq, Repr

/-- The system after `InitIDs` seeded the hop-by-hop channel, with `m` callers. -/
def Sys.init (seed m : Nat) : Sys :=
  { hbHId := .full seed, callers := List.replicate m .idle, log := [] }

/-- One scheduling step given to caller `i`: an idle caller enters `NextHbH` and receives
when the channel is full; a caller past the receive sends `ret + 1` when the channel is
empty and returns `ret`. A caller whose channel operation blocks makes no progress. -/
def Sys.step (s : Sys) (i : Nat) : Sys :=
  match s.callers[i]?, s.hbHId with
  | some .idle, .full v =>
    { s with hbHId := .empty, callers := s.callers.set i (.received v) }
  | some (.received ret), .empty =>
    { hbHId := .full ((ret + 1) % 2 ^ 32), callers := s.callers.set i .idle,
      log := s.log ++ [(i, ret)] }
  | _, _ => s

/-- Run a schedule: the list of the callers given a step, in order. -/
def Sys.exec (s : Sys) (sched : List Nat) : Sys :=
  sched.foldl Sys.step s

/-- The values handed out so far, in order of completion. -/
def Sys.values (s : Sys) : List Nat :=
  s.log.map Prod.snd

end provider

/-! ## Predicates used by the statements -/

/-- The AVPs the wire form carries without loss: the code and the vendor ID fit 32 bits,
no vendor ID is set while the vendor flag is clear (the wire form has no room for it), and
the header plus payload length fits the 3-byte Length field. -/
def RawAVP.fitsWire (a : RawAVP) : Prop :=
  a.Code < 2 ^ 32 ∧ a.VenID < 2 ^ 32 ∧ (a.FlgV = false → a.VenID = 0)
    ∧ a.headerLen + a.data.length < 2 ^ 24

instance (a : RawAVP) : Decidable a.fitsWire := by
  unfold RawAVP.fitsWire
  infer_instance

/-- The header of `a` differs from the expected tuple in at least one of the vendor ID, the
code, the vendor flag, the mandatory flag and the protected flag. -/
def RawAVP.headerDiffers (a : RawAVP) (i c : Nat) (v m p : Bool) : Prop :=
  a.VenID ≠ i ∨ a.Code ≠ c ∨ a.FlgV ≠ v ∨ a.FlgM ≠ m ∨ a.FlgP ≠ p

instance (a : RawAVP) (i c : Nat) (v m p : Bool) : Decidable (a.headerDiffers i c v m p) := by
  unfold RawAVP.headerDiffers
  infer_instance

/-- The getter returned an `InvalidAVP` error and the zero value `zero`, and made no
`Decode` call. -/
def Got.rejectedUndecoded {α : Type} (g : Got α) (zero : α) : Prop :=
  ∃ r, g = { v := zero, e := some (.InvalidAVP r), decodes := 0 }

/-- The three flags of an AVP, in the order V, M, P. -/
def RawAVP.flags (a : RawAVP) : Bool × Bool × Bool :=
  (a.FlgV, a.FlgM, a.FlgP)

/-- At least one of the three flags of `a` differs from `(v, m, p)`. -/
def RawAVP.flagsDiffer (a : RawAVP) (v m p : Bool) : Prop :=
  a.FlgV ≠ v ∨ a.FlgM ≠ m ∨ a.FlgP ≠ p

instance (a : RawAVP) (v m p : Bool) : Decidable (a.flagsDiffer v m p) := by
  unfold RawAVP.flagsDiffer
  infer_instance

namespace ts29338

/-- The getter `get` examines nothing but the three flags before it decodes: when a flag
differs from `(v, m, p)` it returns `InvalidAVP(DiameterInvalidAvpBits)` and the zero
value without a `Decode` call, and its result never depends on the code or the vendor ID
of the AVP. -/
def checksFlagsOnly {α : Type} (get : RawAVP → Got α) (zero : α) (v m p : Bool) : Prop :=
  (∀ a : RawAVP, a.flagsDiffer v m p →
      get a = { v := zero, e := some (.InvalidAVP .DiameterInvalidAvpBits), decodes := 0 })
  ∧ (∀ (a : RawAVP) (c i : Nat), get { a with Code := c, VenID := i } = get a)

/-- The same for the Serving-Node getters, whose expected flags are V=1, M=1, P=0. -/
def checksFlagsOnlySN {E164 : Type} (get : RawAVP → SN E164) (zero : E164) : Prop :=
  (∀ a : RawAVP, a.flagsDiffer true true false →
      get a = { t := NodeSGSN, d := zero, n := [], r := [],
                e := some (.InvalidAVP .DiameterInvalidAvpBits), decodes := 0 })
  ∧ (∀ (a : RawAVP) (c i : Nat), get { a with Code := c, VenID := i } = get a)

/-- A stand-in for `teldata` and `sms` that holds an IMSI, an E.164 number and an SMS
address as their byte strings. -/
def plainDeps : Deps (List Nat) (List Nat) (List Nat) :=
  { zeroIMSI := [], zeroE164 := [], zeroAddress := []
    IMSIString := fun v => v
    ParseIMSI := fun s => (s, none)
    E164Bytes := fun v => v
    B2E164 := fun b => (b, none)
    AddressEncode := fun v => (v.length, v)
    AddressDecode := fun _ _ b => b }

end ts29338

namespace provider

/-- The `k`-th identifier of the sequence that starts at `seed`: `(seed + k) mod 2^32`. -/
def idAt (seed k : Nat) : Nat :=
  (seed + k) % 2 ^ 32

/-- Invariant of the concurrent system: the values handed out so far are the first `k`
identifiers in order; either the channel holds the next one and every caller is idle, or
the channel is empty and exactly one caller, past its receive, holds the next one. -/
def Sys.Inv (seed : Nat) (s : Sys) : Prop :=
  ∃ k, s.values = (List.range k).map (idAt seed)
    ∧ ((s.hbHId = Chan.full (idAt seed k)
        ∧ ∀ (j : Nat) (c : Caller), s.callers[j]? = some c → c = Caller.idle)
      ∨ (s.hbHId = Chan.empty
        ∧ ∃ i : Nat, s.callers[i]? = some (Caller.received (idAt seed k))
          ∧ ∀ (j : Nat) (c : Caller), j ≠ i → s.callers[j]? = some c → c = Caller.idle))

/-- A node that has not been initialised and carries no identity. -/
def blankNode : LocalNode :=
  { Realm := [], Host := [], Addr := [], hbHId := .nil, etEId := .nil }

end provider

/-! ## provider/connection.go and `Connect` of provider/node.go

The transport (`net.Conn`, `net.Dialer`), the clock and the message serializer are outside
the embedded files; what they answer during one call is given by an `Env`. Every call
returns, next to its Go results, the transport operations it performed and the events it
handed to the observer `Notify`, in order. -/

namespace provider

/-- Go `error`: `none` is `nil`, `some msg` an error with that message. -/
abbrev GoError := Option String

/-- Go `net.Addr`, held as its string form. -/
abbrev NetAddr := String

/-- Go `time.Time`, as the nanoseconds elapsed since the zero value `time.Time{}`. -/
abbrev Time := Int

/-- The zero value `time.Time{}`, which a transport reads as "no deadline". -/
def zeroTime : Time := 0

/-- Go `time.Duration`, in nanoseconds. -/
abbrev Duration := Int

/-- The type `msg.Message`, held as its bytes; the zero value is empty. -/
abbrev Message := List Nat

/-- PeerNode is peer node of Diameter -/
structure PeerNode where
  Realm : Identity
  Host : Identity
  Addr : List (List Nat)
  Tw : Duration
  Ew : Int
  Ts : Duration
  Tp : Duration
  Cp : Int
  SupportedApps : List (Nat × Nat)
  deriving DecidableEq, Repr

/-- A live `net.Conn`, known by the addresses of its two ends. -/
structure NetConn where
  LocalAddr : NetAddr
  RemoteAddr : NetAddr
  deriving DecidableEq, Repr

/-- Connection is Diameter connection -/
structure Connection where
  Peer : Option PeerNode
  Local : Option LocalNode
  conn : Option NetConn
  deriving DecidableEq, Repr

/-- An operation performed on the transport. -/
inductive TransportOp
  | Dial (laddr : Option NetAddr) (raddr : NetAddr) (timeout : Duration)
  | LocalAddr
  | RemoteAddr
  | Close
  | SetWriteDeadline (t : Time)
  | SetReadDeadline (t : Time)
  | WriteTo (m : Message)
  | ReadFrom
  deriving DecidableEq, Repr

/-- The events handed to the observer; `dump` is the method value `m.PrintStack`, held as
the message it is bound to. -/
inductive Event
  | TransportStateChange (Open : Bool) (Local Peer : List Nat) (LAddr PAddr : Option NetAddr)
      (Err : GoError)
  | TxMessage (Local Peer : List Nat) (Err : GoError) (dump : Message)
  | RxMessage (Local Peer : List Nat) (Err : GoError) (dump : Message)
  deriving DecidableEq, Repr

/-- What the environment answers during one call. -/
structure Env where
  /-- the value of `time.Now()` -/
  now : Time
  /-- the result of `SetWriteDeadline` or `SetReadDeadline` -/
  setDeadline : GoError
  /-- the error result of `m.WriteTo(c.conn)` or `m.ReadFrom(c.conn)` -/
  transfer : GoError
  /-- the content `m.ReadFrom` leaves in `m` -/
  received : Message
  /-- the result of the transport's own `Close` -/
  close : GoError
  deriving DecidableEq, Repr

/-- A finished call on a Connection: its Go results, the Connection afterwards, the
transport operations performed and the events handed to the observer. -/
structure Ran (ρ : Type) where
  ret : ρ
  after : Connection
  ops : List TransportOp
  events : List Event
  deriving DecidableEq, Repr

/-- IsAvailable returns availability of Connection -/
def Connection.IsAvailable (c : Connection) : Bool :=
  c.conn.isSome

def Connection.hostnames (c : Connection) : List Nat × List Nat :=
  let lh :=
    match c.Local with
    | none => ascii "unknown"
    | some l => l.Host
  let ph :=
    match c.Peer with
    | none => ascii "unknown"
    | some p => p.Host
  (lh, ph)

/-- Close close Diameter connection. `notify` tells whether `Notify` is registered. -/
def Connection.Close (c : Connection) (notify : Bool) (env : Env) : Ran GoError :=
  match c.conn with
  | none =>
    let e : GoError := some "connection has been closed"
    { ret := e, after := c, ops := []
      events :=
        if notify then
          [.TransportStateChange false c.hostnames.1 c.hostnames.2 none none e]
        else [] }
  | some tmp =>
    let la := tmp.LocalAddr
    let pa := tmp.RemoteAddr
    let c1 : Connection := { c with conn := none }
    let e := env.close
    { ret := e, after := c1, ops := [.LocalAddr, .RemoteAddr, .Close]
      events :=
        if notify then
          [.TransportStateChange false c1.hostnames.1 c1.hostnames.2 (some la) (some pa) e]
        else [] }

/-- Low-level message writer. The result of `SetWriteDeadline` (`env.setDeadline`) is
discarded by the statement `c.conn.SetWriteDeadline(t)`. -/
def Connection.Write (c : Connection) (notify : Bool) (env : Env) (s : Duration)
    (m : Message) : Ran GoError :=
  let r : GoError × List TransportOp :=
    match c.conn with
    | none => (some "connection is closed", [])
    | some _ =>
      let t := if s ≠ 0 then env.now + s else zeroTime
      (env.transfer, [.SetWriteDeadline t, .WriteTo m])
  { ret := r.1, after := c, ops := r.2
    events := if notify then [.TxMessage c.hostnames.1 c.hostnames.2 r.1 m] else [] }

/-- Low-level message reader. The result of `SetReadDeadline` (`env.setDeadline`) is
discarded by the statement `c.conn.SetReadDeadline(t)`. -/
def Connection.Read (c : Connection) (notify : Bool) (env : Env) (s : Duration) :
    Ran (Message × GoError) :=
  let r : (Message × GoError) × List TransportOp :=
    match c.conn with
    | none => (([], some "connection is closed"), [])
    | some _ =>
      let t := if s ≠ 0 then env.now + s else zeroTime
      ((env.received, env.transfer), [.SetReadDeadline t, .ReadFrom])
  { ret := r.1, after := c, ops := r.2
    events := if notify then [.RxMessage c.hostnames.1 c.hostnames.2 r.1.2 r.1.1] else [] }

/-- One call made on a Connection. -/
inductive Call
  | Close
  | Write (s : Duration) (m : Message)
  | Read (s : Duration)
  deriving DecidableEq, Repr

/-- Whether the call is a Read or a Write. -/
def Call.isTransfer : Call → Bool
  | .Close => false
  | .Write _ _ => true
  | .Read _ => true

/-- The error a call returns, and the Connection after it. -/
def Connection.call (c : Connection) (notify : Bool) (env : Env) : Call → GoError × Connection
  | .Close => ((c.Close notify env).ret, (c.Close notify env).after)
  | .Write s m => ((c.Write notify env s m).ret, (c.Write notify env s m).after)
  | .Read s => ((c.Read notify env s).ret.2, (c.Read notify env s).after)

/-- A sequence of calls, each with what the environment answers during it: the calls with
the error each returned, and the Connection after the last one. -/
def Connection.calls (notify : Bool) :
    List (Call × Env) → Connection → List (Call × GoError) × Connection
  | [], c => ([], c)
  | (k, env) :: rest, c =>
    let r := c.call notify env k
    let rs := Connection.calls notify rest r.2
    ((k, r.1) :: rs.1, rs.2)

/-- How a call ends: it returns, or a run-time panic (a nil dereference) unwinds it. -/
inductive Outcome (ρ : Type)
  | returned (r : ρ)
  | panicked
  deriving DecidableEq, Repr

/-- The results `(c, e)` of `Connect`, the transport operations performed and the events
handed to the observer. -/
structure Opened where
  c : Option Connection
  e : GoError
  ops : List TransportOp
  events : List Event
  deriving DecidableEq, Repr

/-- Connect is Low-level diameter connect. `dial` is what `dialer.Dial` answers when it is
called. With `Notify` registered the event literal evaluates `p.Host`, which panics on a
nil `p`. -/
def LocalNode.Connect (l : LocalNode) (notify : Bool) (dial : Except String NetConn)
    (p : Option PeerNode) (laddr raddr : Option NetAddr) (s : Duration) : Outcome Opened :=
  let r : Option Connection × GoError × List TransportOp :=
    match raddr with
    | none => (none, some "Remote address is nil", [])
    | some ra =>
      match p with
      | none => (none, some "Peer node is nil", [])
      | some pn =>
        match dial with
        | .ok con =>
          (some { Peer := some pn, Local := some l, conn := some con }, none,
            [.Dial laddr ra s])
        | .error msg => (none, some msg, [.Dial laddr ra s])
  if notify then
    match p with
    | none => .panicked
    | some pn =>
      .returned { c := r.1, e := r.2.1, ops := r.2.2
                  events := [.TransportStateChange true l.Host pn.Host laddr raddr r.2.1] }
  else
    .returned { c := r.1, e := r.2.1, ops := r.2.2, events := [] }

end provider

/-! ## ts29338/SGdGdd.go

The constructors build a `msg.Avp`, the container under its earlier name, with the same
fields and the same `Encode`. -/

/-- Modelled from the spec: `Encode` of a `Time`: 4-byte unsigned seconds since 1900-01-01
(the NTP epoch), which lies 59926608000 seconds after the zero value `time.Time{}`. -/
def RawAVP.EncodeTime (a : RawAVP) (t : provider.Time) : RawAVP :=
  { a with data := be32 ((t / 1000000000 - 59926608000) % 2 ^ 32).toNat }

namespace ts29338

/-- ServiceCenterAddress AVP -/
def ServiceCenterAddress (msisdn : List Nat) : RawAVP :=
  let a : RawAVP := { Code := 3300, FlgV := true, FlgM := true, FlgP := false, VenID := 10415 }
  a.EncodeOctetString msisdn

/-- SMRPUI AVP -/
def SMRPUI (s : List Nat) : RawAVP :=
  let a : RawAVP := { Code := 3301, FlgV := true, FlgM := true, FlgP := false, VenID := 10415 }
  a.EncodeOctetString s

/-- TFRFlags AVP -/
def TFRFlags (moreMsgToSend : Bool) : RawAVP :=
  let a : RawAVP := { Code := 3302, FlgV := true, FlgM := true, FlgP := false, VenID := 10415 }
  let i := 0
  let i := if moreMsgToSend then i ||| 0x00000001 else i
  a.EncodeUnsigned32 i

/-- The children `SMDeliveryFailureCause` builds: SM-Enumerated-Delivery-Failure-Cause,
then SM-Diagnostic-Info when `diag` is not empty. -/
def SMDeliveryFailureCause_children (cause : Enumerated) (diag : List Nat) : List RawAVP :=
  [({ Code := 3304, FlgV := true, FlgM := true, FlgP := false, VenID := 10415 } :
      RawAVP).EncodeEnumerated cause]
  ++ (if diag.length ≠ 0 then
        [({ Code := 3305, FlgV := true, FlgM := true, FlgP := false, VenID := 10415 } :
          RawAVP).EncodeOctetString diag]
      else [])

/-- SMDeliveryFailureCause AVP -/
def SMDeliveryFailureCause (cause : Enumerated) (diag : List Nat) : RawAVP :=
  let a : RawAVP := { Code := 3303, FlgV := true, FlgM := true, FlgP := false, VenID := 10415 }
  a.EncodeGrouped (SMDeliveryFailureCause_children cause diag)

/-- SMDeliveryTimer AVP -/
def SMDeliveryTimer (i : Nat) : RawAVP :=
  let a : RawAVP := { Code := 3306, FlgV := true, FlgM := true, FlgP := false, VenID := 10415 }
  a.EncodeUnsigned32 i

/-- SMDeliveryStartTime AVP -/
def SMDeliveryStartTime (t : provider.Time) : RawAVP :=
  let a : RawAVP := { Code := 3307, FlgV := true, FlgM := true, FlgP := false, VenID := 10415 }
  a.EncodeTime t

/-- The children `SMSMICorrelationID` builds: HSS-ID, Originating-SIP-URI and
Destination-SIP-URI, each only when its value is not empty. -/
def SMSMICorrelationID_children (hssID oURI dURI : List Nat) : List RawAVP :=
  (if hssID.length ≠ 0 then
      [({ Code := 3325, FlgV := true, FlgM := false, FlgP := false, VenID := 10415 } :
        RawAVP).EncodeOctetString hssID]
    else [])
  ++ (if oURI.length ≠ 0 then
        [({ Code := 3326, FlgV := true, FlgM := false, FlgP := false, VenID := 10415 } :
          RawAVP).EncodeUTF8String oURI]
      else [])
  ++ (if dURI.length ≠ 0 then
        [({ Code := 3327, FlgV := true, FlgM := false, FlgP := false, VenID := 10415 } :
          RawAVP).EncodeUTF8String dURI]
      else [])

/-- SMSMICorrelationID AVP -/
def SMSMICorrelationID (hssID oURI dURI : List Nat) : RawAVP :=
  let a : RawAVP := { Code := 3324, FlgV := true, FlgM := false, FlgP := false, VenID := 10415 }
  a.EncodeGrouped (SMSMICorrelationID_children hssID oURI dURI)

/-- OFRFlags AVP -/
def OFRFlags (s6as6d : Bool) : RawAVP :=
  let a : RawAVP := { Code := 3328, FlgV := true, FlgM := false, FlgP := false, VenID := 10415 }
  let i := 0
  let i := if s6as6d then i ||| 0x00000001 else i
  a.EncodeUnsigned32 i

/-- MaximumRetransmissionTime AVP -/
def MaximumRetransmissionTime (t : provider.Time) : RawAVP :=
  let a : RawAVP := { Code := 3330, FlgV := true, FlgM := false, FlgP := false, VenID := 10415 }
  a.EncodeTime t

/-- RequestedRetransmissionTime AVP -/
def RequestedRetransmissionTime (t : provider.Time) : RawAVP :=
  let a : RawAVP := { Code := 3331, FlgV := true, FlgM := false, FlgP := false, VenID := 10415 }
  a.EncodeTime t

end ts29338

/-! ## Header predicates -/

/-- The code, the vendor ID and the flags V, M, P of an AVP. -/
def RawAVP.header (a : RawAVP) : Nat × Nat × Bool × Bool × Bool :=
  (a.Code, a.VenID, a.FlgV, a.FlgM, a.FlgP)

/-- The RawAVP invariant: the vendor flag is set if and only if the vendor ID is non-zero. -/
def RawAVP.vendorInvariant (a : RawAVP) : Prop :=
  a.FlgV = true ↔ a.VenID ≠ 0

instance (a : RawAVP) : Decidable a.vendorInvariant := by
  unfold RawAVP.vendorInvariant
  infer_instance

/-- The AVP carries exactly the header `h` and satisfies the RawAVP invariant. -/
def RawAVP.carries (a : RawAVP) (h : Nat × Nat × Bool × Bool × Bool) : Prop :=
  a.header = h ∧ a.vendorInvariant

/-- The value held by the 3-byte Length field of a wire form (bytes 5 to 7). -/
def lengthField : List Nat → Nat
  | _ :: _ :: _ :: _ :: _ :: l0 :: l1 :: l2 :: _ => fromBE24 l0 l1 l2
  | _ => 0

namespace provider

/-- An environment at time 0 in which no transport operation fails and nothing is
received. -/
def quietEnv : Env :=
  { now := 0, setDeadline := none, transfer := none, received := [], close := none }

/-- An open connection between 10.0.0.1:40000 and 10.0.0.2:3868 with no Local or Peer node
set. -/
def openConnection : Connection :=
  { Peer := none, Local := none,
    conn := some { LocalAddr := "10.0.0.1:40000", RemoteAddr := "10.0.0.2:3868" } }

/-- A Connection with no transport attached and no Local or Peer node set. -/
def bareConnection : Connection :=
  { Peer := none, Local := none, conn := none }

end provider

/-! ## ts29338/SGdGdd_avp.go -/

namespace ts29338

/-- SCAddress AVP contain the E164 number of the SMS-SC or MTC-IWF (a Go `string`). -/
abbrev SCAddress := List Nat

/-- ToRaw return AVP struct of this value. The receiver is a pointer: `none` is nil. -/
def SCAddress.ToRaw (v : Option SCAddress) : RawAVP :=
  let a : RawAVP := { Code := 3300, VenID := 10415, FlgV := true, FlgM := true, FlgP := false }
  match v with
  | some s => a.EncodeUTF8String s
  | none => a

/-- FromRaw get AVP value. `v` is the value the receiver points to before the call; the
result holds the value it points to afterwards. -/
def SCAddress.FromRaw (v : SCAddress) (a : RawAVP) : Got SCAddress :=
  match a.Validate 10415 3300 true true false with
  | some e => { v := v, e := some e, decodes := 0 }
  | none =>
    match a.DecodeUTF8String with
    | .error e => { v := v, e := some e, decodes := 1 }
    | .ok s => { v := s, e := none, decodes := 1 }

end ts29338

/-! ## Predicates on children -/

/-- The children `getVendorSpecAppID` looks at: vendor ID 0 and code 266 (Vendor-Id) or
258 (Auth-Application-Id). -/
def RawAVP.isVendorSpecChild (c : RawAVP) : Bool :=
  c.VenID = 0 && (c.Code = 266 || c.Code = 258)

/-- The bytes `t` start with a complete AVP header whose Length field declares more bytes
than `t` holds. -/
def declaresTooLong : List Nat → Prop
  | _ :: _ :: _ :: _ :: _ :: l0 :: l1 :: l2 :: rest => 8 + rest.length < fromBE24 l0 l1 l2
  | _ => False

/-- The first ten bytes of an Origin-Host AVP whose Length field says 20. -/
def truncatedChild : List Nat := [0, 0, 1, 8, 64, 0, 0, 20, 1, 2]

/-- A Failed-AVP whose payload is a complete Origin-Host child followed by
`truncatedChild`. -/
def truncatedFailedAVP : RawAVP :=
  { Code := 279, VenID := 0, FlgV := false, FlgM := true, FlgP := false,
    data := (setOriginHost (ascii "a.b")).marshal ++ truncatedChild }

namespace provider

/-- A `net.Listener`, known by the address it listens on. -/
structure Listener where
  Addr : NetAddr
  deriving DecidableEq, Repr

/-- An operation `Accept` performs on the listener or on the accepted transport. -/
inductive ListenerOp
  | Accept
  | RemoteAddr
  | Addr
  deriving DecidableEq, Repr

/-- The results `(c, e)` of `Accept`, the operations performed and the events handed to
the observer. -/
structure Accepted where
  c : Option Connection
  e : GoError
  ops : List ListenerOp
  events : List Event
  deriving DecidableEq, Repr

/-- Accept is Low-level diameter accept. `accept` is what `lnr.Accept()` answers when it is
called. With `Notify` registered the event literal evaluates `lnr.Addr()`, a method call
on the interface value `lnr`, which panics when `lnr` is nil. -/
def LocalNode.Accept (l : LocalNode) (notify : Bool) (accept : Except String NetConn)
    (lnr : Option Listener) : Outcome Accepted :=
  let r : Option NetConn × GoError × List ListenerOp :=
    match lnr with
    | none => (none, some "Local listener is nil", [])
    | some _ =>
      match accept with
      | .ok con => (some con, none, [.Accept])
      | .error msg => (none, some msg, [.Accept])
  let c : Option Connection :=
    match r.1 with
    | some con => some { Peer := none, Local := some l, conn := some con }
    | none => none
  if notify then
    let paddr : Option NetAddr × List ListenerOp :=
      match r.1 with
      | some con => (some con.RemoteAddr, [.RemoteAddr])
      | none => (none, [])
    match lnr with
    | none => .panicked
    | some ln =>
      .returned { c := c, e := r.2.1, ops := r.2.2 ++ paddr.2 ++ [.Addr]
                  events := [.TransportStateChange true l.Host (ascii "unknown")
                    (some ln.Addr) paddr.1 r.2.1] }
  else
    .returned { c := c, e := r.2.1, ops := r.2.2, events := [] }

end provider

namespace ts29338

/-- A stand-in for `teldata` whose `B2E164` rejects an empty byte string. -/
def strictDeps : Deps (List Nat) (List Nat) (List Nat) :=
  { plainDeps with
    B2E164 := fun b => if b = [] then ([], some .DecodeError) else (b, none) }

/-- A Serving-Node AVP holding an SGSN-Number child whose M flag is clear, followed by an
SGSN-Name child "sgsn" with the M flag set. -/
def servingNodeBadFlags : RawAVP :=
  ({ Code := 2401, VenID := 10415, FlgV := true, FlgM := true, FlgP := false } :
    RawAVP).EncodeGrouped
    [{ Code := 1489, VenID := 10415, FlgV := true, FlgM := false, FlgP := false,
       data := [0x91, 0x18, 0x09] },
     { Code := 2409, VenID := 10415, FlgV := true, FlgM := true, FlgP := false,
       data := ascii "sgsn" }]

/-- A Serving-Node AVP holding an MME-Number-for-MT-SMS child with an empty payload,
followed by an MME-Name child "mme". -/
def servingNodeEmptyNumber : RawAVP :=
  ({ Code := 2401, VenID := 10415, FlgV := true, FlgM := true, FlgP := false } :
    RawAVP).EncodeGrouped
    [{ Code := 1645, VenID := 10415, FlgV := true, FlgM := true, FlgP := false, data := [] },
     { Code := 2402, VenID := 10415, FlgV := true, FlgM := true, FlgP := false,
       data := ascii "mme" }]

/-- A Serving-Node AVP holding only an MME-Name child "mme". -/
def servingNodeNoNumber : RawAVP :=
  ({ Code := 2401, VenID := 10415, FlgV := true, FlgM := true, FlgP := false } :
    RawAVP).EncodeGrouped
    [{ Code := 2402, VenID := 10415, FlgV := true, FlgM := true, FlgP := false,
       data := ascii "mme" }]

end ts29338

/-! # Theorems -/

open RawAVP

/-! ## Codec lemmas -/

theorem fromBE32_be32 (n : Nat) (h : n < 2 ^ 32) :
    fromBE32 (n / 16777216 % 256) (n / 65536 % 256) (n / 256 % 256) (n % 256) = n := by
  unfold fromBE32
  omega

theorem fromBE24_be24 (n : Nat) (h : n < 2 ^ 24) :
    fromBE24 (n / 65536 % 256) (n / 256 % 256) (n % 256) = n := by
  unfold fromBE24
  omega

theorem DecodeUnsigned32_EncodeUnsigned32 (a : RawAVP) (n : Nat) (h : n < 2 ^ 32) :
    (a.EncodeUnsigned32 n).DecodeUnsigned32 = .ok n := by
  simp [EncodeUnsigned32, DecodeUnsigned32, be32, fromBE32_be32 n h]

theorem marshal_length_ge (c : RawAVP) : 8 ≤ c.marshal.length := by
  simp [marshal, be32, be24]

/-- One parsing step on the wire form of an AVP that fits the wire form followed by any bytes `t` yields
that AVP and continues on `t`. -/
theorem parseAVPs_marshal_append (c : RawAVP) (hc : c.fitsWire) (fuel : Nat) (t : List Nat) :
    parseAVPs (fuel + 1) (c.marshal ++ t) =
      match parseAVPs fuel t with
      | .error e => .error e
      | .ok more => .ok (c :: more) := by
  obtain ⟨hcode, hven, hv0, hlen⟩ := hc
  obtain ⟨code, ven, fv, fm, fp, data⟩ := c
  simp only at hcode hven hv0 hlen
  have hcode2 := fromBE32_be32 code hcode
  cases fv
  · have hven0 : ven = 0 := hv0 rfl
    subst hven0
    have hlen8 : 8 + data.length < 2 ^ 24 := by simpa [headerLen] using hlen
    have hl := fromBE24_be24 (8 + data.length) hlen8
    cases fm <;> cases fp <;>
      simp [marshal, be32, be24, headerLen, flagsByte, parseAVPs, hcode2, hl]
  · have hlen12 : 12 + data.length < 2 ^ 24 := by simpa [headerLen] using hlen
    have hven2 := fromBE32_be32 ven hven
    have hl := fromBE24_be24 (12 + data.length) hlen12
    cases fm <;> cases fp <;>
      simp [marshal, be32, be24, headerLen, flagsByte, parseAVPs, hcode2, hven2, hl] <;>
      (intro h; omega)

theorem parseAVPs_flatten (cs : List RawAVP) (hcs : ∀ c ∈ cs, c.fitsWire) :
    ∀ fuel, (cs.map marshal).flatten.length / 8 ≤ fuel →
      parseAVPs fuel (cs.map marshal).flatten = .ok cs := by
  induction cs with
  | nil => intro fuel _; simp [parseAVPs]
  | cons c cs ih =>
    intro fuel hfuel
    have hge := marshal_length_ge c
    simp only [List.map_cons, List.flatten_cons, List.length_append] at hfuel ⊢
    obtain ⟨f, rfl⟩ : ∃ f, fuel = f + 1 := ⟨fuel - 1, by omega⟩
    rw [parseAVPs_marshal_append c (hcs c (List.mem_cons_self _ _)) f]
    rw [ih (fun x hx => hcs x (List.mem_cons_of_mem _ hx)) f (by omega)]

theorem DecodeGrouped_EncodeGrouped (a : RawAVP) (cs : List RawAVP)
    (hcs : ∀ c ∈ cs, c.fitsWire) : (a.EncodeGrouped cs).DecodeGrouped = .ok cs := by
  unfold DecodeGrouped EncodeGrouped
  exact parseAVPs_flatten cs hcs _ (Nat.le_refl _)

/-! ## base_avp.go -/

/-- C1. `setOriginHost` of "hss.example.com" is the AVP with code 264, vendor 0, flags V=0,
M=1, P=0 carrying the 15 ASCII bytes; its wire form is exactly the 24 bytes
00 00 01 08 40 00 00 17 68 73 73 2E 65 78 61 6D 70 6C 65 2E 63 6F 6D 00 (Length field 23,
one zero pad byte), which parse back to that AVP; `Validate(0,264,false,true,false)`
succeeds on it and `getOriginHost` returns "hss.example.com" with no error. -/
theorem C1_origin_host_scenario :
    setOriginHost (ascii "hss.example.com") =
        { Code := 264, VenID := 0, FlgV := false, FlgM := true, FlgP := false,
          data := ascii "hss.example.com" }
    ∧ (setOriginHost (ascii "hss.example.com")).marshal =
        [0x00, 0x00, 0x01, 0x08, 0x40, 0x00, 0x00, 0x17, 0x68, 0x73, 0x73, 0x2E, 0x65, 0x78,
         0x61, 0x6D, 0x70, 0x6C, 0x65, 0x2E, 0x63, 0x6F, 0x6D, 0x00]
    ∧ (setOriginHost (ascii "hss.example.com")).marshal.length = 24
    ∧ parseAVPs 3 (setOriginHost (ascii "hss.example.com")).marshal =
        .ok [setOriginHost (ascii "hss.example.com")]
    ∧ (setOriginHost (ascii "hss.example.com")).Validate 0 264 false true false = none
    ∧ getOriginHost (setOriginHost (ascii "hss.example.com")) =
        { v := ascii "hss.example.com", e := none, decodes := 1 } := by
  decide

/-- C2. For each single-value accessor pair of base_avp.go (Host-IP-Address,
Auth-Application-Id, Origin-Host, Vendor-Id, Firmware-Revision, Result-Code, Product-Name,
Origin-State-Id, Supported-Vendor-Id, Error-Message, Origin-Realm) and every in-range value
(an address of 4 or 16 bytes, a 32-bit number, an identity of host-name characters, a
UTF-8 string), the getter applied to the setter's output returns the value with no error. -/
theorem C2_base_accessors_roundtrip (ip : List Nat) (n : Nat) (h : Identity) (s : List Nat)
    (hip : validIP ip = true) (hn : n < 2 ^ 32) (hh : h.all isHostNameByte = true)
    (hs : validUTF8 s = true) :
    getHostIPAddress (setHostIPAddress ip) = { v := ip, e := none, decodes := 1 }
    ∧ getAuthAppID (setAuthAppID n) = { v := n, e := none, decodes := 1 }
    ∧ getOriginHost (setOriginHost h) = { v := h, e := none, decodes := 1 }
    ∧ getVendorID (setVendorID n) = { v := n, e := none, decodes := 1 }
    ∧ getFirmwareRevision (setFirmwareRevision n) = { v := n, e := none, decodes := 1 }
    ∧ getResultCode (setResultCode n) = { v := n, e := none, decodes := 1 }
    ∧ getProductName (setProductName s) = { v := s, e := none, decodes := 1 }
    ∧ getOriginStateID (setOriginStateID n) = { v := n, e := none, decodes := 1 }
    ∧ getSupportedVendorID (setSupportedVendorID n) = { v := n, e := none, decodes := 1 }
    ∧ getErrorMessage (setErrorMessage s) = { v := s, e := none, decodes := 1 }
    ∧ getOriginRealm (setOriginRealm h) = { v := h, e := none, decodes := 1 } := by
  have hu := fromBE32_be32 n hn
  have hip2 : ip.length = 4 ∨ ip.length = 16 := by simpa [validIP] using hip
  refine ⟨?_, ?_, ?_, ?_, ?_, ?_, ?_, ?_, ?_, ?_, ?_⟩
  · rcases hip2 with h4 | h16
    · simp [getHostIPAddress, setHostIPAddress, EncodeAddress, DecodeAddress, Validate, h4]
    · simp [getHostIPAddress, setHostIPAddress, EncodeAddress, DecodeAddress, Validate, h16]
  · simp [getAuthAppID, setAuthAppID, Validate, EncodeUnsigned32, DecodeUnsigned32, be32, hu]
  · simp [getOriginHost, setOriginHost, Validate, EncodeIdentity, DecodeIdentity, hh]
  · simp [getVendorID, setVendorID, Validate, EncodeUnsigned32, DecodeUnsigned32, be32, hu]
  · simp [getFirmwareRevision, setFirmwareRevision, Validate, EncodeUnsigned32, DecodeUnsigned32, be32, hu]
  · simp [getResultCode, setResultCode, Validate, EncodeUnsigned32, DecodeUnsigned32, be32, hu]
  · simp [getProductName, setProductName, Validate, EncodeUTF8String, DecodeUTF8String, hs]
  · simp [getOriginStateID, setOriginStateID, Validate, EncodeUnsigned32, DecodeUnsigned32, be32, hu]
  · simp [getSupportedVendorID, setSupportedVendorID, Validate, EncodeUnsigned32, DecodeUnsigned32, be32, hu]
  · simp [getErrorMessage, setErrorMessage, Validate, EncodeUTF8String, DecodeUTF8String, hs]
  · simp [getOriginRealm, setOriginRealm, Validate, EncodeIdentity, DecodeIdentity, hh]

/-- Witness of C2 at 10.0.0.1, 16777312, "hss.example.com" and "diameter". -/
theorem C2_base_accessors_roundtrip_witness :
    getHostIPAddress (setHostIPAddress [10, 0, 0, 1]) =
        { v := [10, 0, 0, 1], e := none, decodes := 1 }
    ∧ getAuthAppID (setAuthAppID 16777312) = { v := 16777312, e := none, decodes := 1 }
    ∧ getOriginHost (setOriginHost (ascii "hss.example.com")) =
        { v := ascii "hss.example.com", e := none, decodes := 1 }
    ∧ getProductName (setProductName (ascii "diameter")) =
        { v := ascii "diameter", e := none, decodes := 1 } :=
  have w := C2_base_accessors_roundtrip [10, 0, 0, 1] 16777312 (ascii "hss.example.com")
    (ascii "diameter") (by decide) (by decide) (by decide) (by decide)
  ⟨w.1, w.2.1, w.2.2.1, w.2.2.2.2.2.2.1⟩

/-- The call `Validate` fails with `InvalidAVP` as soon as one header field differs from the
expected tuple. -/
theorem Validate_of_headerDiffers (a : RawAVP) (i c : Nat) (v m p : Bool)
    (h : a.headerDiffers i c v m p) : ∃ r, a.Validate i c v m p = some (.InvalidAVP r) := by
  unfold Validate
  split_ifs with h1 h2
  · exact ⟨_, rfl⟩
  · exact ⟨_, rfl⟩
  · exfalso
    unfold headerDiffers at h
    simp only [not_or] at h1 h2
    rcases h with h | h | h | h | h
    · exact h2.2 h
    · exact h2.1 h
    · exact h1.1 h
    · exact h1.2.1 h
    · exact h1.2.2.1 h

/-- The call `Validate` succeeds only on the expected header. -/
theorem Validate_eq_none (a : RawAVP) (i c : Nat) (v m p : Bool)
    (h : a.Validate i c v m p = none) :
    a.VenID = i ∧ a.Code = c ∧ a.FlgV = v ∧ a.FlgM = m ∧ a.FlgP = p := by
  by_contra hne
  have hd : a.headerDiffers i c v m p := by
    unfold headerDiffers
    by_contra hno
    simp only [not_or, not_not] at hno
    exact hne ⟨hno.1, hno.2.1, hno.2.2.1, hno.2.2.2.1, hno.2.2.2.2⟩
  obtain ⟨r, hr⟩ := Validate_of_headerDiffers a i c v m p hd
  rw [hr] at h
  cases h

/-- C3. For every single-value getter of base_avp.go (getHostIPAddress, getAuthAppID,
getOriginHost, getVendorID, getFirmwareRevision, getResultCode, getProductName,
getDisconnectCause, getOriginStateID, getSupportedVendorID, getErrorMessage,
getOriginRealm, getFailedAVP): if the AVP differs from the expected header in the code, the
vendor ID, the vendor flag, the mandatory flag or the protected flag, the getter returns
an `InvalidAVP` error and the zero value, and makes no `Decode` call. -/
theorem C3_base_getters_reject_header_mismatch (a : RawAVP) :
    (a.headerDiffers 0 257 false true false → (getHostIPAddress a).rejectedUndecoded [])
    ∧ (a.headerDiffers 0 258 false true false → (getAuthAppID a).rejectedUndecoded 0)
    ∧ (a.headerDiffers 0 264 false true false → (getOriginHost a).rejectedUndecoded [])
    ∧ (a.headerDiffers 0 266 false true false → (getVendorID a).rejectedUndecoded 0)
    ∧ (a.headerDiffers 0 267 false false false → (getFirmwareRevision a).rejectedUndecoded 0)
    ∧ (a.headerDiffers 0 268 false true false → (getResultCode a).rejectedUndecoded 0)
    ∧ (a.headerDiffers 0 269 false false false → (getProductName a).rejectedUndecoded [])
    ∧ (a.headerDiffers 0 273 false true false → (getDisconnectCause a).rejectedUndecoded 0)
    ∧ (a.headerDiffers 0 278 false true false → (getOriginStateID a).rejectedUndecoded 0)
    ∧ (a.headerDiffers 0 265 false true false → (getSupportedVendorID a).rejectedUndecoded 0)
    ∧ (a.headerDiffers 0 281 false false false → (getErrorMessage a).rejectedUndecoded [])
    ∧ (a.headerDiffers 0 296 false true false → (getOriginRealm a).rejectedUndecoded [])
    ∧ (a.headerDiffers 0 279 false true false → (getFailedAVP a).rejectedUndecoded []) := by
  refine ⟨?_, ?_, ?_, ?_, ?_, ?_, ?_, ?_, ?_, ?_, ?_, ?_, ?_⟩
  · intro h
    obtain ⟨r, hr⟩ := Validate_of_headerDiffers a _ _ _ _ _ h
    exact ⟨r, by simp [getHostIPAddress, hr]⟩
  · intro h
    obtain ⟨r, hr⟩ := Validate_of_headerDiffers a _ _ _ _ _ h
    exact ⟨r, by simp [getAuthAppID, hr]⟩
  · intro h
    obtain ⟨r, hr⟩ := Validate_of_headerDiffers a _ _ _ _ _ h
    exact ⟨r, by simp [getOriginHost, hr]⟩
  · intro h
    obtain ⟨r, hr⟩ := Validate_of_headerDiffers a _ _ _ _ _ h
    exact ⟨r, by simp [getVendorID, hr]⟩
  · intro h
    obtain ⟨r, hr⟩ := Validate_of_headerDiffers a _ _ _ _ _ h
    exact ⟨r, by simp [getFirmwareRevision, hr]⟩
  · intro h
    obtain ⟨r, hr⟩ := Validate_of_headerDiffers a _ _ _ _ _ h
    exact ⟨r, by simp [getResultCode, hr]⟩
  · intro h
    obtain ⟨r, hr⟩ := Validate_of_headerDiffers a _ _ _ _ _ h
    exact ⟨r, by simp [getProductName, hr]⟩
  · intro h
    obtain ⟨r, hr⟩ := Validate_of_headerDiffers a _ _ _ _ _ h
    exact ⟨r, by simp [getDisconnectCause, hr]⟩
  · intro h
    obtain ⟨r, hr⟩ := Validate_of_headerDiffers a _ _ _ _ _ h
    exact ⟨r, by simp [getOriginStateID, hr]⟩
  · intro h
    obtain ⟨r, hr⟩ := Validate_of_headerDiffers a _ _ _ _ _ h
    exact ⟨r, by simp [getSupportedVendorID, hr]⟩
  · intro h
    obtain ⟨r, hr⟩ := Validate_of_headerDiffers a _ _ _ _ _ h
    exact ⟨r, by simp [getErrorMessage, hr]⟩
  · intro h
    obtain ⟨r, hr⟩ := Validate_of_headerDiffers a _ _ _ _ _ h
    exact ⟨r, by simp [getOriginRealm, hr]⟩
  · intro h
    obtain ⟨r, hr⟩ := Validate_of_headerDiffers a _ _ _ _ _ h
    exact ⟨r, by simp [getFailedAVP, hr]⟩

/-- Witness of C3: the Origin-Host AVP of "hss.example.com" given to `getOriginRealm`
(code 264 where 296 is expected) and to `getFirmwareRevision` (mandatory flag set where it
is expected clear). -/
theorem C3_base_getters_reject_header_mismatch_witness :
    (setOriginHost (ascii "hss.example.com")).headerDiffers 0 296 false true false
    ∧ (getOriginRealm (setOriginHost (ascii "hss.example.com"))).rejectedUndecoded []
    ∧ ({ setFirmwareRevision 1 with FlgM := true } : RawAVP).headerDiffers 0 267 false false false
    ∧ (getFirmwareRevision { setFirmwareRevision 1 with FlgM := true }).rejectedUndecoded 0 :=
  ⟨by decide,
   (C3_base_getters_reject_header_mismatch _).2.2.2.2.2.2.2.2.2.2.2.1 (by decide),
   by decide,
   (C3_base_getters_reject_header_mismatch _).2.2.2.2.1 (by decide)⟩

/-- C4 fails as stated: with vendor id 0 the pair written by `setVendorSpecAppID` is read
back with the error `NoMandatoryAVP`. -/
theorem C4_vendor_spec_app_id_zero_counterexample :
    getVendorSpecAppID (setVendorSpecAppID 0 1) =
      { v := (0, 1), e := some .NoMandatoryAVP, decodes := 3 } := by
  decide

theorem setVendorID_fitsWire (v : Nat) : (setVendorID v).fitsWire := by
  simp [setVendorID, EncodeUnsigned32, fitsWire, headerLen, be32]

theorem setAuthAppID_fitsWire (v : Nat) : (setAuthAppID v).fitsWire := by
  simp [setAuthAppID, EncodeUnsigned32, fitsWire, headerLen, be32]

/-- C4, amended. For all 32-bit `vi` and `ai`, `getVendorSpecAppID(setVendorSpecAppID(vi,
ai))` returns the values `(vi, ai)`; the error is nil when both are non-zero and
`NoMandatoryAVP` when either is zero. -/
theorem C4_vendor_spec_app_id_roundtrip (vi ai : Nat) (hvi : vi < 2 ^ 32) (hai : ai < 2 ^ 32) :
    (vi ≠ 0 → ai ≠ 0 →
      getVendorSpecAppID (setVendorSpecAppID vi ai) = { v := (vi, ai), e := none, decodes := 3 })
    ∧ (vi = 0 ∨ ai = 0 →
      getVendorSpecAppID (setVendorSpecAppID vi ai) =
        { v := (vi, ai), e := some .NoMandatoryAVP, decodes := 3 }) := by
  have hdec : (setVendorSpecAppID vi ai).DecodeGrouped = .ok [setVendorID vi, setAuthAppID ai] := by
    unfold setVendorSpecAppID
    apply DecodeGrouped_EncodeGrouped
    intro c hc
    simp only [List.mem_cons, List.mem_singleton, List.not_mem_nil, or_false] at hc
    rcases hc with rfl | rfl
    · exact setVendorID_fitsWire vi
    · exact setAuthAppID_fitsWire ai
  have hval : (setVendorSpecAppID vi ai).Validate 0 260 false true false = none := by
    simp [setVendorSpecAppID, EncodeGrouped, Validate]
  have h1 : getVendorID (setVendorID vi) = { v := vi, e := none, decodes := 1 } := by
    simp [getVendorID, setVendorID, Validate, EncodeUnsigned32, DecodeUnsigned32, be32,
      fromBE32_be32 vi hvi]
  have h2 : getAuthAppID (setAuthAppID ai) = { v := ai, e := none, decodes := 1 } := by
    simp [getAuthAppID, setAuthAppID, Validate, EncodeUnsigned32, DecodeUnsigned32, be32,
      fromBE32_be32 ai hai]
  have hc1 : (setVendorID vi).VenID = 0 ∧ (setVendorID vi).Code = 266 := by
    simp [setVendorID, EncodeUnsigned32]
  have hc2 : (setAuthAppID ai).VenID = 0 ∧ (setAuthAppID ai).Code = 258 := by
    simp [setAuthAppID, EncodeUnsigned32]
  have hfold : getVendorSpecAppID (setVendorSpecAppID vi ai) =
      if vi = 0 ∨ ai = 0 then { v := (vi, ai), e := some .NoMandatoryAVP, decodes := 3 }
      else { v := (vi, ai), e := none, decodes := 3 } := by
    simp [getVendorSpecAppID, hval, hdec, getVendorSpecAppID_loop, hc1, hc2, h1, h2]
  constructor
  · intro h1 h2
    rw [hfold, if_neg (by simp [h1, h2])]
  · intro h
    rw [hfold, if_pos h]

/-- Witness of C4 at the 3GPP vendor id 10415 and the S6c application id 16777312. -/
theorem C4_vendor_spec_app_id_roundtrip_witness :
    getVendorSpecAppID (setVendorSpecAppID 10415 16777312) =
      { v := (10415, 16777312), e := none, decodes := 3 } :=
  (C4_vendor_spec_app_id_roundtrip 10415 16777312 (by decide) (by decide)).1
    (by decide) (by decide)

/-- A child whose header plus payload is `2^24` bytes long no longer parses: its Length
field wraps to 0. -/
theorem parseAVPs_length_overflow (c : RawAVP) (hv : c.FlgV = false)
    (hlen : c.data.length = 2 ^ 24 - 8) (fuel : Nat) (t : List Nat) :
    parseAVPs (fuel + 1) (c.marshal ++ t) = .error .DecodeError := by
  obtain ⟨code, ven, fv, fm, fp, data⟩ := c
  simp only at hv hlen
  subst hv
  cases fm <;> cases fp <;>
    simp [marshal, be32, be24, headerLen, flagsByte, parseAVPs, hlen, fromBE24]

theorem getFailedAVP_length_overflow (c : RawAVP) (hv : c.FlgV = false)
    (hlen : c.data.length = 2 ^ 24 - 8) :
    getFailedAVP (setFailedAVP [c]) = { v := [], e := some .DecodeError, decodes := 1 } := by
  have hval : (setFailedAVP [c]).Validate 0 279 false true false = none := by
    simp [setFailedAVP, EncodeGrouped, Validate]
  have hge := marshal_length_ge c
  have hdec : (setFailedAVP [c]).DecodeGrouped = .error .DecodeError := by
    simp only [setFailedAVP, DecodeGrouped, EncodeGrouped, List.map_cons, List.map_nil,
      List.flatten_cons, List.flatten_nil]
    obtain ⟨f, hf⟩ : ∃ f, (c.marshal ++ []).length / 8 = f + 1 :=
      ⟨(c.marshal ++ []).length / 8 - 1, by simp only [List.append_nil]; omega⟩
    rw [hf]
    exact parseAVPs_length_overflow c hv hlen f []
  simp [getFailedAVP, hval, hdec]

/-- C5 fails as stated, in two ways. A child that carries vendor ID 5 with the vendor flag
clear comes back from `getFailedAVP(setFailedAVP(..))` with vendor ID 0, because the wire
form holds the Vendor-ID only when the vendor flag is set. A child with a payload of
`2^24 - 8` bytes does not come back at all: its length does not fit the 3-byte Length
field and decoding fails with `DecodeError`. -/
theorem C5_failed_avp_counterexample :
    getFailedAVP (setFailedAVP
        [{ Code := 1, VenID := 5, FlgV := false, FlgM := true, FlgP := false, data := [7] }]) =
      { v := [{ Code := 1, VenID := 0, FlgV := false, FlgM := true, FlgP := false, data := [7] }],
        e := none, decodes := 1 }
    ∧ getFailedAVP (setFailedAVP
        [{ Code := 1, VenID := 0, FlgV := false, FlgM := true, FlgP := false,
           data := List.replicate (2 ^ 24 - 8) 0 }]) =
      { v := [], e := some .DecodeError, decodes := 1 } :=
  ⟨by decide, getFailedAVP_length_overflow _ rfl (List.length_replicate _ _)⟩

/-- C5, amended. For every list of child AVPs (any length, duplicates of a code included)
in which each child has a zero vendor ID whenever its vendor flag is clear and a header
plus payload length below 2^24, `getFailedAVP(setFailedAVP(list))` returns the same
children, with the same code, vendor ID, flags and payload, in the same order, with no
error. -/
theorem C5_failed_avp_roundtrip (cs : List RawAVP) (hcs : ∀ c ∈ cs, c.fitsWire) :
    getFailedAVP (setFailedAVP cs) = { v := cs, e := none, decodes := 1 } := by
  have hdec : (setFailedAVP cs).DecodeGrouped = .ok cs :=
    DecodeGrouped_EncodeGrouped _ cs hcs
  have hval : (setFailedAVP cs).Validate 0 279 false true false = none := by
    simp [setFailedAVP, EncodeGrouped, Validate]
  simp [getFailedAVP, hval, hdec]

/-- Witness of C5: three children, two of them with the same code, one vendor-specific. -/
theorem C5_failed_avp_roundtrip_witness :
    getFailedAVP (setFailedAVP
        [setVendorID 5, setVendorID 6,
         { Code := 701, VenID := 10415, FlgV := true, FlgM := true, FlgP := false,
           data := [1, 2, 3, 4, 5] }]) =
      { v := [setVendorID 5, setVendorID 6,
          { Code := 701, VenID := 10415, FlgV := true, FlgM := true, FlgP := false,
            data := [1, 2, 3, 4, 5] }],
        e := none, decodes := 1 } :=
  C5_failed_avp_roundtrip _ (by decide)

/-! ## ts29338/S6c_avp.go -/

open ts29338

theorem setSN_children_fitsWire {IMSI E164 Address : Type} (D : Deps IMSI E164 Address)
    (t : NodeType) (d : E164) (n r : Identity)
    (hd : (D.E164Bytes d).length + 12 < 2 ^ 24) (hn : n.length + 12 < 2 ^ 24)
    (hr : r.length + 12 < 2 ^ 24) : ∀ c ∈ setSN_children D t d n r, c.fitsWire := by
  unfold setSN_children
  split_ifs <;>
    simp [fitsWire, EncodeOctetString, EncodeIdentity, headerLen] <;> omega

theorem getSN_EncodeGrouped {IMSI E164 Address : Type} (D : Deps IMSI E164 Address)
    (a : RawAVP) (cs : List RawAVP) (hV : a.FlgV = true) (hM : a.FlgM = true)
    (hP : a.FlgP = false) (hcs : ∀ c ∈ cs, c.fitsWire) :
    getSN D (a.EncodeGrouped cs) =
      (let z : SN E164 :=
        { t := NodeSGSN, d := D.zeroE164, n := [], r := [], e := none, decodes := 1 }
       let s1 := cs.foldl (getSN_loop1 D) z
       if s1.t = NodeSGSN then cs.foldl getSN_loopSGSN s1
       else if s1.t = NodeMME ∨ s1.t = NodeMSC then cs.foldl getSN_loopMME s1
       else s1) := by
  have hdec := DecodeGrouped_EncodeGrouped a cs hcs
  have hf : (a.EncodeGrouped cs).FlgV = true ∧ (a.EncodeGrouped cs).FlgM = true
      ∧ (a.EncodeGrouped cs).FlgP = false := by
    simp [EncodeGrouped, hV, hM, hP]
  simp [getSN, hdec, hf]

/-- C6, general form of the failure: whenever the name or the realm is not empty,
`getServingNode(setServingNode(NodeSGSN, d, n, r))` returns `InvalidAVP` and neither the
name nor the realm: `setSN` writes SGSN-Name (2409) and SGSN-Realm (2410) with M=0 and
`getSN` rejects them unless M=1. -/
theorem getServingNode_sgsn_name_rejected {IMSI E164 Address : Type}
    (D : Deps IMSI E164 Address) (d : E164) (n r : Identity)
    (hd : (D.E164Bytes d).length + 12 < 2 ^ 24) (hn : n.length + 12 < 2 ^ 24)
    (hr : r.length + 12 < 2 ^ 24) (hne : n ≠ [] ∨ r ≠ []) :
    (getServingNode D (setServingNode D NodeSGSN d n r)).e =
        some (.InvalidAVP .DiameterInvalidAvpBits)
    ∧ (getServingNode D (setServingNode D NodeSGSN d n r)).n = []
    ∧ (getServingNode D (setServingNode D NodeSGSN d n r)).r = [] := by
  have hcs := setSN_children_fitsWire D NodeSGSN d n r hd hn hr
  unfold getServingNode setServingNode setSN
  rw [getSN_EncodeGrouped D _ _ rfl rfl rfl hcs]
  by_cases h1 : n = [] <;> by_cases h2 : r = []
  · simp [h1, h2] at hne
  all_goals
    simp [setSN_children, h1, h2, getSN_loop1, getSN_number, getSN_loopSGSN, getSN_name,
      getSN_realm, EncodeOctetString, EncodeIdentity, DecodeOctetString, NodeSGSN, NodeMME,
      NodeMSC]

/-- C6 at the failing input: `setServingNode(NodeSGSN, d, "sgsn.example.com", "")` is read
back by `getServingNode` as node type SGSN and number `d`, but with an empty name and the
error `InvalidAVP(DiameterInvalidAvpBits)` in place of a nil error. -/
theorem C6_serving_node_sgsn_failing_input :
    (getServingNode plainDeps
        (setServingNode plainDeps NodeSGSN [0x91, 0x18, 0x09] (ascii "sgsn.example.com") [])).e =
        some (.InvalidAVP .DiameterInvalidAvpBits)
    ∧ (getServingNode plainDeps
        (setServingNode plainDeps NodeSGSN [0x91, 0x18, 0x09] (ascii "sgsn.example.com") [])).n = []
    ∧ (getServingNode plainDeps
        (setServingNode plainDeps NodeSGSN [0x91, 0x18, 0x09] (ascii "sgsn.example.com") [])).t =
        NodeSGSN
    ∧ (getServingNode plainDeps
        (setServingNode plainDeps NodeSGSN [0x91, 0x18, 0x09] (ascii "sgsn.example.com") [])).d =
        [0x91, 0x18, 0x09] := by
  decide

/-- Outside the SGSN name and realm children the Serving-Node accessors are inverse. -/
theorem getServingNode_setServingNode {IMSI E164 Address : Type}
    (D : Deps IMSI E164 Address) (t : NodeType) (d : E164) (n r : Identity)
    (hb : D.B2E164 (D.E164Bytes d) = (d, none))
    (hd : (D.E164Bytes d).length + 12 < 2 ^ 24) (hn : n.length + 12 < 2 ^ 24)
    (hr : r.length + 12 < 2 ^ 24)
    (hnv : n.all isHostNameByte = true) (hrv : r.all isHostNameByte = true)
    (ht : t = NodeMME ∨ t = NodeMSC ∨ (t = NodeSGSN ∧ n = [] ∧ r = [])) :
    getServingNode D (setServingNode D t d n r) =
      { t := t, d := d, n := n, r := r, e := none,
        decodes := 2 + (if n = [] then 0 else 1) + (if r = [] then 0 else 1) } := by
  have hcs := setSN_children_fitsWire D t d n r hd hn hr
  unfold getServingNode setServingNode setSN
  rw [getSN_EncodeGrouped D _ _ rfl rfl rfl hcs]
  by_cases h1 : n = [] <;> by_cases h2 : r = [] <;>
  rcases ht with rfl | rfl | ⟨rfl, h3, h4⟩ <;>
    simp [setSN_children, h1, h2, getSN_loop1, getSN_number, getSN_loopSGSN, getSN_loopMME,
      getSN_name, getSN_realm, EncodeOctetString, EncodeIdentity, DecodeOctetString,
      DecodeIdentity, NodeSGSN, NodeMME, NodeMSC, hb, hnv, hrv] <;> simp_all

theorem flagsDiffer_iff (a : RawAVP) (v m p : Bool) :
    a.flagsDiffer v m p ↔ ¬(a.FlgV = v ∧ a.FlgM = m ∧ a.FlgP = p) := by
  unfold flagsDiffer
  tauto

theorem checksFlagsOnly_intro {α : Type} (get : RawAVP → Got α) (zero : α) (v m p : Bool)
    (h1 : ∀ a : RawAVP, ¬(a.FlgV = v ∧ a.FlgM = m ∧ a.FlgP = p) →
      get a = { v := zero, e := some (.InvalidAVP .DiameterInvalidAvpBits), decodes := 0 })
    (h2 : ∀ (a : RawAVP) (c i : Nat), get { a with Code := c, VenID := i } = get a) :
    checksFlagsOnly get zero v m p :=
  ⟨fun a h => h1 a ((flagsDiffer_iff a v m p).1 h), h2⟩

theorem flags_Encode (a : RawAVP) :
    (∀ v, (a.EncodeUnsigned32 v).flags = a.flags) ∧ (∀ v, (a.EncodeEnumerated v).flags = a.flags)
    ∧ (∀ v, (a.EncodeOctetString v).flags = a.flags)
    ∧ (∀ v, (a.EncodeUTF8String v).flags = a.flags)
    ∧ (∀ v, (a.EncodeIdentity v).flags = a.flags)
    ∧ (∀ v, (a.EncodeGrouped v).flags = a.flags) :=
  ⟨fun _ => rfl, fun _ => rfl, fun _ => rfl, fun _ => rfl, fun _ => rfl, fun _ => rfl⟩

/-- C7 fails as stated: `getLMSI` accepts and decodes an AVP whose code (1) and vendor ID
(5) both differ from what `setLMSI` writes (2400 and 10415). -/
theorem C7_getLMSI_wrong_code_counterexample :
    (setLMSI 7).Code = 2400 ∧ (setLMSI 7).VenID = 10415
    ∧ getLMSI { Code := 1, VenID := 5, FlgV := true, FlgM := true, FlgP := false,
                data := [0, 0, 0, 7] } = { v := 7, e := none, decodes := 1 } := by
  decide

/-- C7, amended. Every ts29338 getter checks the three flags, and nothing else of the
header, before decoding: an AVP whose V, M or P flag differs from what the matching
setter writes is rejected with `InvalidAVP(DiameterInvalidAvpBits)`, the zero value and no
`Decode` call, while the code and the vendor ID of the AVP have no effect on the result. -/
theorem C7_ts29338_getters_check_flags_only {IMSI E164 Address : Type}
    (D : Deps IMSI E164 Address) :
    (checksFlagsOnly (getUserName D) D.zeroIMSI false true false
     ∧ checksFlagsOnly (getMSISDN D) D.zeroE164 true true false
     ∧ checksFlagsOnly (getSMRPMTI) UnknownMT true true false
     ∧ checksFlagsOnly (getSMRPSMEA D) D.zeroAddress true true false
     ∧ checksFlagsOnly (getSRRFlags) (false, false, false) true true false
     ∧ checksFlagsOnly (getSMDeliveryNotIntended) LocationRequested true true false
     ∧ checksFlagsOnly (getLMSI) 0 true true false
     ∧ checksFlagsOnly (getUserIdentifier D) D.zeroE164 true true false
     ∧ checksFlagsOnly (getMWDStatus) (false, false, false, false) true true false
     ∧ checksFlagsOnly (getMMEAbsentUserDiagnosticSM) NoAbsentDiag true true false
     ∧ checksFlagsOnly (getMSCAbsentUserDiagnosticSM) NoAbsentDiag true true false
     ∧ checksFlagsOnly (getSGSNAbsentUserDiagnosticSM) NoAbsentDiag true true false
     ∧ checksFlagsOnly (getAbsentUserDiagnosticSM) NoAbsentDiag true true false
     ∧ checksFlagsOnlySN (getServingNode D) D.zeroE164
     ∧ checksFlagsOnlySN (getAdditionalServingNode D) D.zeroE164)
    ∧ ((∀ v, (setUserName D v).flags = (false, true, false))
     ∧ (∀ v, (setMSISDN D v).flags = (true, true, false))
     ∧ (∀ v, (setSMRPMTI v).flags = (true, true, false))
     ∧ (∀ v, (setSMRPSMEA D v).flags = (true, true, false))
     ∧ (∀ g p s, (setSRRFlags g p s).flags = (true, true, false))
     ∧ (∀ v, (setSMDeliveryNotIntended v).flags = (true, true, false))
     ∧ (∀ v, (setLMSI v).flags = (true, true, false))
     ∧ (∀ v, (setUserIdentifier D v).flags = (true, true, false))
     ∧ (∀ a b c d, (setMWDStatus a b c d).flags = (true, true, false))
     ∧ (∀ v, (setMMEAbsentUserDiagnosticSM v).flags = (true, true, false))
     ∧ (∀ v, (setMSCAbsentUserDiagnosticSM v).flags = (true, true, false))
     ∧ (∀ v, (setSGSNAbsentUserDiagnosticSM v).flags = (true, true, false))
     ∧ (∀ v, (setAbsentUserDiagnosticSM v).flags = (true, true, false))
     ∧ (∀ t d n r, (setServingNode D t d n r).flags = (true, true, false))
     ∧ (∀ t d n r, (setAdditionalServingNode D t d n r).flags = (true, true, false))) := by
  refine ⟨⟨?_, ?_, ?_, ?_, ?_, ?_, ?_, ?_, ?_, ?_, ?_, ?_, ?_, ?_, ?_⟩, ?_⟩
  · exact checksFlagsOnly_intro _ _ _ _ _ (fun a h => by
      obtain ⟨c, i, fv, fm, fp, data⟩ := a
      cases fv <;> cases fm <;> cases fp <;> simp_all [getUserName]) (fun _ _ _ => rfl)
  · exact checksFlagsOnly_intro _ _ _ _ _ (fun a h => by
      obtain ⟨c, i, fv, fm, fp, data⟩ := a
      cases fv <;> cases fm <;> cases fp <;> simp_all [getMSISDN]) (fun _ _ _ => rfl)
  · exact checksFlagsOnly_intro _ _ _ _ _ (fun a h => by
      obtain ⟨c, i, fv, fm, fp, data⟩ := a
      cases fv <;> cases fm <;> cases fp <;> simp_all [getSMRPMTI]) (fun _ _ _ => rfl)
  · exact checksFlagsOnly_intro _ _ _ _ _ (fun a h => by
      obtain ⟨c, i, fv, fm, fp, data⟩ := a
      cases fv <;> cases fm <;> cases fp <;> simp_all [getSMRPSMEA]) (fun _ _ _ => rfl)
  · exact checksFlagsOnly_intro _ _ _ _ _ (fun a h => by
      obtain ⟨c, i, fv, fm, fp, data⟩ := a
      cases fv <;> cases fm <;> cases fp <;> simp_all [getSRRFlags]) (fun _ _ _ => rfl)
  · exact checksFlagsOnly_intro _ _ _ _ _ (fun a h => by
      obtain ⟨c, i, fv, fm, fp, data⟩ := a
      cases fv <;> cases fm <;> cases fp <;> simp_all [getSMDeliveryNotIntended]) (fun _ _ _ => rfl)
  · exact checksFlagsOnly_intro _ _ _ _ _ (fun a h => by
      obtain ⟨c, i, fv, fm, fp, data⟩ := a
      cases fv <;> cases fm <;> cases fp <;> simp_all [getLMSI]) (fun _ _ _ => rfl)
  · exact checksFlagsOnly_intro _ _ _ _ _ (fun a h => by
      obtain ⟨c, i, fv, fm, fp, data⟩ := a
      cases fv <;> cases fm <;> cases fp <;> simp_all [getUserIdentifier]) (fun _ _ _ => rfl)
  · exact checksFlagsOnly_intro _ _ _ _ _ (fun a h => by
      obtain ⟨c, i, fv, fm, fp, data⟩ := a
      cases fv <;> cases fm <;> cases fp <;> simp_all [getMWDStatus]) (fun _ _ _ => rfl)
  · exact checksFlagsOnly_intro _ _ _ _ _ (fun a h => by
      obtain ⟨c, i, fv, fm, fp, data⟩ := a
      cases fv <;> cases fm <;> cases fp <;> simp_all [getMMEAbsentUserDiagnosticSM]) (fun _ _ _ => rfl)
  · exact checksFlagsOnly_intro _ _ _ _ _ (fun a h => by
      obtain ⟨c, i, fv, fm, fp, data⟩ := a
      cases fv <;> cases fm <;> cases fp <;> simp_all [getMSCAbsentUserDiagnosticSM]) (fun _ _ _ => rfl)
  · exact checksFlagsOnly_intro _ _ _ _ _ (fun a h => by
      obtain ⟨c, i, fv, fm, fp, data⟩ := a
      cases fv <;> cases fm <;> cases fp <;> simp_all [getSGSNAbsentUserDiagnosticSM]) (fun _ _ _ => rfl)
  · exact checksFlagsOnly_intro _ _ _ _ _ (fun a h => by
      obtain ⟨c, i, fv, fm, fp, data⟩ := a
      cases fv <;> cases fm <;> cases fp <;> simp_all [getAbsentUserDiagnosticSM]) (fun _ _ _ => rfl)
  · exact ⟨fun a h => by
      have h := (flagsDiffer_iff a _ _ _).1 h
      obtain ⟨c, i, fv, fm, fp, data⟩ := a
      cases fv <;> cases fm <;> cases fp <;> simp_all [getServingNode, getSN], fun _ _ _ => rfl⟩
  · exact ⟨fun a h => by
      have h := (flagsDiffer_iff a _ _ _).1 h
      obtain ⟨c, i, fv, fm, fp, data⟩ := a
      cases fv <;> cases fm <;> cases fp <;> simp_all [getAdditionalServingNode, getSN], fun _ _ _ => rfl⟩
  · refine ⟨?_, ?_, ?_, ?_, ?_, ?_, ?_, ?_, ?_, ?_, ?_, ?_, ?_, ?_, ?_⟩
    · intros; simp [setUserName, apply_ite RawAVP.flags, flags_Encode]; rfl
    · intros; simp [setMSISDN, apply_ite RawAVP.flags, flags_Encode]; rfl
    · intros; simp [setSMRPMTI, apply_ite RawAVP.flags, flags_Encode]; rfl
    · intros; simp [setSMRPSMEA, apply_ite RawAVP.flags, flags_Encode]; rfl
    · intros; simp [setSRRFlags, apply_ite RawAVP.flags, flags_Encode]; rfl
    · intros; simp [setSMDeliveryNotIntended, apply_ite RawAVP.flags, flags_Encode]; rfl
    · intros; simp [setLMSI, apply_ite RawAVP.flags, flags_Encode]; rfl
    · intros; simp [setUserIdentifier, apply_ite RawAVP.flags, flags_Encode]; rfl
    · intros; simp [setMWDStatus, apply_ite RawAVP.flags, flags_Encode]; rfl
    · intros; simp [setMMEAbsentUserDiagnosticSM, apply_ite RawAVP.flags, flags_Encode]; rfl
    · intros; simp [setMSCAbsentUserDiagnosticSM, apply_ite RawAVP.flags, flags_Encode]; rfl
    · intros; simp [setSGSNAbsentUserDiagnosticSM, apply_ite RawAVP.flags, flags_Encode]; rfl
    · intros; simp [setAbsentUserDiagnosticSM, apply_ite RawAVP.flags, flags_Encode]; rfl
    · intros; simp [setServingNode, setSN, apply_ite RawAVP.flags, flags_Encode]; rfl
    · intros; simp [setAdditionalServingNode, setSN, apply_ite RawAVP.flags, flags_Encode]; rfl

/-- Witness of C7: an MSISDN-shaped AVP with the mandatory flag clear is rejected by
`getMSISDN` undecoded, and changing the code and vendor ID of a well-flagged one does not
change what `getMSISDN` returns. -/
theorem C7_ts29338_getters_check_flags_only_witness :
    getMSISDN plainDeps
        { Code := 701, VenID := 10415, FlgV := true, FlgM := false, FlgP := false,
          data := [0x91, 0x18, 0x09] } =
      { v := [], e := some (.InvalidAVP .DiameterInvalidAvpBits), decodes := 0 }
    ∧ getMSISDN plainDeps
        { (setMSISDN plainDeps [0x91, 0x18, 0x09]) with Code := 1, VenID := 0 } =
      getMSISDN plainDeps (setMSISDN plainDeps [0x91, 0x18, 0x09]) :=
  ⟨(C7_ts29338_getters_check_flags_only plainDeps).1.2.1.1 _ (by decide),
   (C7_ts29338_getters_check_flags_only plainDeps).1.2.1.2 _ 1 0⟩

/-! ## provider/node.go -/

namespace provider

open LocalNode

theorem callsHbH_eq (n : Nat) : ∀ (l : LocalNode) (s : Nat), l.hbHId = .full s → s < 2 ^ 32 →
    l.callsHbH n = some ((List.range n).map (idAt s),
      { l with hbHId := .full (idAt s n) }) := by
  induction n with
  | zero =>
    intro l s hl hs
    obtain ⟨a, b, c, d, e⟩ := l
    simp only at hl
    simp [callsHbH, hl, idAt]
    omega
  | succ n ih =>
    intro l s hl hs
    have h1 : l.NextHbH = some (s, { l with hbHId := .full ((s + 1) % 2 ^ 32) }) := by
      simp [NextHbH, hl]
    have h2 := ih { l with hbHId := .full ((s + 1) % 2 ^ 32) } ((s + 1) % 2 ^ 32) rfl
      (Nat.mod_lt _ (by norm_num))
    simp only [callsHbH, h1, h2, List.range_succ_eq_map, List.map_cons, List.map_map]
    simp [idAt]
    exact ⟨⟨by omega, fun a _ => by omega⟩, by omega⟩

theorem callsEtE_eq (n : Nat) : ∀ (l : LocalNode) (s : Nat), l.etEId = .full s → s < 2 ^ 32 →
    l.callsEtE n = some ((List.range n).map (idAt s),
      { l with etEId := .full (idAt s n) }) := by
  induction n with
  | zero =>
    intro l s hl hs
    obtain ⟨a, b, c, d, e⟩ := l
    simp only at hl
    simp [callsEtE, hl, idAt]
    omega
  | succ n ih =>
    intro l s hl hs
    have h1 : l.NextEtE = some (s, { l with etEId := .full ((s + 1) % 2 ^ 32) }) := by
      simp [NextEtE, hl]
    have h2 := ih { l with etEId := .full ((s + 1) % 2 ^ 32) } ((s + 1) % 2 ^ 32) rfl
      (Nat.mod_lt _ (by norm_num))
    simp only [callsEtE, h1, h2, List.range_succ_eq_map, List.map_cons, List.map_map]
    simp [idAt]
    exact ⟨⟨by omega, fun a _ => by omega⟩, by omega⟩

/-- Up to `2^32` consecutive identifiers are pairwise distinct. -/
theorem nodup_ids (s n : Nat) (hn : n ≤ 2 ^ 32) : ((List.range n).map (idAt s)).Nodup := by
  apply List.Nodup.map_on _ (List.nodup_range n)
  intro x hx y hy hxy
  simp only [List.mem_range] at hx hy
  simp only [idAt] at hxy
  omega

/-- C8. From a hop-by-hop counter holding `s`, `NextHbH` returns `s` and stores
`(s + 1) mod 2^32`; `n` consecutive calls all return, the `k`-th of them (k = 0, 1, ...)
returning `(s + k) mod 2^32`, also across the wraparound, and leave `(s + n) mod 2^32`
in the counter; any `n <= 2^32` consecutive results are pairwise distinct. `NextEtE` does
the same on the end-to-end counter. -/
theorem C8_next_ids_sequence (l : LocalNode) (s : Nat) (hs : s < 2 ^ 32) :
    (l.hbHId = .full s →
      l.NextHbH = some (s, { l with hbHId := .full ((s + 1) % 2 ^ 32) })
      ∧ (∀ n, l.callsHbH n =
          some ((List.range n).map (idAt s), { l with hbHId := .full (idAt s n) }))
      ∧ (∀ n rets l', n ≤ 2 ^ 32 → l.callsHbH n = some (rets, l') → rets.Nodup))
    ∧ (l.etEId = .full s →
      l.NextEtE = some (s, { l with etEId := .full ((s + 1) % 2 ^ 32) })
      ∧ (∀ n, l.callsEtE n =
          some ((List.range n).map (idAt s), { l with etEId := .full (idAt s n) }))
      ∧ (∀ n rets l', n ≤ 2 ^ 32 → l.callsEtE n = some (rets, l') → rets.Nodup)) := by
  constructor
  · intro hl
    refine ⟨by simp [NextHbH, hl], fun n => callsHbH_eq n l s hl hs, ?_⟩
    intro n rets l' hn hcalls
    rw [callsHbH_eq n l s hl hs] at hcalls
    have hr : (List.range n).map (idAt s) = rets := congrArg Prod.fst (Option.some.inj hcalls)
    rw [← hr]
    exact nodup_ids s n hn
  · intro hl
    refine ⟨by simp [NextEtE, hl], fun n => callsEtE_eq n l s hl hs, ?_⟩
    intro n rets l' hn hcalls
    rw [callsEtE_eq n l s hl hs] at hcalls
    have hr : (List.range n).map (idAt s) = rets := congrArg Prod.fst (Option.some.inj hcalls)
    rw [← hr]
    exact nodup_ids s n hn

/-- Witness of C8: four calls from a counter two below the wraparound. -/
theorem C8_next_ids_sequence_witness :
    ({ blankNode with hbHId := .full 4294967294 } : LocalNode).callsHbH 4 =
      some ([4294967294, 4294967295, 0, 1],
        { blankNode with hbHId := .full 2 })
    ∧ ({ blankNode with etEId := .full 4294967295 } : LocalNode).NextEtE =
      some (4294967295, { blankNode with etEId := .full 0 }) :=
  ⟨((C8_next_ids_sequence { blankNode with hbHId := .full 4294967294 } 4294967294
      (by decide)).1 rfl).2.1 4,
   ((C8_next_ids_sequence { blankNode with etEId := .full 4294967295 } 4294967295
      (by decide)).2 rfl).1⟩

/-- C9 at the failing input: at Unix time 0 with a second random draw of 0, `InitIDs`
seeds the end-to-end counter with 0xFFFFFFFF where the claimed formula gives 0, and at
Unix time 1700000000 with the draw 0x12345678 it seeds 0xFFFBA987 where the formula gives
0x10045678: the code combines with XOR where the formula masks. The hop-by-hop counter
holds the first random draw unchanged. -/
theorem C9_InitIDs_end_to_end_seed_failing_input :
    (blankNode.InitIDs 7 0 0).etEId = .full 0xFFFFFFFF
    ∧ specEndToEndSeed 0 0 = 0
    ∧ (blankNode.InitIDs 7 1700000000 0x12345678).etEId = .full 0xFFFBA987
    ∧ specEndToEndSeed 1700000000 0x12345678 = 0x10045678
    ∧ (blankNode.InitIDs 7 1700000000 0x12345678).hbHId = .full 7 := by
  decide

/-- The hop-by-hop counter is seeded with the first random draw unchanged. -/
theorem InitIDs_hbHId (l : LocalNode) (r1 : Nat) (now : Int) (r2 : Nat) :
    (l.InitIDs r1 now r2).hbHId = .full r1 :=
  rfl

/-! ### Concurrent callers -/

theorem idAt_succ (seed k : Nat) : (idAt seed k + 1) % 2 ^ 32 = idAt seed (k + 1) := by
  unfold idAt
  omega

theorem Sys.Inv_init (seed m : Nat) (h : seed < 2 ^ 32) : (Sys.init seed m).Inv seed := by
  refine ⟨0, rfl, Or.inl ⟨?_, ?_⟩⟩
  · simp [Sys.init, idAt]
    omega
  · intro j c hc
    have hmem : c ∈ List.replicate m Caller.idle := List.getElem?_mem hc
    exact (List.mem_replicate.1 hmem).2

theorem Sys.Inv_step (seed : Nat) (s : Sys) (i : Nat) (h : s.Inv seed) : (s.step i).Inv seed := by
  obtain ⟨k, hv, hcase⟩ := h
  unfold Sys.step
  split
  · -- receive
    rename_i v hi hch
    rcases hcase with ⟨hfull, hidle⟩ | ⟨hempty, _⟩
    · have hvk : v = idAt seed k := by
        rw [hch] at hfull
        exact Chan.full.inj hfull
      subst hvk
      have hlt : i < s.callers.length := by
        by_contra hge
        rw [List.getElem?_eq_none (by omega)] at hi
        cases hi
      refine ⟨k, hv, Or.inr ⟨rfl, i, ?_, ?_⟩⟩
      · simp [List.getElem?_set, hlt]
      · intro j c hji hc
        rw [List.getElem?_set_ne (Ne.symm hji)] at hc
        exact hidle j c hc
    · rw [hch] at hempty
      cases hempty
  · -- send
    rename_i ret hi hch
    rcases hcase with ⟨hfull, _⟩ | ⟨_, i', hi', hothers⟩
    · rw [hch] at hfull
      cases hfull
    · have hii : i = i' := by
        by_contra hne
        have := hothers i _ hne hi
        cases this
      subst hii
      have hret : ret = idAt seed k := by
        rw [hi] at hi'
        exact Caller.received.inj (Option.some.inj hi')
      subst hret
      refine ⟨k + 1, ?_, Or.inl ⟨?_, ?_⟩⟩
      · simp only [Sys.values] at hv ⊢
        simp [hv, List.range_succ]
      · exact congrArg Chan.full (idAt_succ seed k)
      · intro j c hc
        by_cases hji : j = i
        · subst hji
          have hlt : j < s.callers.length := by
            by_contra hge
            rw [List.getElem?_eq_none (by omega)] at hi
            cases hi
          rw [List.getElem?_set_self hlt] at hc
          exact (Option.some.inj hc).symm
        · rw [List.getElem?_set_ne (Ne.symm hji)] at hc
          exact hothers j c hji hc
  · exact ⟨k, hv, hcase⟩

theorem Sys.Inv_exec (seed : Nat) (sched : List Nat) :
    ∀ s : Sys, s.Inv seed → (s.exec sched).Inv seed := by
  induction sched with
  | nil => intro s h; exact h
  | cons i rest ih =>
    intro s h
    exact ih (s.step i) (Sys.Inv_step seed s i h)

theorem Sys.values_of_Inv (seed : Nat) (s : Sys) (h : s.Inv seed) :
    s.values = (List.range s.log.length).map (idAt seed) := by
  obtain ⟨k, hv, _⟩ := h
  have hlen : s.log.length = k := by
    have := congrArg List.length hv
    simpa [Sys.values] using this
  rw [hlen]
  exact hv


theorem Sys.callers_length_step (s : Sys) (i : Nat) :
    (s.step i).callers.length = s.callers.length := by
  unfold Sys.step
  split <;> simp

theorem Sys.log_step (s : Sys) (i : Nat) (m : Nat) (hm : s.callers.length = m)
    (h : ∀ e ∈ s.log, e.1 < m) : ∀ e ∈ (s.step i).log, e.1 < m := by
  unfold Sys.step
  split
  · exact h
  · rename_i ret hi hch
    intro e he
    simp only [List.mem_append, List.mem_singleton] at he
    rcases he with he | rfl
    · exact h e he
    · have hlt : i < s.callers.length := by
        by_contra hge
        rw [List.getElem?_eq_none (by omega)] at hi
        cases hi
      simpa [hm] using hlt
  · exact h

theorem Sys.log_exec (m : Nat) (sched : List Nat) :
    ∀ s : Sys, s.callers.length = m → (∀ e ∈ s.log, e.1 < m) →
      ∀ e ∈ (s.exec sched).log, e.1 < m := by
  induction sched with
  | nil => intro s _ h; exact h
  | cons i rest ih =>
    intro s hm h
    exact ih (s.step i) ((Sys.callers_length_step s i).trans hm) (Sys.log_step s i m hm h)

/-- No deadlock: in every reachable state with at least one caller, some caller can take a
step that changes the state. -/
theorem Sys.progress (seed : Nat) (s : Sys) (h : s.Inv seed) (hm : 0 < s.callers.length) :
    ∃ i, i < s.callers.length ∧ s.step i ≠ s := by
  obtain ⟨k, _, ⟨hfull, hidle⟩ | ⟨hempty, i, hi, _⟩⟩ := h
  · refine ⟨0, hm, ?_⟩
    have h0 : s.callers[0]? = some Caller.idle := by
      rw [List.getElem?_eq_getElem hm]
      exact congrArg some (hidle 0 _ (List.getElem?_eq_getElem hm))
    intro heq
    have := congrArg Sys.hbHId heq
    simp [Sys.step, h0, hfull] at this
  · have hlt : i < s.callers.length := by
      by_contra hge
      rw [List.getElem?_eq_none (by omega)] at hi
      cases hi
    refine ⟨i, hlt, ?_⟩
    intro heq
    have := congrArg Sys.hbHId heq
    simp [Sys.step, hi, hempty] at this

/-- A single caller that is given `2 * n` steps completes `n` calls. -/
theorem Sys.exec_single (n : Nat) : ∀ (s : Sys) (v : Nat), s.callers = [Caller.idle] →
    s.hbHId = Chan.full v →
    ((s.exec (List.replicate (2 * n) 0)).log.length = s.log.length + n) := by
  induction n with
  | zero => intro s v _ _; rfl
  | succ n ih =>
    intro s v hc hch
    have h2 : List.replicate (2 * (n + 1)) 0 = 0 :: 0 :: List.replicate (2 * n) 0 := by
      rw [Nat.mul_add, Nat.mul_one, List.replicate_succ, List.replicate_succ]
    rw [h2]
    have hs1 : s.step 0 = { s with hbHId := .empty, callers := [Caller.received v] } := by
      simp [Sys.step, hc, hch]
    have hs2 : (s.step 0).step 0 =
        { hbHId := .full ((v + 1) % 2 ^ 32), callers := [Caller.idle],
          log := s.log ++ [(0, v)] } := by
      rw [hs1]
      simp [Sys.step]
    show (((s.step 0).step 0).exec (List.replicate (2 * n) 0)).log.length = _
    rw [hs2, ih _ ((v + 1) % 2 ^ 32) rfl rfl]
    simp
    omega

/-- C10 fails as stated: one caller that completes `2^32 + 1` calls from seed 0 is handed
the identifier 0 twice, so `N` calls do not yield `N` distinct values once `N` exceeds
`2^32`. -/
theorem C10_wraparound_counterexample :
    ((Sys.init 0 1).exec (List.replicate (2 * (2 ^ 32 + 1)) 0)).log.length = 2 ^ 32 + 1
    ∧ ¬ ((Sys.init 0 1).exec (List.replicate (2 * (2 ^ 32 + 1)) 0)).values.Nodup := by
  have hlen : ((Sys.init 0 1).exec (List.replicate (2 * (2 ^ 32 + 1)) 0)).log.length
      = 2 ^ 32 + 1 := by
    rw [Sys.exec_single (2 ^ 32 + 1) (Sys.init 0 1) 0 rfl rfl]
    simp [Sys.init]
  refine ⟨hlen, ?_⟩
  intro hnd
  have hinv := Sys.Inv_exec 0 (List.replicate (2 * (2 ^ 32 + 1)) 0) (Sys.init 0 1)
    (Sys.Inv_init 0 1 (by norm_num))
  rw [Sys.values_of_Inv 0 _ hinv, hlen] at hnd
  have hinj := List.inj_on_of_nodup_map hnd
  have h0 : (0 : Nat) ∈ List.range (2 ^ 32 + 1) := List.mem_range.2 (by norm_num)
  have h1 : (2 ^ 32 : Nat) ∈ List.range (2 ^ 32 + 1) := List.mem_range.2 (by norm_num)
  have heq : idAt 0 0 = idAt 0 (2 ^ 32) := by
    unfold idAt
    norm_num
  have := hinj h0 h1 heq
  norm_num at this

/-- C10, amended. Under every interleaving of `m` concurrent callers of `NextHbH`, the `N`
completed calls were handed, in order of completion, exactly `(seed + k) mod 2^32` for
`k = 0, ..., N-1`: no update is lost. When `N <= 2^32` these are `N` distinct values, so
no identifier is handed out twice. Every value went to one of the `m` callers. -/
theorem C10_concurrent_callers (seed m : Nat) (sched : List Nat) (hseed : seed < 2 ^ 32) :
    ((Sys.init seed m).exec sched).values =
        (List.range ((Sys.init seed m).exec sched).log.length).map (idAt seed)
    ∧ (((Sys.init seed m).exec sched).log.length ≤ 2 ^ 32 →
        ((Sys.init seed m).exec sched).values.Nodup)
    ∧ (∀ e ∈ ((Sys.init seed m).exec sched).log, e.1 < m) := by
  have hinv := Sys.Inv_exec seed sched (Sys.init seed m) (Sys.Inv_init seed m hseed)
  have hv := Sys.values_of_Inv seed _ hinv
  refine ⟨hv, ?_, ?_⟩
  · intro hle
    rw [hv]
    exact nodup_ids seed _ hle
  · exact Sys.log_exec m sched (Sys.init seed m) (by simp [Sys.init]) (by simp [Sys.init])

/-- Witness of C10: three callers interleaved from a seed two below the wraparound. -/
theorem C10_concurrent_callers_witness :
    ((Sys.init 4294967294 3).exec [0, 1, 2, 0, 0, 1, 2, 2, 1, 1, 0, 2, 2]).log =
        [(0, 4294967294), (0, 4294967295), (2, 0)]
    ∧ ((Sys.init 4294967294 3).exec [0, 1, 2, 0, 0, 1, 2, 2, 1, 1, 0, 2, 2]).values =
        (List.range ((Sys.init 4294967294 3).exec
          [0, 1, 2, 0, 0, 1, 2, 2, 1, 1, 0, 2, 2]).log.length).map (idAt 4294967294)
    ∧ ((Sys.init 4294967294 3).exec [0, 1, 2, 0, 0, 1, 2, 2, 1, 1, 0, 2, 2]).values.Nodup :=
  ⟨by decide,
   (C10_concurrent_callers 4294967294 3 [0, 1, 2, 0, 0, 1, 2, 2, 1, 1, 0, 2, 2]
      (by decide)).1,
   (C10_concurrent_callers 4294967294 3 [0, 1, 2, 0, 0, 1, 2, 2, 1, 1, 0, 2, 2]
      (by decide)).2.1 (by decide)⟩

end provider

namespace provider

/-! ## provider/connection.go -/

theorem Close_after_conn (c : Connection) (notify : Bool) (env : Env) :
    (c.Close notify env).after.conn = none := by
  unfold Connection.Close
  split <;> simp_all

theorem call_closed (c : Connection) (notify : Bool) (env : Env) (k : Call)
    (h : c.conn = none) :
    (c.call notify env k).2 = c ∧ (c.call notify env k).1 ≠ none := by
  cases k <;> simp [Connection.call, Connection.Close, Connection.Write, Connection.Read, h]

theorem calls_closed (notify : Bool) (script : List (Call × Env)) :
    ∀ c : Connection, c.conn = none →
      (Connection.calls notify script c).2 = c
      ∧ ∀ r ∈ (Connection.calls notify script c).1, r.2 ≠ none := by
  induction script with
  | nil => intro c _; simp [Connection.calls]
  | cons ke rest ih =>
    intro c h
    obtain ⟨k, env⟩ := ke
    obtain ⟨h1, h2⟩ := call_closed c notify env k h
    simp only [Connection.calls, h1]
    obtain ⟨ih1, ih2⟩ := ih c h
    refine ⟨ih1, ?_⟩
    intro r hr
    simp only [List.mem_cons] at hr
    rcases hr with rfl | hr
    · exact h2
    · exact ih2 r hr

/-- C11. `Close` on a connection whose transport handle is already absent returns the
non-nil error "connection has been closed", performs no transport operation and leaves the
connection as it was, closed; and after any `Close`, whatever the first one returned, the
next `Close` fails in that way. -/
theorem C11_close_on_closed (c : Connection) (notify : Bool) (env env2 : Env) :
    (c.IsAvailable = false →
      (c.Close notify env).ret = some "connection has been closed"
      ∧ (c.Close notify env).ops = []
      ∧ (c.Close notify env).after = c
      ∧ (c.Close notify env).after.IsAvailable = false)
    ∧ ((c.Close notify env).after.Close notify env2).ret = some "connection has been closed"
    ∧ ((c.Close notify env).after.Close notify env2).ops = [] := by
  have h2 := Close_after_conn c notify env
  refine ⟨?_, ?_, ?_⟩
  · intro h
    have hc : c.conn = none := by
      simpa [Connection.IsAvailable] using h
    simp [Connection.Close, hc, Connection.IsAvailable]
  · generalize (c.Close notify env).after = c1 at h2
    simp [Connection.Close, h2]
  · generalize (c.Close notify env).after = c1 at h2
    simp [Connection.Close, h2]


/-- Witness of C11: a connection without transport, and a second `Close` after the `Close`
of an open connection whose transport reported no error. -/
theorem C11_close_on_closed_witness :
    (bareConnection.Close true
        quietEnv).ret
      = some "connection has been closed"
    ∧ ((openConnection.Close true
          quietEnv).after.Close true
        { quietEnv with now := 1 }).ret
      = some "connection has been closed" :=
  ⟨((C11_close_on_closed _ true _
      quietEnv).1
      (by decide)).1,
   (C11_close_on_closed _ true _ _).2.1⟩

/-- C12. Closed is terminal: after `Close` on a connection, open or not and whatever the
transport's own close reports, `IsAvailable` is false; and after any further sequence of `Read`,
`Write` and `Close` calls, whatever the environment answers, `IsAvailable` is still false
and every call of the sequence, so every `Read` and `Write`, returned a non-nil error. -/
theorem C12_closed_is_terminal (c : Connection) (notify : Bool) (env : Env)
    (script : List (Call × Env)) :
    (c.Close notify env).after.IsAvailable = false
    ∧ (Connection.calls notify script (c.Close notify env).after).2.IsAvailable = false
    ∧ (∀ r ∈ (Connection.calls notify script (c.Close notify env).after).1,
        r.1.isTransfer = true → r.2 ≠ none) := by
  have h := Close_after_conn c notify env
  obtain ⟨h1, h2⟩ := calls_closed notify script _ h
  refine ⟨by simp [Connection.IsAvailable, h], ?_, fun r hr _ => h2 r hr⟩
  rw [h1]
  simp [Connection.IsAvailable, h]


/-- Witness of C12: an open connection whose transport fails to close, then a `Write`, a
`Read`, a `Close` and a `Write` for which the transport would report no error. -/
theorem C12_closed_is_terminal_witness :
    (Connection.calls true
        [(.Write 5 [1], quietEnv),
         (.Read 0, { quietEnv with now := 1, received := [2] }),
         (.Close, { quietEnv with now := 2 }),
         (.Write 0 [3], { quietEnv with now := 3 })]
        (openConnection.Close true
          { quietEnv with close := some "close failed" }).after).2.IsAvailable = false
    ∧ (Call.Read 0, some "connection is closed") ∈ (Connection.calls true
        [(.Write 5 [1], quietEnv),
         (.Read 0, { quietEnv with now := 1, received := [2] }),
         (.Close, { quietEnv with now := 2 }),
         (.Write 0 [3], { quietEnv with now := 3 })]
        (openConnection.Close true
          { quietEnv with close := some "close failed" }).after).1 :=
  ⟨(C12_closed_is_terminal _ true _ _).2.1, by decide⟩

/-- C13. For a Connection with no transport and no Local or Peer node, `Write` and `Read`,
for every duration, message and answer of the environment, return the error "connection
is closed" (`Read` with the zero message), perform no transport operation and leave the
connection unchanged; with an observer registered the one event they emit carries the
host names "unknown" for local and peer. -/
theorem C13_read_write_without_transport (notify : Bool) (env : Env) (s : Duration)
    (m : Message) :
    bareConnection.Write notify env s m =
      { ret := some "connection is closed"
        after := bareConnection
        ops := []
        events :=
          if notify then
            [.TxMessage (ascii "unknown") (ascii "unknown") (some "connection is closed") m]
          else [] }
    ∧ bareConnection.Read notify env s =
      { ret := ([], some "connection is closed")
        after := bareConnection
        ops := []
        events :=
          if notify then
            [.RxMessage (ascii "unknown") (ascii "unknown") (some "connection is closed") []]
          else [] } := by
  constructor <;> rfl

/-- C15. On an open connection with an observer registered, `Write` emits exactly one
event, a `TxMessage`, and `Read` exactly one, an `RxMessage`; its `Err` field is the error
the call returns, which is the result of the transfer (`WriteTo`, `ReadFrom`): nil when it
succeeded, its error otherwise. -/
theorem C15_one_event_with_returned_error (c : Connection) (env : Env) (s : Duration)
    (m : Message) (hopen : c.IsAvailable = true) :
    (c.Write true env s m).events =
        [.TxMessage c.hostnames.1 c.hostnames.2 (c.Write true env s m).ret m]
    ∧ (c.Write true env s m).ret = env.transfer
    ∧ (c.Read true env s).events =
        [.RxMessage c.hostnames.1 c.hostnames.2 (c.Read true env s).ret.2
          (c.Read true env s).ret.1]
    ∧ (c.Read true env s).ret.2 = env.transfer := by
  obtain ⟨p, l, conn⟩ := c
  cases conn with
  | none => simp [Connection.IsAvailable] at hopen
  | some t => simp [Connection.Write, Connection.Read]

/-- Witness of C15: a `Write` whose transfer fails on an open connection. -/
theorem C15_one_event_with_returned_error_witness :
    (openConnection.Write true
        { quietEnv with transfer := some "i/o timeout" } 5 [1]).ret = some "i/o timeout" :=
  (C15_one_event_with_returned_error _ _ 5 [1] (by decide)).2.1

/-- C16 fails as stated: on an open connection whose transport rejects the deadline
(`SetWriteDeadline`, `SetReadDeadline` return an error) and then transfers the message,
`Write` and `Read` return a nil error; the result of applying the deadline is discarded. -/
theorem C16_deadline_error_dropped_counterexample :
    (openConnection.Write false
        { quietEnv with setDeadline := some "set deadline failed" } 5 [1]).ret = none
    ∧ (openConnection.Read false
        { quietEnv with setDeadline := some "set deadline failed", received := [1] } 5).ret
      = ([1], none) := by
  decide

/-- C16, amended. No error of the message transfer is swallowed by `Write` or `Read`:
whenever `WriteTo` or `ReadFrom` reports an error on an open connection, the operation
returns that error, which is non-nil, whatever applying the deadline reported. -/
theorem C16_transfer_error_returned (c : Connection) (notify : Bool) (env : Env)
    (s : Duration) (m : Message) (hopen : c.IsAvailable = true)
    (herr : env.transfer ≠ none) :
    (c.Write notify env s m).ret = env.transfer ∧ (c.Write notify env s m).ret ≠ none
    ∧ (c.Read notify env s).ret.2 = env.transfer ∧ (c.Read notify env s).ret.2 ≠ none := by
  obtain ⟨p, l, conn⟩ := c
  cases conn with
  | none => simp [Connection.IsAvailable] at hopen
  | some t => simpa [Connection.Write, Connection.Read] using herr

/-- Witness of C16: a `Read` that times out on an open connection. -/
theorem C16_transfer_error_returned_witness :
    (openConnection.Read true { quietEnv with transfer := some "i/o timeout" } 5).ret.2
      = some "i/o timeout" :=
  (C16_transfer_error_returned openConnection true
    { quietEnv with transfer := some "i/o timeout" } 5 [] (by decide) (by decide)).2.2.1

/-- C17. `Close`, `Write` and `Read`, run from the same connection with the same answers of
the environment, return the same result, leave the same connection and perform the same
transport operations whether the observer is absent or registered; only the events
differ. -/
theorem C17_observer_does_not_interfere (c : Connection) (env : Env) (s : Duration)
    (m : Message) :
    ((c.Close true env).ret = (c.Close false env).ret
      ∧ (c.Close true env).after = (c.Close false env).after
      ∧ (c.Close true env).ops = (c.Close false env).ops)
    ∧ ((c.Write true env s m).ret = (c.Write false env s m).ret
      ∧ (c.Write true env s m).after = (c.Write false env s m).after
      ∧ (c.Write true env s m).ops = (c.Write false env s m).ops)
    ∧ ((c.Read true env s).ret = (c.Read false env s).ret
      ∧ (c.Read true env s).after = (c.Read false env s).after
      ∧ (c.Read true env s).ops = (c.Read false env s).ops) := by
  obtain ⟨p, l, conn⟩ := c
  cases conn <;> simp [Connection.Close, Connection.Write, Connection.Read]

/-- C18. On an open connection, `Write` and `Read` called with duration `s` at wall-clock
time `now` first apply to the transport the zero-value deadline when `s` is zero and the
absolute deadline `now + s` when `s` is not zero, then transfer the message. -/
theorem C18_deadline_applied (c : Connection) (notify : Bool) (env : Env) (s : Duration)
    (m : Message) (hopen : c.IsAvailable = true) :
    (s = 0 →
      (c.Write notify env s m).ops = [.SetWriteDeadline zeroTime, .WriteTo m]
      ∧ (c.Read notify env s).ops = [.SetReadDeadline zeroTime, .ReadFrom])
    ∧ (s ≠ 0 →
      (c.Write notify env s m).ops = [.SetWriteDeadline (env.now + s), .WriteTo m]
      ∧ (c.Read notify env s).ops = [.SetReadDeadline (env.now + s), .ReadFrom]) := by
  obtain ⟨p, l, conn⟩ := c
  cases conn with
  | none => simp [Connection.IsAvailable] at hopen
  | some t =>
    constructor
    · intro hs
      simp [Connection.Write, Connection.Read, hs]
    · intro hs
      simp [Connection.Write, Connection.Read, hs]

/-- Witness of C18: a `Write` with a 5-second duration at time 1000. -/
theorem C18_deadline_applied_witness :
    (openConnection.Write false
        { quietEnv with now := 1000 } 5000000000 [1]).ops =
      [.SetWriteDeadline 5000001000, .WriteTo [1]] :=
  ((C18_deadline_applied _ false
      { quietEnv with now := 1000 }
      5000000000 [1] (by decide)).2 (by decide)).1

/-! ## `Connect` of provider/node.go -/

/-- C14 at the failing input: with an observer registered and no peer, `Connect` does not
return the error "Peer node is nil" (nor "Remote address is nil" when the remote address
is absent too): building the event dereferences the nil peer and panics. Without an
observer, and with a peer but no remote address, it returns the error and no Connection
without dialing. -/
theorem C14_connect_nil_peer_panics (l : LocalNode) (dial : Except String NetConn)
    (p : PeerNode) (laddr raddr : Option NetAddr) (ra : NetAddr) (s : Duration) :
    l.Connect true dial none laddr raddr s = .panicked
    ∧ l.Connect false dial none laddr (some ra) s =
        .returned { c := none, e := some "Peer node is nil", ops := [], events := [] }
    ∧ l.Connect false dial none laddr none s =
        .returned { c := none, e := some "Remote address is nil", ops := [], events := [] }
    ∧ l.Connect false dial (some p) laddr none s =
        .returned { c := none, e := some "Remote address is nil", ops := [], events := [] }
    ∧ l.Connect true dial (some p) laddr none s =
        .returned { c := none, e := some "Remote address is nil", ops := []
                    events := [.TransportStateChange true l.Host p.Host laddr none
                      (some "Remote address is nil")] } := by
  refine ⟨?_, ?_, ?_, ?_, ?_⟩
  · rfl
  · rfl
  · rfl
  · rfl
  · rfl

end provider

/-! ## Wire length and headers -/

theorem padLen_add_mod (L : Nat) : (L + padLen L) % 4 = 0 := by
  unfold padLen
  omega

theorem marshal_length (a : RawAVP) :
    a.marshal.length = 8 + a.data.length + padLen a.data.length + (if a.FlgV then 4 else 0) := by
  obtain ⟨code, ven, fv, fm, fp, data⟩ := a
  cases fv <;> simp [marshal, be32, be24] <;> omega

theorem lengthField_marshal (a : RawAVP) (h : a.headerLen + a.data.length < 2 ^ 24) :
    lengthField a.marshal = a.headerLen + a.data.length := by
  have hl := fromBE24_be24 (a.headerLen + a.data.length) h
  simp [marshal, be32, be24, lengthField, hl]

theorem lengthField_overflow (a : RawAVP) (hv : a.FlgV = false)
    (h : a.data.length = 2 ^ 24 - 8) : lengthField a.marshal = 0 := by
  simp [marshal, be32, be24, lengthField, headerLen, hv, h, fromBE24]

/-- C19 fails as stated for a payload of `2^24 - 8` bytes: the unpadded length `8 + L` is
`2^24`, which the 3-byte Length field cannot hold; the field reads 0. -/
theorem C19_length_field_counterexample :
    lengthField ({ Code := 264, VenID := 0, FlgV := false, FlgM := true, FlgP := false,
                   data := List.replicate (2 ^ 24 - 8) 0 } : RawAVP).marshal = 0
    ∧ 8 + (List.replicate (2 ^ 24 - 8) 0).length = 2 ^ 24 :=
  ⟨lengthField_overflow _ rfl (List.length_replicate _ _), by
    rw [List.length_replicate]
    norm_num⟩

/-- C19, amended. For every payload length `L` and both settings of the vendor flag, an
encoded AVP occupies exactly `8 + L + (4 - L mod 4) mod 4` bytes on the wire, plus 4 when
the vendor flag is set, and that total is a multiple of 4; when the unpadded length `8 + L`
(`+ 4` if vendor) is below `2^24`, the 3-byte Length field holds it. -/
theorem C19_wire_length (a : RawAVP) :
    a.marshal.length =
        8 + a.data.length + (4 - a.data.length % 4) % 4 + (if a.FlgV then 4 else 0)
    ∧ a.marshal.length % 4 = 0
    ∧ (8 + a.data.length + (if a.FlgV then 4 else 0) < 2 ^ 24 →
        lengthField a.marshal = 8 + a.data.length + (if a.FlgV then 4 else 0)) := by
  have hlen := marshal_length a
  have hpad := padLen_add_mod a.data.length
  refine ⟨by simpa [padLen] using hlen, ?_, ?_⟩
  · rw [hlen]
    split <;> omega
  · intro h
    have h3 : a.headerLen + a.data.length
        = 8 + a.data.length + (if a.FlgV then 4 else 0) := by
      unfold headerLen
      split <;> omega
    rw [lengthField_marshal a (by omega), h3]

/-- Witness of C19: the Origin-Host AVP of "hss.example.com", 24 bytes with Length 23. -/
theorem C19_wire_length_witness :
    (setOriginHost (ascii "hss.example.com")).marshal.length = 24
    ∧ lengthField (setOriginHost (ascii "hss.example.com")).marshal = 23 :=
  ⟨(C19_wire_length (setOriginHost (ascii "hss.example.com"))).1,
   (C19_wire_length (setOriginHost (ascii "hss.example.com"))).2.2 (by decide)⟩

theorem header_Encode (a : RawAVP) :
    (∀ v, (a.EncodeUnsigned32 v).header = a.header)
    ∧ (∀ v, (a.EncodeEnumerated v).header = a.header)
    ∧ (∀ v, (a.EncodeOctetString v).header = a.header)
    ∧ (∀ v, (a.EncodeUTF8String v).header = a.header)
    ∧ (∀ v, (a.EncodeIdentity v).header = a.header)
    ∧ (∀ v, (a.EncodeGrouped v).header = a.header)
    ∧ (∀ v, (a.EncodeTime v).header = a.header)
    ∧ (∀ v, (a.EncodeAddress v).header = a.header) := by
  refine ⟨fun _ => rfl, fun _ => rfl, fun _ => rfl, fun _ => rfl, fun _ => rfl, fun _ => rfl,
    fun _ => rfl, fun v => ?_⟩
  unfold EncodeAddress
  split_ifs <;> rfl

theorem carries_of_header (a : RawAVP) (h : Nat × Nat × Bool × Bool × Bool)
    (hh : a.header = h) (hv : h.2.2.1 = true ↔ h.2.1 ≠ 0) : a.carries h := by
  refine ⟨hh, ?_⟩
  unfold vendorInvariant
  have h1 : a.VenID = h.2.1 := by rw [← hh]; rfl
  have h2 : a.FlgV = h.2.2.1 := by rw [← hh]; rfl
  rw [h1, h2]
  exact hv

/-- C20 fails as stated for the children of a Failed-AVP: `setFailedAVP` builds no child
of its own but places the children it is given. Given a child with code 1, the vendor flag
set and vendor ID 0, it puts that child into the Grouped payload as it is (the payload is
the child's wire form and decodes to that very child), and the child breaks the RawAVP
invariant. -/
theorem C20_failed_avp_child_counterexample :
    (setFailedAVP [{ Code := 1, VenID := 0, FlgV := true, FlgM := true, FlgP := false }]).data =
        ({ Code := 1, VenID := 0, FlgV := true, FlgM := true, FlgP := false } : RawAVP).marshal
    ∧ (setFailedAVP
        [{ Code := 1, VenID := 0, FlgV := true, FlgM := true, FlgP := false }]).DecodeGrouped =
        .ok [{ Code := 1, VenID := 0, FlgV := true, FlgM := true, FlgP := false }]
    ∧ ¬({ Code := 1, VenID := 0, FlgV := true, FlgM := true, FlgP := false } :
        RawAVP).vendorInvariant := by
  decide

/-- C20, amended. Every AVP produced by a setter of base_avp.go, of ts29338/S6c_avp.go and
by a literal-built constructor of ts29338/SGdGdd.go carries exactly the code, vendor ID
and flags of the setter's literal and satisfies the RawAVP invariant (the vendor flag is
set if and only if the vendor ID is non-zero), and so does every child those setters
build themselves for a Grouped AVP. `setFailedAVP` builds no child: its payload is the wire
form of the children it is given, and when these fit the wire form the Failed-AVP holds
exactly them, headers unchanged, so they satisfy the invariant exactly when the caller's
children do. -/
theorem C20_setters_keep_header_and_invariant {IMSI E164 Address : Type}
    (D : Deps IMSI E164 Address) (v v2 v3 h h2 : List Nat) (n vi ai : Nat)
    (en : Enumerated) (cs : List RawAVP) (imsi : IMSI) (d : E164) (adr : Address)
    (k : Int) (b1 b2 b3 b4 : Bool) (tm : provider.Time) :
    ((setHostIPAddress v).carries (257, 0, false, true, false)
      ∧ (setAuthAppID n).carries (258, 0, false, true, false)
      ∧ (setVendorSpecAppID vi ai).carries (260, 0, false, true, false)
      ∧ (setOriginHost h).carries (264, 0, false, true, false)
      ∧ (setVendorID n).carries (266, 0, false, true, false)
      ∧ (setFirmwareRevision n).carries (267, 0, false, false, false)
      ∧ (setResultCode n).carries (268, 0, false, true, false)
      ∧ (setProductName v).carries (269, 0, false, false, false)
      ∧ (setDisconnectCause en).carries (273, 0, false, true, false)
      ∧ (setOriginStateID n).carries (278, 0, false, true, false)
      ∧ (setFailedAVP cs).carries (279, 0, false, true, false)
      ∧ (setSupportedVendorID n).carries (265, 0, false, true, false)
      ∧ (setErrorMessage v).carries (281, 0, false, false, false)
      ∧ (setOriginRealm h).carries (296, 0, false, true, false))
    ∧ ((setUserName D imsi).carries (1, 0, false, true, false)
      ∧ (setMSISDN D d).carries (701, 10415, true, true, false)
      ∧ (setSMRPMTI k).carries (3308, 10415, true, true, false)
      ∧ (setSMRPSMEA D adr).carries (3309, 10415, true, true, false)
      ∧ (setSRRFlags b1 b2 b3).carries (3310, 10415, true, true, false)
      ∧ (setSMDeliveryNotIntended k).carries (3311, 10415, true, true, false)
      ∧ (setServingNode D k d h h2).carries (2401, 10415, true, true, false)
      ∧ (setAdditionalServingNode D k d h h2).carries (2406, 10415, true, true, false)
      ∧ (setLMSI n).carries (2400, 10415, true, true, false)
      ∧ (setUserIdentifier D d).carries (3102, 10415, true, true, false)
      ∧ (setMWDStatus b1 b2 b3 b4).carries (3312, 10415, true, true, false)
      ∧ (setMMEAbsentUserDiagnosticSM k).carries (3313, 10415, true, true, false)
      ∧ (setMSCAbsentUserDiagnosticSM k).carries (3314, 10415, true, true, false)
      ∧ (setSGSNAbsentUserDiagnosticSM k).carries (3315, 10415, true, true, false)
      ∧ (setAbsentUserDiagnosticSM k).carries (3322, 10415, true, true, false))
    ∧ ((ServiceCenterAddress v).carries (3300, 10415, true, true, false)
      ∧ (SMRPUI v).carries (3301, 10415, true, true, false)
      ∧ (TFRFlags b1).carries (3302, 10415, true, true, false)
      ∧ (SMDeliveryFailureCause en v).carries (3303, 10415, true, true, false)
      ∧ (SMDeliveryTimer n).carries (3306, 10415, true, true, false)
      ∧ (SMDeliveryStartTime tm).carries (3307, 10415, true, true, false)
      ∧ (SMSMICorrelationID v v2 v3).carries (3324, 10415, true, false, false)
      ∧ (OFRFlags b1).carries (3328, 10415, true, false, false)
      ∧ (MaximumRetransmissionTime tm).carries (3330, 10415, true, false, false)
      ∧ (RequestedRetransmissionTime tm).carries (3331, 10415, true, false, false))
    ∧ ((setVendorSpecAppID vi ai).data = ([setVendorID vi, setAuthAppID ai].map marshal).flatten
      ∧ (setFailedAVP cs).data = (cs.map marshal).flatten
      ∧ (setServingNode D k d h h2).data = ((setSN_children D k d h h2).map marshal).flatten
      ∧ (setAdditionalServingNode D k d h h2).data =
          ((setSN_children D k d h h2).map marshal).flatten
      ∧ (∀ c ∈ setSN_children D k d h h2, c.vendorInvariant
          ∧ c.header ∈ [(1489, 10415, true, true, false), (2409, 10415, true, false, false),
              (2410, 10415, true, false, false), (1645, 10415, true, true, false),
              (2403, 10415, true, true, false), (2402, 10415, true, true, false),
              (2408, 10415, true, true, false), (0, 0, false, false, false)])
      ∧ (∃ c : RawAVP, (setUserIdentifier D d).data = ([c].map marshal).flatten
          ∧ c.carries (701, 10415, true, true, false))
      ∧ (SMDeliveryFailureCause en v).data =
          ((SMDeliveryFailureCause_children en v).map marshal).flatten
      ∧ (∀ c ∈ SMDeliveryFailureCause_children en v, c.vendorInvariant
          ∧ c.header ∈ [(3304, 10415, true, true, false), (3305, 10415, true, true, false)])
      ∧ (SMSMICorrelationID v v2 v3).data =
          ((SMSMICorrelationID_children v v2 v3).map marshal).flatten
      ∧ (∀ c ∈ SMSMICorrelationID_children v v2 v3, c.vendorInvariant
          ∧ c.header ∈ [(3325, 10415, true, false, false), (3326, 10415, true, false, false),
              (3327, 10415, true, false, false)]))
    ∧ ((∀ c ∈ cs, c.fitsWire) →
        (setFailedAVP cs).DecodeGrouped = .ok cs
        ∧ ((∀ o, (setFailedAVP cs).DecodeGrouped = .ok o → ∀ c ∈ o, c.vendorInvariant)
            ↔ ∀ c ∈ cs, c.vendorInvariant)) := by
  refine ⟨⟨?_, ?_, ?_, ?_, ?_, ?_, ?_, ?_, ?_, ?_, ?_, ?_, ?_, ?_⟩, ⟨?_, ?_, ?_, ?_, ?_, ?_, ?_, ?_, ?_, ?_, ?_, ?_, ?_, ?_, ?_⟩, ⟨?_, ?_, ?_, ?_, ?_, ?_, ?_, ?_, ?_, ?_⟩, ⟨rfl, rfl, rfl, rfl, ?_, ?_, rfl, ?_, rfl, ?_⟩, ?_⟩
  · exact carries_of_header _ _ (by simp [setHostIPAddress, header_Encode, apply_ite RawAVP.header]; rfl) (by decide)
  · exact carries_of_header _ _ (by simp [setAuthAppID, header_Encode, apply_ite RawAVP.header]; rfl) (by decide)
  · exact carries_of_header _ _ (by simp [setVendorSpecAppID, header_Encode, apply_ite RawAVP.header]; rfl) (by decide)
  · exact carries_of_header _ _ (by simp [setOriginHost, header_Encode, apply_ite RawAVP.header]; rfl) (by decide)
  · exact carries_of_header _ _ (by simp [setVendorID, header_Encode, apply_ite RawAVP.header]; rfl) (by decide)
  · exact carries_of_header _ _ (by simp [setFirmwareRevision, header_Encode, apply_ite RawAVP.header]; rfl) (by decide)
  · exact carries_of_header _ _ (by simp [setResultCode, header_Encode, apply_ite RawAVP.header]; rfl) (by decide)
  · exact carries_of_header _ _ (by simp [setProductName, header_Encode, apply_ite RawAVP.header]; rfl) (by decide)
  · exact carries_of_header _ _ (by simp [setDisconnectCause, header_Encode, apply_ite RawAVP.header]; rfl) (by decide)
  · exact carries_of_header _ _ (by simp [setOriginStateID, header_Encode, apply_ite RawAVP.header]; rfl) (by decide)
  · exact carries_of_header _ _ (by simp [setFailedAVP, header_Encode, apply_ite RawAVP.header]; rfl) (by decide)
  · exact carries_of_header _ _ (by simp [setSupportedVendorID, header_Encode, apply_ite RawAVP.header]; rfl) (by decide)
  · exact carries_of_header _ _ (by simp [setErrorMessage, header_Encode, apply_ite RawAVP.header]; rfl) (by decide)
  · exact carries_of_header _ _ (by simp [setOriginRealm, header_Encode, apply_ite RawAVP.header]; rfl) (by decide)
  · exact carries_of_header _ _ (by simp [setUserName, header_Encode, apply_ite RawAVP.header]; rfl) (by decide)
  · exact carries_of_header _ _ (by simp [setMSISDN, header_Encode, apply_ite RawAVP.header]; rfl) (by decide)
  · exact carries_of_header _ _ (by simp [setSMRPMTI, header_Encode, apply_ite RawAVP.header]; rfl) (by decide)
  · exact carries_of_header _ _ (by simp [setSMRPSMEA, header_Encode, apply_ite RawAVP.header]; rfl) (by decide)
  · exact carries_of_header _ _ (by simp [setSRRFlags, header_Encode, apply_ite RawAVP.header]; rfl) (by decide)
  · exact carries_of_header _ _ (by simp [setSMDeliveryNotIntended, header_Encode, apply_ite RawAVP.header]; rfl) (by decide)
  · exact carries_of_header _ _ (by simp [setServingNode, setSN, header_Encode, apply_ite RawAVP.header]; rfl) (by decide)
  · exact carries_of_header _ _ (by simp [setAdditionalServingNode, setSN, header_Encode, apply_ite RawAVP.header]; rfl) (by decide)
  · exact carries_of_header _ _ (by simp [setLMSI, header_Encode, apply_ite RawAVP.header]; rfl) (by decide)
  · exact carries_of_header _ _ (by simp [setUserIdentifier, header_Encode, apply_ite RawAVP.header]; rfl) (by decide)
  · exact carries_of_header _ _ (by simp [setMWDStatus, header_Encode, apply_ite RawAVP.header]; rfl) (by decide)
  · exact carries_of_header _ _ (by simp [setMMEAbsentUserDiagnosticSM, header_Encode, apply_ite RawAVP.header]; rfl) (by decide)
  · exact carries_of_header _ _ (by simp [setMSCAbsentUserDiagnosticSM, header_Encode, apply_ite RawAVP.header]; rfl) (by decide)
  · exact carries_of_header _ _ (by simp [setSGSNAbsentUserDiagnosticSM, header_Encode, apply_ite RawAVP.header]; rfl) (by decide)
  · exact carries_of_header _ _ (by simp [setAbsentUserDiagnosticSM, header_Encode, apply_ite RawAVP.header]; rfl) (by decide)
  · exact carries_of_header _ _ (by simp [ServiceCenterAddress, header_Encode, apply_ite RawAVP.header]; rfl) (by decide)
  · exact carries_of_header _ _ (by simp [SMRPUI, header_Encode, apply_ite RawAVP.header]; rfl) (by decide)
  · exact carries_of_header _ _ (by simp [TFRFlags, header_Encode, apply_ite RawAVP.header]; rfl) (by decide)
  · exact carries_of_header _ _ (by simp [SMDeliveryFailureCause, header_Encode, apply_ite RawAVP.header]; rfl) (by decide)
  · exact carries_of_header _ _ (by simp [SMDeliveryTimer, header_Encode, apply_ite RawAVP.header]; rfl) (by decide)
  · exact carries_of_header _ _ (by simp [SMDeliveryStartTime, header_Encode, apply_ite RawAVP.header]; rfl) (by decide)
  · exact carries_of_header _ _ (by simp [SMSMICorrelationID, header_Encode, apply_ite RawAVP.header]; rfl) (by decide)
  · exact carries_of_header _ _ (by simp [OFRFlags, header_Encode, apply_ite RawAVP.header]; rfl) (by decide)
  · exact carries_of_header _ _ (by simp [MaximumRetransmissionTime, header_Encode, apply_ite RawAVP.header]; rfl) (by decide)
  · exact carries_of_header _ _ (by simp [RequestedRetransmissionTime, header_Encode, apply_ite RawAVP.header]; rfl) (by decide)
  · unfold setSN_children
    split_ifs <;>
      simp [vendorInvariant, header, EncodeOctetString, EncodeIdentity]
  · exact ⟨_, rfl, carries_of_header _ _ rfl (by decide)⟩
  · unfold SMDeliveryFailureCause_children
    split_ifs <;>
      simp [vendorInvariant, header, EncodeOctetString, EncodeEnumerated]
  · unfold SMSMICorrelationID_children
    split_ifs <;>
      simp [vendorInvariant, header, EncodeOctetString, EncodeUTF8String]
  · intro hcs
    have hdec : (setFailedAVP cs).DecodeGrouped = .ok cs := DecodeGrouped_EncodeGrouped _ cs hcs
    refine ⟨hdec, ?_, ?_⟩
    · intro h
      exact h cs hdec
    · intro h o ho
      rw [hdec] at ho
      cases ho
      exact h

/-- Witness of C20: the MSISDN AVP of an E.164 number, the children of a Serving-Node AVP
for an SGSN with a name, and a Failed-AVP given an Origin-Host and an MSISDN child. -/
theorem C20_setters_keep_header_and_invariant_witness :
    (setMSISDN plainDeps [0x91, 0x18]).carries (701, 10415, true, true, false)
    ∧ (∀ c ∈ setSN_children plainDeps NodeSGSN [0x91, 0x18] (ascii "sgsn") [],
        c.vendorInvariant)
    ∧ (setFailedAVP [setOriginHost (ascii "a.b"), setMSISDN plainDeps [0x91, 0x18]]).DecodeGrouped =
        .ok [setOriginHost (ascii "a.b"), setMSISDN plainDeps [0x91, 0x18]] :=
  have w := C20_setters_keep_header_and_invariant plainDeps [] [] [] (ascii "sgsn") [] 0 0 0
    0 [setOriginHost (ascii "a.b"), setMSISDN plainDeps [0x91, 0x18]] [] [0x91, 0x18] []
    NodeSGSN false false false false 0
  ⟨w.2.1.2.1, fun c hc => (w.2.2.2.1.2.2.2.2.1 c hc).1, (w.2.2.2.2 (by decide)).1⟩

/-! ## Vendor-Specific-Application-Id and Disconnect-Cause -/

/-- The last statement of `getVendorSpecAppID`: a zero `vi` or `ai` replaces the error. -/
theorem getVendorSpecAppID_of_children (a : RawAVP) (o : List RawAVP)
    (hval : a.Validate 0 260 false true false = none) (hdec : a.DecodeGrouped = .ok o) :
    getVendorSpecAppID a =
      (let s := o.foldl getVendorSpecAppID_loop { v := (0, 0), e := none, decodes := 1 }
       if s.v.1 = 0 ∨ s.v.2 = 0 then { s with e := some .NoMandatoryAVP } else s) := by
  simp [getVendorSpecAppID, hval, hdec]

theorem getVendorSpecAppID_header_mismatch (a : RawAVP)
    (h : a.headerDiffers 0 260 false true false) :
    getVendorSpecAppID a = { v := (0, 0), e := some .NoMandatoryAVP, decodes := 0 } := by
  obtain ⟨r, hr⟩ := Validate_of_headerDiffers a _ _ _ _ _ h
  simp [getVendorSpecAppID, hr]

/-- C21 at the failing input: a Vendor-Specific-Application-Id AVP whose mandatory flag is
clear, and a Vendor-Id AVP (code 266 where 260 is expected), fail `Validate` with
`InvalidAVP`, yet `getVendorSpecAppID` returns `NoMandatoryAVP`: the closing test
`vi == 0 || ai == 0` replaces the error of `Validate`. -/
theorem C21_validate_error_replaced :
    ({ setVendorSpecAppID 10415 16777312 with FlgM := false } : RawAVP).Validate 0 260 false
        true false = some (.InvalidAVP .FlagMismatch)
    ∧ getVendorSpecAppID { setVendorSpecAppID 10415 16777312 with FlgM := false } =
        { v := (0, 0), e := some .NoMandatoryAVP, decodes := 0 }
    ∧ (setVendorID 10415).Validate 0 260 false true false = some (.InvalidAVP .IdentityMismatch)
    ∧ getVendorSpecAppID (setVendorID 10415) =
        { v := (0, 0), e := some .NoMandatoryAVP, decodes := 0 } := by
  decide

theorem getVendorSpecAppID_loop_skip (s : Got (Nat × Nat)) (c : RawAVP)
    (h : c.isVendorSpecChild = false) : getVendorSpecAppID_loop s c = s := by
  unfold getVendorSpecAppID_loop
  simp only [isVendorSpecChild, Bool.and_eq_false_imp, Bool.or_eq_false_iff,
    decide_eq_true_eq, decide_eq_false_iff_not] at h
  by_cases hv : c.VenID = 0
  · obtain ⟨h1, h2⟩ := h hv
    simp [hv, h1, h2]
  · simp [hv]

theorem foldl_getVendorSpecAppID_loop_filter (o : List RawAVP) :
    ∀ s : Got (Nat × Nat),
      o.foldl getVendorSpecAppID_loop s =
        (o.filter isVendorSpecChild).foldl getVendorSpecAppID_loop s := by
  induction o with
  | nil => intro s; rfl
  | cons c o ih =>
    intro s
    by_cases hc : c.isVendorSpecChild = true
    · simp only [List.foldl_cons, List.filter_cons_of_pos hc]
      exact ih _
    · have hc2 : c.isVendorSpecChild = false := by simpa using hc
      simp only [List.foldl_cons, List.filter_cons_of_neg hc,
        getVendorSpecAppID_loop_skip s c hc2]
      exact ih s

theorem foldl_getVendorSpecAppID_loop_vi (o : List RawAVP)
    (h : ∀ c ∈ o, ¬(c.VenID = 0 ∧ c.Code = 266)) :
    ∀ s : Got (Nat × Nat), (o.foldl getVendorSpecAppID_loop s).v.1 = s.v.1 := by
  induction o with
  | nil => intro s; rfl
  | cons c o ih =>
    intro s
    have hc := h c (List.mem_cons_self _ _)
    rw [List.foldl_cons, ih (fun x hx => h x (List.mem_cons_of_mem _ hx))]
    unfold getVendorSpecAppID_loop
    split_ifs with h1 h2 h3
    · rfl
    · exact absurd ⟨not_not.1 h1, h2⟩ hc
    · rfl
    · rfl

theorem foldl_getVendorSpecAppID_loop_ai (o : List RawAVP)
    (h : ∀ c ∈ o, ¬(c.VenID = 0 ∧ c.Code = 258)) :
    ∀ s : Got (Nat × Nat), (o.foldl getVendorSpecAppID_loop s).v.2 = s.v.2 := by
  induction o with
  | nil => intro s; rfl
  | cons c o ih =>
    intro s
    have hc := h c (List.mem_cons_self _ _)
    rw [List.foldl_cons, ih (fun x hx => h x (List.mem_cons_of_mem _ hx))]
    unfold getVendorSpecAppID_loop
    split_ifs with h1 h2 h3
    · rfl
    · rfl
    · exact absurd ⟨not_not.1 h1, h3⟩ hc
    · rfl

/-- C22. For every Vendor-Specific-Application-Id AVP with a valid header whose decoded
children hold no Vendor-Id child (code 266, vendor 0) or no Auth-Application-Id child
(code 258, vendor 0), `getVendorSpecAppID` returns `NoMandatoryAVP`; children with a
non-zero vendor ID or another code are ignored: an AVP holding only the other children
gives the same result. -/
theorem C22_vendor_spec_app_id_children (a : RawAVP) (o : List RawAVP)
    (hval : a.Validate 0 260 false true false = none) (hdec : a.DecodeGrouped = .ok o) :
    (((∀ c ∈ o, ¬(c.VenID = 0 ∧ c.Code = 266)) ∨ (∀ c ∈ o, ¬(c.VenID = 0 ∧ c.Code = 258))) →
      (getVendorSpecAppID a).e = some .NoMandatoryAVP)
    ∧ (∀ b : RawAVP, b.Validate 0 260 false true false = none →
        b.DecodeGrouped = .ok (o.filter isVendorSpecChild) →
        getVendorSpecAppID b = getVendorSpecAppID a) := by
  constructor
  · intro h
    rw [getVendorSpecAppID_of_children a o hval hdec]
    rcases h with h | h
    · have := foldl_getVendorSpecAppID_loop_vi o h { v := (0, 0), e := none, decodes := 1 }
      dsimp only at this ⊢
      rw [if_pos (Or.inl this)]
    · have := foldl_getVendorSpecAppID_loop_ai o h { v := (0, 0), e := none, decodes := 1 }
      dsimp only at this ⊢
      rw [if_pos (Or.inr this)]
  · intro b hb hbdec
    rw [getVendorSpecAppID_of_children a o hval hdec,
      getVendorSpecAppID_of_children b _ hb hbdec,
      ← foldl_getVendorSpecAppID_loop_filter o]

/-- Witness of C22: a Vendor-Specific-Application-Id AVP that holds a Vendor-Id child and
an Origin-Host child but no Auth-Application-Id child. -/
theorem C22_vendor_spec_app_id_children_witness :
    (getVendorSpecAppID
      (({ Code := 260, VenID := 0, FlgV := false, FlgM := true, FlgP := false } :
        RawAVP).EncodeGrouped [setVendorID 10415, setOriginHost (ascii "hss")])).e =
      some .NoMandatoryAVP :=
  (C22_vendor_spec_app_id_children _ [setVendorID 10415, setOriginHost (ascii "hss")]
    (by decide) (by decide)).1 (Or.inr (by decide))

/-- C23. Whatever AVP it is given, `getDisconnectCause` returns a nil error only with one
of the values Rebooting (0), Busy (1), DoNotWantToTalkToYou (2); for every AVP with a
valid header whose decoded Enumerated value is below 0 or above 2 it returns that value
with `InvalidAVP`; and for 0, 1 and 2 `getDisconnectCause(setDisconnectCause(v))` returns
`v` with no error. -/
theorem C23_disconnect_cause (a : RawAVP) :
    ((getDisconnectCause a).e = none →
      (getDisconnectCause a).v = Rebooting ∨ (getDisconnectCause a).v = Busy
        ∨ (getDisconnectCause a).v = DoNotWantToTalkToYou)
    ∧ (∀ v : Enumerated, a.Validate 0 273 false true false = none →
        a.DecodeEnumerated = .ok v → (v < 0 ∨ v > 2) →
        getDisconnectCause a = { v := v, e := some (.InvalidAVP .unspecified), decodes := 1 })
    ∧ getDisconnectCause (setDisconnectCause Rebooting) =
        { v := Rebooting, e := none, decodes := 1 }
    ∧ getDisconnectCause (setDisconnectCause Busy) = { v := Busy, e := none, decodes := 1 }
    ∧ getDisconnectCause (setDisconnectCause DoNotWantToTalkToYou) =
        { v := DoNotWantToTalkToYou, e := none, decodes := 1 } := by
  refine ⟨?_, ?_, by decide, by decide, by decide⟩
  · intro he
    unfold getDisconnectCause at he ⊢
    simp only at he ⊢
    split_ifs at he ⊢ with hr
    have key : ∀ x : Int, ¬(x < 0 ∨ x > 2) → x = 0 ∨ x = 1 ∨ x = 2 := by
      intro x hx
      omega
    exact key _ hr
  · intro v hval hdec hv
    simp [getDisconnectCause, hval, hdec, hv]

/-- Witness of C23: a Disconnect-Cause AVP carrying the value 7. -/
theorem C23_disconnect_cause_witness :
    getDisconnectCause (setDisconnectCause 7) =
      { v := 7, e := some (.InvalidAVP .unspecified), decodes := 1 } :=
  (C23_disconnect_cause (setDisconnectCause 7)).2.1 7 (by decide) (by decide) (by decide)

/-! ## ts29338 value accessors -/

/-- C24. `setSMRPMTI` encodes DeliverMT as Enumerated 0 and StatusReportMT as Enumerated 1,
and `getSMRPMTI(setSMRPMTI(v))` returns `v` with no error for both; for every AVP with
valid flags whose decoded value is neither 0 nor 1, `getSMRPMTI` returns
`InvalidAVP(DiameterInvalidAvpValue)`. -/
theorem C24_smrpmti (a : RawAVP) :
    setSMRPMTI DeliverMT = ({ Code := 3308, VenID := 10415, FlgV := true, FlgM := true, FlgP := false } : RawAVP).EncodeEnumerated 0
    ∧ setSMRPMTI StatusReportMT = ({ Code := 3308, VenID := 10415, FlgV := true, FlgM := true, FlgP := false } : RawAVP).EncodeEnumerated 1
    ∧ getSMRPMTI (setSMRPMTI DeliverMT) = { v := DeliverMT, e := none, decodes := 1 }
    ∧ getSMRPMTI (setSMRPMTI StatusReportMT) =
        { v := StatusReportMT, e := none, decodes := 1 }
    ∧ (∀ s : Enumerated, a.flags = (true, true, false) → a.DecodeEnumerated = .ok s →
        s ≠ 0 → s ≠ 1 →
        getSMRPMTI a =
          { v := UnknownMT, e := some (.InvalidAVP .DiameterInvalidAvpValue), decodes := 1 }) := by
  refine ⟨by decide, by decide, by decide, by decide, ?_⟩
  intro s hf hdec h0 h1
  obtain ⟨c, i, fv, fm, fp, data⟩ := a
  simp only [flags, Prod.mk.injEq] at hf
  obtain ⟨rfl, rfl, rfl⟩ := hf
  simp [getSMRPMTI, hdec, h0, h1]

/-- Witness of C24: an SM-RP-MTI AVP carrying the value 2. -/
theorem C24_smrpmti_witness :
    getSMRPMTI (({ Code := 3308, VenID := 10415, FlgV := true, FlgM := true, FlgP := false } : RawAVP).EncodeEnumerated 2) =
      { v := UnknownMT, e := some (.InvalidAVP .DiameterInvalidAvpValue), decodes := 1 } :=
  (C24_smrpmti _).2.2.2.2 2 (by decide) (by decide) (by decide) (by decide)

/-- C25. For each of the fourteen diagnostics `d` from NoPagingRespMSC (1) to
TempUnavailable (14), `setAbsentUserDiagnosticSM(d)` encodes the unsigned 32-bit value
`d - 1` and `getAbsentUserDiagnosticSM(setAbsentUserDiagnosticSM(d))` returns `d` with no
error; for every AVP with valid flags, every decoded value above 13 is rejected with
`InvalidAVP(DiameterInvalidAvpValue)`. -/
theorem C25_absent_user_diagnostic (a : RawAVP) (d : AbsentDiag) :
    (NoPagingRespMSC ≤ d → d ≤ TempUnavailable →
      setAbsentUserDiagnosticSM d = ({ Code := 3322, VenID := 10415, FlgV := true, FlgM := true, FlgP := false } : RawAVP).EncodeUnsigned32 (d - 1).toNat
      ∧ getAbsentUserDiagnosticSM (setAbsentUserDiagnosticSM d) =
          { v := d, e := none, decodes := 1 })
    ∧ (∀ s : Nat, a.flags = (true, true, false) → a.DecodeUnsigned32 = .ok s → 13 < s →
        getAbsentUserDiagnosticSM a =
          { v := NoAbsentDiag, e := some (.InvalidAVP .DiameterInvalidAvpValue),
            decodes := 1 }) := by
  constructor
  · intro h1 h2
    simp only [NoPagingRespMSC, TempUnavailable] at h1 h2
    interval_cases d <;> decide
  · intro s hf hdec hs
    obtain ⟨c, i, fv, fm, fp, data⟩ := a
    simp only [flags, Prod.mk.injEq] at hf
    obtain ⟨rfl, rfl, rfl⟩ := hf
    have h : ∀ k : Nat, k ≤ 13 → s ≠ k := fun k hk => by omega
    simp [getAbsentUserDiagnosticSM, hdec, h]

/-- Witness of C25: the diagnostic GPRSDetached, and an AVP carrying the value 14. -/
theorem C25_absent_user_diagnostic_witness :
    getAbsentUserDiagnosticSM (setAbsentUserDiagnosticSM GPRSDetached) =
        { v := GPRSDetached, e := none, decodes := 1 }
    ∧ getAbsentUserDiagnosticSM (({ Code := 3322, VenID := 10415, FlgV := true, FlgM := true, FlgP := false } : RawAVP).EncodeUnsigned32 14) =
        { v := NoAbsentDiag, e := some (.InvalidAVP .DiameterInvalidAvpValue), decodes := 1 } :=
  ⟨((C25_absent_user_diagnostic (({ Code := 3322, VenID := 10415, FlgV := true, FlgM := true, FlgP := false } : RawAVP).EncodeUnsigned32 14) GPRSDetached).1
      (by decide) (by decide)).2,
   (C25_absent_user_diagnostic (({ Code := 3322, VenID := 10415, FlgV := true, FlgM := true, FlgP := false } : RawAVP).EncodeUnsigned32 14) GPRSDetached).2 14
      (by decide) (by decide) (by decide)⟩

/-- C26. The bit-mask accessors are inverse on every boolean tuple: `setSRRFlags(g, p, s)`
encodes the unsigned 32-bit value `g*1 + p*2 + s*4` and `getSRRFlags` returns `(g, p, s)`
with no error; `setMWDStatus(sca, mnrf, mcef, mnrg)` encodes
`sca*1 + mnrf*2 + mcef*4 + mnrg*8` and `getMWDStatus` returns `(sca, mnrf, mcef, mnrg)`
with no error. -/
theorem C26_bit_mask_accessors (g p s sca mnrf mcef mnrg : Bool) :
    setSRRFlags g p s = ({ Code := 3310, VenID := 10415, FlgV := true, FlgM := true, FlgP := false } : RawAVP).EncodeUnsigned32 (g.toNat * 1 + p.toNat * 2 + s.toNat * 4)
    ∧ getSRRFlags (setSRRFlags g p s) = { v := (g, p, s), e := none, decodes := 1 }
    ∧ setMWDStatus sca mnrf mcef mnrg =
        ({ Code := 3312, VenID := 10415, FlgV := true, FlgM := true, FlgP := false } : RawAVP).EncodeUnsigned32
          (sca.toNat * 1 + mnrf.toNat * 2 + mcef.toNat * 4 + mnrg.toNat * 8)
    ∧ getMWDStatus (setMWDStatus sca mnrf mcef mnrg) =
        { v := (sca, mnrf, mcef, mnrg), e := none, decodes := 1 } := by
  refine ⟨?_, ?_, ?_, ?_⟩
  · cases g <;> cases p <;> cases s <;> decide
  · cases g <;> cases p <;> cases s <;> decide
  · cases sca <;> cases mnrf <;> cases mcef <;> cases mnrg <;> decide
  · cases sca <;> cases mnrf <;> cases mcef <;> cases mnrg <;> decide

/-- C27 fails as stated for a value that is not UTF-8: an SCAddress is a Go string and may
hold any bytes. For the one-byte value FF, `ToRaw` returns the AVP with code 3300, vendor
10415, flags V=1, M=1, P=0 whose payload is that byte, and `FromRaw` applied to it returns
the `DecodeError` of the UTF8String decoder and leaves its receiver as it was. -/
theorem C27_sc_address_not_utf8_counterexample :
    SCAddress.ToRaw (some [0xFF]) =
        { Code := 3300, VenID := 10415, FlgV := true, FlgM := true, FlgP := false,
          data := [0xFF] }
    ∧ validUTF8 [0xFF] = false
    ∧ SCAddress.FromRaw [] (SCAddress.ToRaw (some [0xFF])) =
        { v := [], e := some .DecodeError, decodes := 1 } := by
  decide

/-- C27, amended. For every non-nil SCAddress `v` that is a UTF-8 string, `ToRaw` returns
the AVP with code 3300, vendor 10415, flags V=1, M=1, P=0 whose payload is `v`, and
`FromRaw` applied to that AVP, whatever its receiver held, sets the receiver to `v` and
returns no error. -/
theorem C27_sc_address_roundtrip (v old : SCAddress) (hv : validUTF8 v = true) :
    SCAddress.ToRaw (some v) =
        { Code := 3300, VenID := 10415, FlgV := true, FlgM := true, FlgP := false, data := v }
    ∧ SCAddress.FromRaw old (SCAddress.ToRaw (some v)) = { v := v, e := none, decodes := 1 } := by
  constructor
  · rfl
  · simp [SCAddress.FromRaw, SCAddress.ToRaw, Validate, EncodeUTF8String, DecodeUTF8String, hv]

/-- Witness of C27: the service centre address "819012345678" read into an empty
receiver. -/
theorem C27_sc_address_roundtrip_witness :
    SCAddress.FromRaw [] (SCAddress.ToRaw (some (ascii "819012345678"))) =
      { v := ascii "819012345678", e := none, decodes := 1 } :=
  (C27_sc_address_roundtrip (ascii "819012345678") [] (by decide)).2

/-- The loop body of `getUserIdentifier` never changes the value nor sets an error on a
well-flagged MSISDN child. -/
theorem getUserIdentifier_setUserIdentifier {IMSI E164 Address : Type}
    (D : Deps IMSI E164 Address) (v : E164) (hlen : (D.E164Bytes v).length + 12 < 2 ^ 24) :
    getUserIdentifier D (setUserIdentifier D v) =
      { v := D.zeroE164, e := none, decodes := 2 } := by
  have hdec := DecodeGrouped_EncodeGrouped
    ({ Code := 3102, VenID := 10415, FlgV := true, FlgM := true, FlgP := false } : RawAVP)
    [({ Code := 701, VenID := 10415, FlgV := true, FlgM := true, FlgP := false } : RawAVP).EncodeOctetString (D.E164Bytes v)]
    (by
      intro c hc
      simp only [List.mem_singleton] at hc
      subst hc
      simp [fitsWire, EncodeOctetString, headerLen]
      omega)
  unfold setUserIdentifier
  simp only [getUserIdentifier]
  rw [hdec]
  simp [EncodeGrouped, getUserIdentifier_loop, EncodeOctetString]

/-- C28 at the failing input: for the E.164 number with bytes 91 18 09,
`getUserIdentifier(setUserIdentifier(v))` returns the zero value, not `v`, with a nil
error, although the MSISDN child holds the bytes of `v`: the loop hands the child to
`Decode` with a `*teldata.E164` target and drops the result, where `getMSISDN` decodes
the bytes and converts them with `B2E164`. -/
theorem C28_user_identifier_failing_input :
    getUserIdentifier plainDeps (setUserIdentifier plainDeps [0x91, 0x18, 0x09]) =
        { v := [], e := none, decodes := 2 }
    ∧ (setUserIdentifier plainDeps [0x91, 0x18, 0x09]).DecodeGrouped =
        .ok [setMSISDN plainDeps [0x91, 0x18, 0x09]]
    ∧ getMSISDN plainDeps (setMSISDN plainDeps [0x91, 0x18, 0x09]) =
        { v := [0x91, 0x18, 0x09], e := none, decodes := 1 } := by
  decide

/-! ## Bounds of the Grouped decoder -/

theorem parseAVPs_nil (fuel : Nat) : parseAVPs fuel [] = .ok [] := by
  cases fuel <;> rfl

theorem parseAVPs_short (fuel : Nat) (bs : List Nat) (h1 : bs ≠ []) (h2 : bs.length < 8) :
    parseAVPs fuel bs = .error .DecodeError := by
  rcases bs with _ | ⟨b0, _ | ⟨b1, _ | ⟨b2, _ | ⟨b3, _ | ⟨b4, _ | ⟨b5, _ | ⟨b6, _ | ⟨b7, rest⟩⟩⟩⟩⟩⟩⟩⟩
  · exact absurd rfl h1
  all_goals first
    | (cases fuel <;> rfl)
    | (simp only [List.length_cons] at h2; omega)

theorem parseAVPs_fuel (f1 : Nat) : ∀ (f2 : Nat) (bs : List Nat),
    bs.length / 8 ≤ f1 → bs.length / 8 ≤ f2 → parseAVPs f1 bs = parseAVPs f2 bs := by
  induction f1 with
  | zero =>
    intro f2 bs h1 _
    by_cases hb : bs = []
    · subst hb
      rw [parseAVPs_nil, parseAVPs_nil]
    · have hlt : bs.length < 8 := by omega
      rw [parseAVPs_short 0 bs hb hlt, parseAVPs_short f2 bs hb hlt]
  | succ f1 ih =>
    intro f2 bs h1 h2
    by_cases hb : bs = []
    · subst hb
      rw [parseAVPs_nil, parseAVPs_nil]
    by_cases hlt : bs.length < 8
    · rw [parseAVPs_short _ bs hb hlt, parseAVPs_short f2 bs hb hlt]
    · rcases bs with _ | ⟨b0, _ | ⟨b1, _ | ⟨b2, _ | ⟨b3, _ | ⟨b4, _ | ⟨b5, _ | ⟨b6, _ | ⟨b7, rest⟩⟩⟩⟩⟩⟩⟩⟩
      all_goals try (simp only [List.length_cons, List.length_nil] at hlt; omega)
      simp only [List.length_cons] at h1 h2
      obtain ⟨g, rfl⟩ : ∃ g, f2 = g + 1 := ⟨f2 - 1, by omega⟩
      have key : ∀ bs : List Nat, bs.length ≤ rest.length →
          parseAVPs f1 bs = parseAVPs g bs :=
        fun bs hbs => ih g bs (by omega) (by omega)
      simp only [parseAVPs]
      split_ifs <;> first
        | rfl
        | rw [key _ (by simp only [List.length_drop]; omega)]

/-- A header whose Length field declares more bytes than remain stops the parse with a
`DecodeError`, whatever the fuel. -/
theorem parseAVPs_declaresTooLong (fuel : Nat) (t : List Nat) (ht : declaresTooLong t) :
    parseAVPs fuel t = .error .DecodeError := by
  rcases t with _ | ⟨b0, _ | ⟨b1, _ | ⟨b2, _ | ⟨b3, _ | ⟨b4, _ | ⟨b5, _ | ⟨b6, _ | ⟨b7, rest⟩⟩⟩⟩⟩⟩⟩⟩
  all_goals first | exact False.elim ht | skip
  cases fuel with
  | zero => rfl
  | succ f =>
    have h : 8 + rest.length < fromBE24 b5 b6 b7 := ht
    simp only [parseAVPs]
    rw [if_pos (Or.inr h)]

/-- Well-formed children followed by a header that declares too much: the parse fails. -/
theorem parseAVPs_flatten_tooLong (cs : List RawAVP) (hcs : ∀ c ∈ cs, c.fitsWire)
    (t : List Nat) (ht : declaresTooLong t) :
    ∀ fuel, ((cs.map marshal).flatten ++ t).length / 8 ≤ fuel →
      parseAVPs fuel ((cs.map marshal).flatten ++ t) = .error .DecodeError := by
  induction cs with
  | nil =>
    intro fuel _
    simpa using parseAVPs_declaresTooLong fuel t ht
  | cons c cs ih =>
    intro fuel hfuel
    have hge := marshal_length_ge c
    simp only [List.map_cons, List.flatten_cons, List.length_append, List.append_assoc]
      at hfuel ⊢
    obtain ⟨f, rfl⟩ : ∃ f, fuel = f + 1 := ⟨fuel - 1, by omega⟩
    rw [parseAVPs_marshal_append c (hcs c (List.mem_cons_self _ _)) f]
    rw [ih (fun x hx => hcs x (List.mem_cons_of_mem _ hx)) f
      (by simp only [List.length_append]; omega)]

/-- The children a parse returns were all cut out of the given bytes: their headers and
payloads together are no longer than the input. -/
theorem parseAVPs_consumed (fuel : Nat) : ∀ (bs : List Nat) (o : List RawAVP),
    parseAVPs fuel bs = .ok o →
      (o.map (fun c => c.headerLen + c.data.length)).sum ≤ bs.length := by
  induction fuel with
  | zero =>
    intro bs o h
    by_cases hb : bs = []
    · subst hb
      rw [parseAVPs_nil] at h
      cases h
      simp
    · cases bs with
      | nil => exact absurd rfl hb
      | cons b bs => cases h
  | succ f ih =>
    intro bs o h
    by_cases hb : bs = []
    · subst hb
      rw [parseAVPs_nil] at h
      cases h
      simp
    by_cases hlt : bs.length < 8
    · rw [parseAVPs_short _ bs hb hlt] at h
      cases h
    · rcases bs with _ | ⟨b0, _ | ⟨b1, _ | ⟨b2, _ | ⟨b3, _ | ⟨b4, _ | ⟨b5, _ | ⟨b6, _ | ⟨b7, rest⟩⟩⟩⟩⟩⟩⟩⟩
      all_goals try (simp only [List.length_cons, List.length_nil] at hlt; omega)
      simp only [parseAVPs] at h
      split_ifs at h with hv hlen hlen
      all_goals
        split at h
        · cases h
        · rename_i more hrec
          have hm := ih _ _ hrec
          cases h
          simp only [List.length_drop] at hm
          simp only [List.map_cons, List.sum_cons, List.length_cons, List.length_take,
            List.length_drop]
          generalize (List.map (fun c => c.headerLen + c.data.length) more).sum = S at hm ⊢
          simp only [headerLen, hv, if_true, if_false, Bool.false_eq_true]
          omega

/-- C29. Decoding a Grouped payload made of well-formed children followed by a child header
that declares more bytes than remain fails with `DecodeError` (and so does `getFailedAVP`
on a Failed-AVP with such a payload); the parse is a total function of the payload bytes
alone, the children it returns on success are cut out of the payload (their headers and
payloads together are no longer than it), and `payload length / 8` steps are enough on any
input: more fuel never changes the result. -/
theorem C29_grouped_decode_bounded (a : RawAVP) :
    (∀ (cs : List RawAVP) (t : List Nat), (∀ c ∈ cs, c.fitsWire) → declaresTooLong t →
        a.data = (cs.map marshal).flatten ++ t →
        a.DecodeGrouped = .error .DecodeError
        ∧ (a.Validate 0 279 false true false = none →
            getFailedAVP a = { v := [], e := some .DecodeError, decodes := 1 }))
    ∧ (∀ fuel, a.data.length / 8 ≤ fuel → parseAVPs fuel a.data = a.DecodeGrouped)
    ∧ (∀ o, a.DecodeGrouped = .ok o →
        (o.map (fun c => c.headerLen + c.data.length)).sum ≤ a.data.length) := by
  refine ⟨?_, ?_, ?_⟩
  · intro cs t hcs ht hd
    have hdec : a.DecodeGrouped = .error .DecodeError := by
      unfold DecodeGrouped
      rw [hd]
      exact parseAVPs_flatten_tooLong cs hcs t ht _ (Nat.le_refl _)
    refine ⟨hdec, ?_⟩
    intro hval
    simp [getFailedAVP, hval, hdec]
  · intro fuel hfuel
    unfold DecodeGrouped
    exact parseAVPs_fuel fuel _ a.data hfuel (Nat.le_refl _)
  · intro o ho
    exact parseAVPs_consumed _ a.data o ho

theorem C29_grouped_decode_bounded_witness :
    getFailedAVP truncatedFailedAVP = { v := [], e := some .DecodeError, decodes := 1 } :=
  ((C29_grouped_decode_bounded truncatedFailedAVP).1 [setOriginHost (ascii "a.b")]
    truncatedChild (by decide) (by simp [declaresTooLong, truncatedChild, fromBE24]) rfl).2
    (by decide)

namespace provider

/-! ## Closing a connection -/

/-- C30. `Close` on an open connection with an observer registered reads the local and
remote address of the transport, releases the handle, closes the transport, and emits
exactly one `TransportStateChange` event: `Open` is false, `LAddr` and `PAddr` are the
addresses the transport had before the handle was released, and `Err` is the value `Close`
returns, which is what the transport answered to its own `Close`. -/
theorem C30_close_event (c : Connection) (env : Env) (tmp : NetConn)
    (hopen : c.conn = some tmp) :
    (c.Close true env).events =
        [.TransportStateChange false c.hostnames.1 c.hostnames.2 (some tmp.LocalAddr)
          (some tmp.RemoteAddr) (c.Close true env).ret]
    ∧ (c.Close true env).ret = env.close
    ∧ (c.Close true env).ops = [.LocalAddr, .RemoteAddr, .Close]
    ∧ (c.Close true env).after.conn = none := by
  simp [Connection.Close, hopen, Connection.hostnames]

theorem C30_close_event_witness :
    (openConnection.Close true { quietEnv with close := some "broken pipe" }).events =
      [.TransportStateChange false (ascii "unknown") (ascii "unknown")
        (some "10.0.0.1:40000") (some "10.0.0.2:3868") (some "broken pipe")] :=
  (C30_close_event openConnection { quietEnv with close := some "broken pipe" }
    { LocalAddr := "10.0.0.1:40000", RemoteAddr := "10.0.0.2:3868" } rfl).1

end provider

namespace provider

open LocalNode

/-! ## Reseeding and `Accept` of provider/node.go -/

/-- Issuing hop-by-hop identifiers changes nothing of the node but the hop-by-hop
counter. -/
theorem callsHbH_fields (n : Nat) : ∀ (l l1 : LocalNode) (ids : List Nat),
    l.callsHbH n = some (ids, l1) →
    l1.Realm = l.Realm ∧ l1.Host = l.Host ∧ l1.Addr = l.Addr ∧ l1.etEId = l.etEId := by
  induction n with
  | zero =>
    intro l l1 ids h
    simp only [callsHbH, Option.some.injEq, Prod.mk.injEq] at h
    obtain ⟨_, rfl⟩ := h
    exact ⟨rfl, rfl, rfl, rfl⟩
  | succ n ih =>
    intro l l1 ids h
    simp only [callsHbH] at h
    cases hn : l.NextHbH with
    | none => simp [hn] at h
    | some p =>
      obtain ⟨ret, l2⟩ := p
      simp only [hn] at h
      cases hc : callsHbH n l2 with
      | none => simp [hc] at h
      | some q =>
        obtain ⟨rets, l3⟩ := q
        simp only [hc, Option.some.injEq, Prod.mk.injEq] at h
        obtain ⟨_, rfl⟩ := h
        have h3 := ih l2 l3 rets hc
        have h2 : l2.Realm = l.Realm ∧ l2.Host = l.Host ∧ l2.Addr = l.Addr
            ∧ l2.etEId = l.etEId := by
          unfold NextHbH at hn
          split at hn
          · simp only [Option.some.injEq, Prod.mk.injEq] at hn
            obtain ⟨_, rfl⟩ := hn
            exact ⟨rfl, rfl, rfl, rfl⟩
          · cases hn
        exact ⟨h3.1.trans h2.1, h3.2.1.trans h2.2.1, h3.2.2.1.trans h2.2.2.1,
          h3.2.2.2.trans h2.2.2.2⟩

/-- Issuing end-to-end identifiers changes nothing of the node but the end-to-end
counter. -/
theorem callsEtE_fields (n : Nat) : ∀ (l l1 : LocalNode) (ids : List Nat),
    l.callsEtE n = some (ids, l1) →
    l1.Realm = l.Realm ∧ l1.Host = l.Host ∧ l1.Addr = l.Addr ∧ l1.hbHId = l.hbHId := by
  induction n with
  | zero =>
    intro l l1 ids h
    simp only [callsEtE, Option.some.injEq, Prod.mk.injEq] at h
    obtain ⟨_, rfl⟩ := h
    exact ⟨rfl, rfl, rfl, rfl⟩
  | succ n ih =>
    intro l l1 ids h
    simp only [callsEtE] at h
    cases hn : l.NextEtE with
    | none => simp [hn] at h
    | some p =>
      obtain ⟨ret, l2⟩ := p
      simp only [hn] at h
      cases hc : callsEtE n l2 with
      | none => simp [hc] at h
      | some q =>
        obtain ⟨rets, l3⟩ := q
        simp only [hc, Option.some.injEq, Prod.mk.injEq] at h
        obtain ⟨_, rfl⟩ := h
        have h3 := ih l2 l3 rets hc
        have h2 : l2.Realm = l.Realm ∧ l2.Host = l.Host ∧ l2.Addr = l.Addr
            ∧ l2.hbHId = l.hbHId := by
          unfold NextEtE at hn
          split at hn
          · simp only [Option.some.injEq, Prod.mk.injEq] at hn
            obtain ⟨_, rfl⟩ := hn
            exact ⟨rfl, rfl, rfl, rfl⟩
          · cases hn
        exact ⟨h3.1.trans h2.1, h3.2.1.trans h2.2.1, h3.2.2.1.trans h2.2.2.1,
          h3.2.2.2.trans h2.2.2.2⟩

/-- C31. Whatever the counters of `l` hold (also nothing, before the first `InitIDs`),
after `InitIDs` the next `NextHbH` returns the freshly drawn random number `r1` and the
next `NextEtE` returns the end-to-end seed computed from the new time and the new second
random number; both counters after `InitIDs` are the same for any two nodes, and a node
that has issued any number of hop-by-hop and end-to-end identifiers since an earlier
seeding is, after `InitIDs`, what it would have been had it issued none. -/
theorem C31_InitIDs_reseeds (l l' : LocalNode) (r1 : Nat) (now : Int) (r2 : Nat) :
    (l.InitIDs r1 now r2).NextHbH =
        some (r1, { l.InitIDs r1 now r2 with hbHId := .full ((r1 + 1) % 2 ^ 32) })
    ∧ (∃ rest, (l.InitIDs r1 now r2).NextEtE =
        some ((((((now % 2 ^ 64).toNat ^^^ 0xFFF) % 2 ^ 32) <<< 20) % 2 ^ 32)
          ||| (r2 ^^^ 0x000FFFFF), rest))
    ∧ (l.InitIDs r1 now r2).hbHId = (l'.InitIDs r1 now r2).hbHId
    ∧ (l.InitIDs r1 now r2).etEId = (l'.InitIDs r1 now r2).etEId
    ∧ (∀ (n m : Nat) (ids ids' : List Nat) (l1 l2 : LocalNode),
        l.callsHbH n = some (ids, l1) → l1.callsEtE m = some (ids', l2) →
        l2.InitIDs r1 now r2 = l.InitIDs r1 now r2) := by
  refine ⟨rfl, ⟨_, rfl⟩, rfl, rfl, ?_⟩
  intro n m ids ids' l1 l2 h1 h2
  obtain ⟨a1, a2, a3, _⟩ := callsHbH_fields n l l1 ids h1
  obtain ⟨b1, b2, b3, _⟩ := callsEtE_fields m l1 l2 ids' h2
  simp only [InitIDs, LocalNode.mk.injEq]
  exact ⟨b1.trans a1, b2.trans a2, b3.trans a3, trivial, trivial⟩

/-- Witness of C31: a node seeded with 5 and 9 that has issued three hop-by-hop and two
end-to-end identifiers is reseeded at time 0 with the draws 7 and 0. -/
theorem C31_InitIDs_reseeds_witness :
    ({ blankNode with hbHId := .full 8, etEId := .full 11 } : LocalNode).InitIDs 7 0 0 =
      ({ blankNode with hbHId := .full 5, etEId := .full 9 } : LocalNode).InitIDs 7 0 0 :=
  (C31_InitIDs_reseeds { blankNode with hbHId := .full 5, etEId := .full 9 } blankNode 7 0
      0).2.2.2.2 3 2 [5, 6, 7] [9, 10] { blankNode with hbHId := .full 8, etEId := .full 9 }
    { blankNode with hbHId := .full 8, etEId := .full 11 } (by decide) (by decide)

/-- C32 at the failing input: with an observer registered and no listener, `Accept` does
not return the error "Local listener is nil": building the event calls `lnr.Addr()` on the
nil listener and panics. Without an observer it returns the error and no Connection
without any listener operation, and with a listener whose `Accept` fails it returns that
error with one event. -/
theorem C32_accept_nil_listener_panics (l : LocalNode) (accept : Except String NetConn)
    (ln : Listener) (msg : String) :
    l.Accept true accept none = .panicked
    ∧ l.Accept false accept none =
        .returned { c := none, e := some "Local listener is nil", ops := [], events := [] }
    ∧ l.Accept true (.error msg) (some ln) =
        .returned { c := none, e := some msg, ops := [.Accept, .Addr]
                    events := [.TransportStateChange true l.Host (ascii "unknown")
                      (some ln.Addr) none (some msg)] } := by
  refine ⟨?_, ?_, ?_⟩
  · rfl
  · rfl
  · rfl

end provider

/-! ## Error results of the ts29338 getters -/

/-- C36. For every AVP, `getSMRPMTI` returns a nil error exactly when the value it returns
is DeliverMT or StatusReportMT, and then never UnknownMT; `getSMDeliveryNotIntended`
returns a nil error exactly when the value it returns is OnlyImsiRequested or
OnlyMccMncRequested, and then never LocationRequested. -/
theorem C36_nil_error_iff_named_value (a : RawAVP) :
    ((getSMRPMTI a).e = none ↔
      ((getSMRPMTI a).v = DeliverMT ∨ (getSMRPMTI a).v = StatusReportMT))
    ∧ ((getSMRPMTI a).e = none ↔ (getSMRPMTI a).v ≠ UnknownMT)
    ∧ ((getSMDeliveryNotIntended a).e = none ↔
      ((getSMDeliveryNotIntended a).v = OnlyImsiRequested
        ∨ (getSMDeliveryNotIntended a).v = OnlyMccMncRequested))
    ∧ ((getSMDeliveryNotIntended a).e = none ↔
      (getSMDeliveryNotIntended a).v ≠ LocationRequested) := by
  refine ⟨?_, ?_, ?_, ?_⟩
  all_goals
    simp only [getSMRPMTI, getSMDeliveryNotIntended]
    split
    · simp [UnknownMT, DeliverMT, StatusReportMT, LocationRequested, OnlyImsiRequested,
        OnlyMccMncRequested]
    · split
      · simp [UnknownMT, DeliverMT, StatusReportMT, LocationRequested, OnlyImsiRequested,
          OnlyMccMncRequested]
      · split_ifs <;>
          simp [UnknownMT, DeliverMT, StatusReportMT, LocationRequested, OnlyImsiRequested,
            OnlyMccMncRequested]

/-- C38. `SCAddress.FromRaw` leaves its receiver as it was whenever it returns an error,
be it from `Validate` (and then `Decode` is not called) or from `Decode`. -/
theorem C38_from_raw_atomic (v : SCAddress) (a : RawAVP)
    (he : (SCAddress.FromRaw v a).e ≠ none) :
    (SCAddress.FromRaw v a).v = v := by
  unfold SCAddress.FromRaw at he ⊢
  split
  · rfl
  · split
    · rfl
    · rename_i h1 _ _ h2
      simp [h1, h2] at he

/-- Witness of C38: a receiver holding "819012345678" keeps it when the AVP has the
wrong code, and when the payload is not UTF-8. -/
theorem C38_from_raw_atomic_witness :
    (SCAddress.FromRaw (ascii "819012345678")
        { Code := 3301, VenID := 10415, FlgV := true, FlgM := true, FlgP := false,
          data := ascii "123" }).v = ascii "819012345678"
    ∧ (SCAddress.FromRaw (ascii "819012345678")
        { Code := 3300, VenID := 10415, FlgV := true, FlgM := true, FlgP := false,
          data := [0xFF] }).v = ascii "819012345678" :=
  ⟨C38_from_raw_atomic _ _ (by decide), C38_from_raw_atomic _ _ (by decide)⟩

/-! ## Serving-Node without a usable number -/

/-- A child that is none of the three number AVPs leaves the state of the first loop of
`getSN` as it is. -/
theorem foldl_getSN_loop1_skip {IMSI E164 Address : Type} (D : Deps IMSI E164 Address)
    (o : List RawAVP) (h : ∀ c ∈ o, c.Code ≠ 1489 ∧ c.Code ≠ 1645 ∧ c.Code ≠ 2403) :
    ∀ s : SN E164, o.foldl (getSN_loop1 D) s = s := by
  induction o with
  | nil => intro s; rfl
  | cons c o ih =>
    intro s
    obtain ⟨h1, h2, h3⟩ := h c (List.mem_cons_self _ _)
    rw [List.foldl_cons, ih (fun x hx => h x (List.mem_cons_of_mem _ hx))]
    simp [getSN_loop1, h1, h2, h3]

/-- A child that is neither SGSN-Name nor SGSN-Realm leaves the state of the SGSN loop of
`getSN` as it is. -/
theorem foldl_getSN_loopSGSN_skip {E164 : Type} (o : List RawAVP)
    (h : ∀ c ∈ o, c.Code ≠ 2409 ∧ c.Code ≠ 2410) :
    ∀ s : SN E164, o.foldl getSN_loopSGSN s = s := by
  induction o with
  | nil => intro s; rfl
  | cons c o ih =>
    intro s
    obtain ⟨h1, h2⟩ := h c (List.mem_cons_self _ _)
    rw [List.foldl_cons, ih (fun x hx => h x (List.mem_cons_of_mem _ hx))]
    simp [getSN_loopSGSN, h1, h2]

/-- The SGSN loop of `getSN` changes neither the node type nor the number. -/
theorem foldl_getSN_loopSGSN_t_d {E164 : Type} (o : List RawAVP) :
    ∀ s : SN E164, (o.foldl getSN_loopSGSN s).t = s.t ∧ (o.foldl getSN_loopSGSN s).d = s.d := by
  induction o with
  | nil => intro s; exact ⟨rfl, rfl⟩
  | cons c o ih =>
    intro s
    rw [List.foldl_cons]
    refine ⟨(ih _).1.trans ?_, (ih _).2.trans ?_⟩
    all_goals
      simp only [getSN_loopSGSN, getSN_name, getSN_realm]
      split_ifs <;> (try split) <;> rfl

/-- C33. The error `getSN` returns is the result of the last check it performed: each
check of a number, name or realm child sets the error without looking at the one set
before. So a Serving-Node AVP with valid flags whose children are a number child (code
1489, 1645 or 2403) that fails its flag check, followed by an SGSN-Name or SGSN-Realm
child that passes its checks, yields a nil error, node type NodeSGSN and the zero number;
and one whose number child passes the flag check but whose bytes `teldata.B2E164` rejects,
followed by a name or realm child of its node type that passes its checks, yields a nil
error too. -/
theorem C33_getSN_error_overwritten {IMSI E164 Address : Type} (D : Deps IMSI E164 Address)
    (a num nm : RawAVP) (n : Identity)
    (hflags : a.flags = (true, true, false)) (hdec : a.DecodeGrouped = .ok [num, nm])
    (hnm : nm.flags = (true, true, false)) (hn : nm.DecodeIdentity = .ok n) :
    (∀ (s s' : SN E164) (c : RawAVP) (t : NodeType),
        (getSN_number D t s c).e = (getSN_number D t s' c).e
        ∧ (getSN_name s c).e = (getSN_name s' c).e
        ∧ (getSN_realm s c).e = (getSN_realm s' c).e)
    ∧ ((num.Code = 1489 ∨ num.Code = 1645 ∨ num.Code = 2403) →
        num.flagsDiffer true true false → (nm.Code = 2409 ∨ nm.Code = 2410) →
        (getSN_loop1 D
            { t := NodeSGSN, d := D.zeroE164, n := [], r := [], e := none, decodes := 1 }
            num).e = some (.InvalidAVP .DiameterInvalidAvpBits)
        ∧ (getSN D a).e = none ∧ (getSN D a).t = NodeSGSN ∧ (getSN D a).d = D.zeroE164)
    ∧ ((num.Code = 1489 ∧ (nm.Code = 2409 ∨ nm.Code = 2410)
          ∨ (num.Code = 1645 ∨ num.Code = 2403) ∧ (nm.Code = 2402 ∨ nm.Code = 2408)) →
        num.flags = (true, true, false) → (D.B2E164 num.data).2 ≠ none →
        (getSN_loop1 D
            { t := NodeSGSN, d := D.zeroE164, n := [], r := [], e := none, decodes := 1 }
            num).e = (D.B2E164 num.data).2
        ∧ (getSN D a).e = none) := by
  obtain ⟨ac, ai, afv, afm, afp, adata⟩ := a
  obtain ⟨nc, ni, nfv, nfm, nfp, ndata⟩ := nm
  obtain ⟨mc, mi, mfv, mfm, mfp, mdata⟩ := num
  simp only [flags, Prod.mk.injEq] at hflags hnm
  obtain ⟨rfl, rfl, rfl⟩ := hflags
  obtain ⟨rfl, rfl, rfl⟩ := hnm
  refine ⟨?_, ?_, ?_⟩
  · intro s s' c t
    refine ⟨?_, ?_, ?_⟩
    all_goals
      simp only [getSN_number, getSN_name, getSN_realm]
      split_ifs <;> (try split) <;> rfl
  · intro hcode hbad hnmc
    rw [flagsDiffer_iff] at hbad
    simp only [not_and_or] at hbad
    have hb : (!mfv || !mfm || mfp) = true := by
      cases mfv <;> cases mfm <;> cases mfp <;> simp at hbad ⊢
    rcases hcode with rfl | rfl | rfl <;> rcases hnmc with rfl | rfl <;>
      simp [getSN, hdec, getSN_loop1, getSN_number, hb, NodeSGSN, NodeMME, NodeMSC,
        getSN_loopSGSN, getSN_name, getSN_realm, hn]
  · intro hcode hgood hrej
    simp only [flags, Prod.mk.injEq] at hgood
    obtain ⟨rfl, rfl, rfl⟩ := hgood
    rcases hcode with ⟨rfl, rfl | rfl⟩ | ⟨rfl | rfl, rfl | rfl⟩ <;>
      simp [getSN, hdec, getSN_loop1, getSN_number, NodeSGSN, NodeMME, NodeMSC,
        getSN_loopSGSN, getSN_loopMME, getSN_name, getSN_realm, hn, DecodeOctetString]

/-- Witness of C33: an SGSN-Number child with the M flag clear followed by a well-formed
SGSN-Name child, and an MME-Number child with an empty payload, which the strict
`B2E164` rejects, followed by a well-formed MME-Name child. -/
theorem C33_getSN_error_overwritten_witness :
    ((getSN plainDeps servingNodeBadFlags).e = none
      ∧ (getSN plainDeps servingNodeBadFlags).t = NodeSGSN
      ∧ (getSN plainDeps servingNodeBadFlags).d = [])
    ∧ (getSN strictDeps servingNodeEmptyNumber).e = none :=
  ⟨((C33_getSN_error_overwritten plainDeps servingNodeBadFlags
      { Code := 1489, VenID := 10415, FlgV := true, FlgM := false, FlgP := false,
        data := [0x91, 0x18, 0x09] }
      { Code := 2409, VenID := 10415, FlgV := true, FlgM := true, FlgP := false,
        data := ascii "sgsn" }
      (ascii "sgsn") (by decide) (by decide) (by decide) (by decide)).2.1
      (by decide) (by decide) (by decide)).2,
   ((C33_getSN_error_overwritten strictDeps servingNodeEmptyNumber
      { Code := 1645, VenID := 10415, FlgV := true, FlgM := true, FlgP := false, data := [] }
      { Code := 2402, VenID := 10415, FlgV := true, FlgM := true, FlgP := false,
        data := ascii "mme" }
      (ascii "mme") (by decide) (by decide) (by decide) (by decide)).2.2
      (by decide) (by decide) (by decide)).2⟩

/-- C34. For every Serving-Node AVP with valid flags whose decoded children include none
of SGSN-Number (1489), MME-Number-for-MT-SMS (1645) and MSC-Number (2403), `getSN`
reports node type NodeSGSN and the zero number; when the children include neither an
SGSN-Name (2409) nor an SGSN-Realm (2410) it returns a nil error, with an empty name and
realm: the missing number is not reported. -/
theorem C34_getSN_without_number {IMSI E164 Address : Type} (D : Deps IMSI E164 Address)
    (a : RawAVP) (o : List RawAVP)
    (hflags : a.flags = (true, true, false)) (hdec : a.DecodeGrouped = .ok o)
    (hnum : ∀ c ∈ o, c.Code ≠ 1489 ∧ c.Code ≠ 1645 ∧ c.Code ≠ 2403) :
    (getSN D a).t = NodeSGSN ∧ (getSN D a).d = D.zeroE164
    ∧ ((∀ c ∈ o, c.Code ≠ 2409 ∧ c.Code ≠ 2410) →
        getSN D a =
          { t := NodeSGSN, d := D.zeroE164, n := [], r := [], e := none, decodes := 1 }) := by
  obtain ⟨ac, ai, afv, afm, afp, adata⟩ := a
  simp only [flags, Prod.mk.injEq] at hflags
  obtain ⟨rfl, rfl, rfl⟩ := hflags
  have h1 := foldl_getSN_loop1_skip D o hnum
  have hg : getSN D
      { Code := ac, VenID := ai, FlgV := true, FlgM := true, FlgP := false, data := adata } =
      o.foldl getSN_loopSGSN
        { t := NodeSGSN, d := D.zeroE164, n := [], r := [], e := none, decodes := 1 } := by
    simp [getSN, hdec, h1]
  rw [hg]
  refine ⟨(foldl_getSN_loopSGSN_t_d o _).1, (foldl_getSN_loopSGSN_t_d o _).2, ?_⟩
  intro h2
  exact foldl_getSN_loopSGSN_skip o h2 _

/-- Witness of C34: a Serving-Node AVP holding only an MME-Name child. -/
theorem C34_getSN_without_number_witness :
    getSN plainDeps servingNodeNoNumber =
      { t := NodeSGSN, d := [], n := [], r := [], e := none, decodes := 1 } :=
  (C34_getSN_without_number plainDeps servingNodeNoNumber
    [{ Code := 2402, VenID := 10415, FlgV := true, FlgM := true, FlgP := false,
       data := ascii "mme" }]
    (by decide) (by decide) (by decide)).2.2 (by decide)

/-! ## LMSI and the node-specific diagnostics -/

/-- C35. `setLMSI(v)` carries `v` as 4 big-endian bytes and `getLMSI(setLMSI(v))` returns
`v` with no error for every 32-bit `v`; for every AVP with valid flags whose octet-string
payload is not exactly 4 bytes long, `getLMSI` returns 0 with a nil error. -/
theorem C35_lmsi (v : Nat) (a : RawAVP) (hv : v < 2 ^ 32) :
    (setLMSI v).data = be32 v ∧ (setLMSI v).data.length = 4
    ∧ getLMSI (setLMSI v) = { v := v, e := none, decodes := 1 }
    ∧ (∀ s : List Nat, a.flags = (true, true, false) → a.DecodeOctetString = .ok s →
        s.length ≠ 4 → getLMSI a = { v := 0, e := none, decodes := 1 }) := by
  refine ⟨rfl, by simp [setLMSI, EncodeOctetString, be32], ?_, ?_⟩
  · simp [getLMSI, setLMSI, EncodeOctetString, DecodeOctetString, be32, fromBE32_be32 v hv]
  · intro s hf hd hs
    obtain ⟨c, i, fv, fm, fp, data⟩ := a
    simp only [flags, Prod.mk.injEq] at hf
    obtain ⟨rfl, rfl, rfl⟩ := hf
    simp only [DecodeOctetString, Except.ok.injEq] at hd
    subst hd
    rcases data with _ | ⟨b0, _ | ⟨b1, _ | ⟨b2, _ | ⟨b3, _ | ⟨b4, rest⟩⟩⟩⟩⟩
    all_goals first
      | (exfalso; exact hs rfl)
      | simp [getLMSI, DecodeOctetString]

/-- Witness of C35: the LMSI 0xDEADBEEF, and an LMSI AVP with a 3-byte payload. -/
theorem C35_lmsi_witness :
    getLMSI (setLMSI 0xDEADBEEF) = { v := 0xDEADBEEF, e := none, decodes := 1 }
    ∧ getLMSI { Code := 2400, VenID := 10415, FlgV := true, FlgM := true, FlgP := false,
                data := [1, 2, 3] } = { v := 0, e := none, decodes := 1 } :=
  ⟨(C35_lmsi 0xDEADBEEF (setLMSI 0) (by decide)).2.2.1,
   (C35_lmsi 0
      { Code := 2400, VenID := 10415, FlgV := true, FlgM := true, FlgP := false,
        data := [1, 2, 3] } (by decide)).2.2.2 [1, 2, 3] (by decide) (by decide) (by decide)⟩

/-- C37. The node-specific diagnostic getters are restrictions of the general one: for
every AVP on which `getMMEAbsentUserDiagnosticSM`, `getMSCAbsentUserDiagnosticSM` or
`getSGSNAbsentUserDiagnosticSM` returns no error, `getAbsentUserDiagnosticSM` returns the
same diagnostic with no error. With valid flags and a decoded wire value `s`, the MME and
MSC getters succeed exactly for `s` in {0,1,2,3,4,9,13} and the SGSN getter exactly for
`s` in {1,2,5,6,7,8,10,13}; on each of these wire values the setter applied to what the
getter returns encodes that wire value again, and on each diagnostic a setter encodes,
the getter applied to the setter returns it. -/
theorem C37_node_diagnostics_restrict_general (a : RawAVP) :
    ((getMMEAbsentUserDiagnosticSM a).e = none →
        getAbsentUserDiagnosticSM a = getMMEAbsentUserDiagnosticSM a)
    ∧ ((getMSCAbsentUserDiagnosticSM a).e = none →
        getAbsentUserDiagnosticSM a = getMSCAbsentUserDiagnosticSM a)
    ∧ ((getSGSNAbsentUserDiagnosticSM a).e = none →
        getAbsentUserDiagnosticSM a = getSGSNAbsentUserDiagnosticSM a)
    ∧ (∀ s : Nat, a.flags = (true, true, false) → a.DecodeUnsigned32 = .ok s →
        ((getMMEAbsentUserDiagnosticSM a).e = none ↔ s ∈ [0, 1, 2, 3, 4, 9, 13])
        ∧ ((getMSCAbsentUserDiagnosticSM a).e = none ↔ s ∈ [0, 1, 2, 3, 4, 9, 13])
        ∧ ((getSGSNAbsentUserDiagnosticSM a).e = none ↔ s ∈ [1, 2, 5, 6, 7, 8, 10, 13]))
    ∧ (∀ s ∈ [0, 1, 2, 3, 4, 9, 13],
        setMMEAbsentUserDiagnosticSM
            (getMMEAbsentUserDiagnosticSM ((setMMEAbsentUserDiagnosticSM 0).EncodeUnsigned32 s)).v =
          (setMMEAbsentUserDiagnosticSM 0).EncodeUnsigned32 s
        ∧ setMSCAbsentUserDiagnosticSM
            (getMSCAbsentUserDiagnosticSM ((setMSCAbsentUserDiagnosticSM 0).EncodeUnsigned32 s)).v =
          (setMSCAbsentUserDiagnosticSM 0).EncodeUnsigned32 s)
    ∧ (∀ s ∈ [1, 2, 5, 6, 7, 8, 10, 13],
        setSGSNAbsentUserDiagnosticSM
            (getSGSNAbsentUserDiagnosticSM ((setSGSNAbsentUserDiagnosticSM 0).EncodeUnsigned32 s)).v =
          (setSGSNAbsentUserDiagnosticSM 0).EncodeUnsigned32 s)
    ∧ (∀ d ∈ [NoPagingRespMSC, IMSIDetached, RoamingRestrict, DeregisteredNonGPRS,
          PurgedNonGPRS, UnidentifiedSubsMSC, TempUnavailable],
        getMMEAbsentUserDiagnosticSM (setMMEAbsentUserDiagnosticSM d) =
          { v := d, e := none, decodes := 1 }
        ∧ getMSCAbsentUserDiagnosticSM (setMSCAbsentUserDiagnosticSM d) =
          { v := d, e := none, decodes := 1 })
    ∧ (∀ d ∈ [IMSIDetached, RoamingRestrict, NoPagingRespSGSN, GPRSDetached,
          DeregisteredGPRS, PurgedGPRS, UnidentifiedSubsSGSN, TempUnavailable],
        getSGSNAbsentUserDiagnosticSM (setSGSNAbsentUserDiagnosticSM d) =
          { v := d, e := none, decodes := 1 }) := by
  refine ⟨?_, ?_, ?_, ?_, by decide, by decide, by decide, by decide⟩
  · intro he
    by_cases hfl : (!a.FlgV || !a.FlgM || a.FlgP) = true
    · simp [getMMEAbsentUserDiagnosticSM, hfl] at he
    · cases hd : a.DecodeUnsigned32 with
      | error e => simp [getMMEAbsentUserDiagnosticSM, hfl, hd] at he
      | ok s =>
        by_cases hs : s ≤ 13
        · interval_cases s <;>
            simp [getMMEAbsentUserDiagnosticSM, getAbsentUserDiagnosticSM, hfl, hd] at he ⊢
        · have h : ∀ k : Nat, k ≤ 13 → s ≠ k := fun k hk => by omega
          simp [getMMEAbsentUserDiagnosticSM, hfl, hd, h] at he
  · intro he
    by_cases hfl : (!a.FlgV || !a.FlgM || a.FlgP) = true
    · simp [getMSCAbsentUserDiagnosticSM, hfl] at he
    · cases hd : a.DecodeUnsigned32 with
      | error e => simp [getMSCAbsentUserDiagnosticSM, hfl, hd] at he
      | ok s =>
        by_cases hs : s ≤ 13
        · interval_cases s <;>
            simp [getMSCAbsentUserDiagnosticSM, getAbsentUserDiagnosticSM, hfl, hd] at he ⊢
        · have h : ∀ k : Nat, k ≤ 13 → s ≠ k := fun k hk => by omega
          simp [getMSCAbsentUserDiagnosticSM, hfl, hd, h] at he
  · intro he
    by_cases hfl : (!a.FlgV || !a.FlgM || a.FlgP) = true
    · simp [getSGSNAbsentUserDiagnosticSM, hfl] at he
    · cases hd : a.DecodeUnsigned32 with
      | error e => simp [getSGSNAbsentUserDiagnosticSM, hfl, hd] at he
      | ok s =>
        by_cases hs : s ≤ 13
        · interval_cases s <;>
            simp [getSGSNAbsentUserDiagnosticSM, getAbsentUserDiagnosticSM, hfl, hd] at he ⊢
        · have h : ∀ k : Nat, k ≤ 13 → s ≠ k := fun k hk => by omega
          simp [getSGSNAbsentUserDiagnosticSM, hfl, hd, h] at he
  · intro s hf hd
    obtain ⟨c, i, fv, fm, fp, data⟩ := a
    simp only [flags, Prod.mk.injEq] at hf
    obtain ⟨rfl, rfl, rfl⟩ := hf
    by_cases hs : s ≤ 13
    · interval_cases s <;>
        simp [getMMEAbsentUserDiagnosticSM, getMSCAbsentUserDiagnosticSM,
          getSGSNAbsentUserDiagnosticSM, hd]
    · have h : ∀ k : Nat, k ≤ 13 → s ≠ k := fun k hk => by omega
      simp [getMMEAbsentUserDiagnosticSM, getMSCAbsentUserDiagnosticSM,
        getSGSNAbsentUserDiagnosticSM, hd, h]

/-- Witness of C37: an SGSN diagnostic AVP carrying the wire value 10 reads as
UnidentifiedSubsSGSN with both getters. -/
theorem C37_node_diagnostics_restrict_general_witness :
    getAbsentUserDiagnosticSM (setSGSNAbsentUserDiagnosticSM UnidentifiedSubsSGSN) =
      getSGSNAbsentUserDiagnosticSM (setSGSNAbsentUserDiagnosticSM UnidentifiedSubsSGSN)
    ∧ ((getMMEAbsentUserDiagnosticSM
          (setSGSNAbsentUserDiagnosticSM UnidentifiedSubsSGSN)).e = none ↔
        10 ∈ [0, 1, 2, 3, 4, 9, 13]) :=
  ⟨(C37_node_diagnostics_restrict_general
      (setSGSNAbsentUserDiagnosticSM UnidentifiedSubsSGSN)).2.2.1 (by decide),
   ((C37_node_diagnostics_restrict_general
      (setSGSNAbsentUserDiagnosticSM UnidentifiedSubsSGSN)).2.2.2.1 10 (by decide)
      (by decide)).1⟩

end Diameter
